import Mathlib

/-!
Device-provisioning backend: a shallow embedding.

The Go services of the repository (`internal/service`, `internal/repository`,
`internal/handlers`) are embedded as pure functions over an explicit `World`:
the relational store, the number of SQL statements executed so far, the list of
requests handed to the platform's HTTP client, and the lines printed to
standard output.  Everything the program does not decide itself (driver
failures, generated row ids, the database clock, the platform's answers, JSON
decoding, password hashing and token minting) is read from an `Env`.

Go errors are represented by their message (`fmt.Errorf` with `%w` becomes
string concatenation), so a function returning `(T, error)` becomes a function
returning `Except String T × World`.
-/

namespace Chirpstack

/-! ## Models (`internal/models`, `internal/config`) -/

/-- A `uuid.UUID`, represented by its canonical text. -/
structure UUID where
  text : String
deriving DecidableEq, Repr

/-- The method `uuid.UUID.String`. -/
def UUID.String (u : UUID) : String := u.text

/-- The zero value `uuid.Nil` of a `uuid.UUID`. -/
def UUID.Nil : UUID := ⟨"00000000-0000-0000-0000-000000000000"⟩

/-- A `time.Time`, as a number of clock ticks. -/
abbrev Time := Nat

/-- The struct `models.User`. -/
structure User where
  ID : UUID
  Email : String
  PasswordHash : String
  FullName : String
  TenantID : Option String
  ApplicationID : Option String
  DeviceProfileID : Option String
  CreatedAt : Time
  UpdatedAt : Time
deriving DecidableEq, Repr

/-- The struct `models.RegisterRequest`. -/
structure RegisterRequest where
  Email : String
  Password : String
  FullName : String
deriving DecidableEq, Repr

/-- The struct `models.AuthResponse`. -/
structure AuthResponse where
  Token : String
  User : User
deriving DecidableEq, Repr

/-- The struct `models.DeviceVersion`. -/
structure DeviceVersion where
  ID : UUID
  Name : String
  Version : String
  Description : Option String
  CreatedAt : Time
  UpdatedAt : Time
deriving DecidableEq, Repr

/-- The struct `models.AllowedDevice`. -/
structure AllowedDevice where
  ID : UUID
  DevEUI : String
  NwkKey : String
  AppKey : String
  AddrKey : String
  Description : Option String
  CreatedAt : Time
  UpdatedAt : Time
deriving DecidableEq, Repr

/-- The struct `models.Device`.  A row of the `devices` table is a `Device`
whose joined fields `Version` and `User` are `none`. -/
structure Device where
  ID : UUID
  UserID : UUID
  VersionID : UUID
  Name : String
  DevEUI : String
  Description : Option String
  ChirpStackDeviceCreated : Bool
  ChirpStackDeviceActivated : Bool
  IsActive : Bool
  CreatedAt : Time
  UpdatedAt : Time
  Version : Option DeviceVersion
  User : Option User
deriving DecidableEq, Repr

/-- The struct `models.CreateDeviceRequest`. -/
structure CreateDeviceRequest where
  Name : String
  VersionID : UUID
  DevEUI : String
  Description : Option String
deriving DecidableEq, Repr

/-- The struct `models.ChirpStackDeviceInfo`; the two `map[string]string`
fields are association lists. -/
structure ChirpStackDeviceInfo where
  ApplicationID : String
  Description : String
  DevEUI : String
  DeviceProfileID : String
  IsDisabled : Bool
  JoinEUI : String
  Name : String
  SkipFcntCheck : Bool
  Tags : List (String × String)
  Variables : List (String × String)
deriving DecidableEq, Repr

/-- The struct `models.ChirpStackCreateDeviceRequest`. -/
structure ChirpStackCreateDeviceRequest where
  Device : ChirpStackDeviceInfo
deriving DecidableEq, Repr

/-- The struct `models.ChirpStackDeviceActivation`. -/
structure ChirpStackDeviceActivation where
  AFCntDown : Int
  AppSKey : String
  DevAddr : String
  FCntUp : Int
  FNwkSIntKey : String
  NFCntDown : Int
  NwkSEncKey : String
  SNwkSIntKey : String
deriving DecidableEq, Repr

/-- The struct `models.ChirpStackActivateDeviceRequest`. -/
structure ChirpStackActivateDeviceRequest where
  DeviceActivation : ChirpStackDeviceActivation
deriving DecidableEq, Repr

/-- The struct `models.ChirpStackTenant`. -/
structure ChirpStackTenant where
  CanHaveGateways : Bool
  Description : String
  MaxDeviceCount : Int
  MaxGatewayCount : Int
  Name : String
  PrivateGatewaysDown : Bool
  PrivateGatewaysUp : Bool
  Tags : List (String × String)
deriving DecidableEq, Repr

/-- The struct `models.CreateTenantRequest`. -/
structure CreateTenantRequest where
  Tenant : ChirpStackTenant
deriving DecidableEq, Repr

/-- The struct `models.ChirpStackApplication`. -/
structure ChirpStackApplication where
  TenantID : String
  Name : String
  Description : String
  Tags : List (String × String)
deriving DecidableEq, Repr

/-- The struct `models.CreateApplicationRequest`. -/
structure CreateApplicationRequest where
  Application : ChirpStackApplication
deriving DecidableEq, Repr

/-- The struct `models.ChirpStackDeviceProfile`, cut down to the tenant it is
created under and the identifying radio parameters of the preset.  The other
fields of the Go struct (codec script, measurement table, class-B and relay
settings) are constants of the preset that no operation reads back. -/
structure ChirpStackDeviceProfile where
  TenantID : String
  Name : String
  Description : String
  Region : String
  MacVersion : String
  RegParamsRevision : String
  AdrAlgorithmID : String
  PayloadCodecRuntime : String
  FlushQueueOnActivate : Bool
  UplinkInterval : Int
  DeviceStatusReqInterval : Int
  SupportsOtaa : Bool
  SupportsClassB : Bool
  SupportsClassC : Bool
  AbpRx1Delay : Int
  AbpRx1DrOffset : Int
  AbpRx2Dr : Int
  AbpRx2Freq : Int
  AutoDetectMeasurements : Bool
  RegionConfigID : String
deriving DecidableEq, Repr

/-- The struct `models.CreateDeviceProfileRequest`. -/
structure CreateDeviceProfileRequest where
  DeviceProfile : ChirpStackDeviceProfile
deriving DecidableEq, Repr

/-- The struct `models.ChirpStackUserData`. -/
structure ChirpStackUserData where
  TenantID : String
  ApplicationID : String
  DeviceProfileID : String
  CreatedAt : Time
deriving DecidableEq, Repr

/-- The platform fields of `config.Config`. -/
structure Config where
  ChirpStackHost : String
  ChirpStackPort : String
  ChirpStackToken : String
  ChirpStackEnabled : Bool
deriving DecidableEq, Repr

/-! ## The world outside the program -/

/-- The `payload interface{}` argument of `makeRequest`: `nil` or one of the
request structs the services pass. -/
inductive Payload where
  | nil
  | tenant (r : CreateTenantRequest)
  | application (r : CreateApplicationRequest)
  | deviceProfile (r : CreateDeviceProfileRequest)
  | device (r : ChirpStackCreateDeviceRequest)
  | activation (r : ChirpStackActivateDeviceRequest)
deriving DecidableEq, Repr

/-- What `makeRequest` hands to the HTTP client: method, URL, the two headers
it sets and the payload that is marshalled into the body. -/
structure HttpRequest where
  method : String
  url : String
  contentType : String
  authorization : String
  body : Payload
deriving DecidableEq, Repr

/-- What the HTTP client library gives back for one request: `http.NewRequest`
fails, `httpClient.Do` fails, `io.ReadAll` fails, or a status code and a
body arrive. -/
inductive HttpOutcome where
  | createFailed (err : String)
  | doFailed (err : String)
  | readFailed (err : String)
  | response (status : Int) (body : String)
deriving DecidableEq, Repr

/-- The four tables of the relational store, rows in insertion order. -/
structure DB where
  users : List User
  device_versions : List DeviceVersion
  allowed_devices : List AllowedDevice
  devices : List Device
deriving DecidableEq, Repr

/-- State threaded through every operation: the store, the number of SQL
statements executed so far, the requests handed to the platform's HTTP client
(oldest first) and the lines printed to standard output. -/
structure World where
  db : DB
  stmts : Nat
  requests : List HttpRequest
  stdout : List String
deriving DecidableEq, Repr

/-- Everything the program reads from its collaborators.  The database side is
indexed by the number of the SQL statement, the platform side by the number of
the request. -/
structure Env where
  /-- driver failure of the n-th statement, if any -/
  dbFault : Nat → Option String
  /-- row id the store generates when the n-th statement is an insert -/
  genID : Nat → UUID
  /-- value of the store clock during the n-th statement -/
  now : Nat → Time
  /-- column default of `devices.is_active` (its table declaration is not part of the sources) -/
  isActiveDefault : Bool
  /-- answer of the HTTP client to the n-th request -/
  http : Nat → HttpRequest → HttpOutcome
  /-- decoding a response body with `json.Unmarshal` into a struct with the one field `ID` -/
  jsonID : String → Except String String
  /-- the function `auth.HashPassword` -/
  HashPassword : String → Except String String
  /-- the function `auth.CheckPasswordHash` -/
  CheckPasswordHash : String → String → Bool
  /-- the method `auth.JWTService.GenerateToken` -/
  GenerateToken : UUID → String → Except String String

/-- One more SQL statement has been sent to the store. -/
def World.tick (w : World) : World := { w with stmts := w.stmts + 1 }

/-- A line written with `fmt.Printf`. -/
def World.print (w : World) (line : String) : World := { w with stdout := w.stdout ++ [line] }

/-- Modelled from the spec: the table declarations (migrations) are not part
of the sources.  The spec's device-creation step 5 has the two
platform-progress columns of a new `devices` row initialised to false. -/
def progressDefault : Bool := false

/-- Modelled from the spec: the table declarations are not part of the
sources.  Row ids are unique identifiers, `users.email` and
`allowed_devices.dev_eui` are declared unique; an insert that would repeat
such a value is refused by the store with this error. -/
def uniqueViolation : String := "duplicate key value violates unique constraint"

/-- The error of `database/sql` when a device row is scanned whose
`LEFT JOIN device_versions` found no version row: the joined columns are NULL,
`version.id` (a `uuid.UUID`) accepts NULL, and `version.name`, the thirteenth
column, is scanned into a `string`. -/
def scanNullError : String :=
  "sql: Scan error on column index 12, name \"version.name\": " ++
    "converting NULL to string is unsupported"

/-! ## Repositories (`internal/repository`) -/

namespace UserRepository

/-- The method `UserRepository.CreateUser`: one `INSERT ... RETURNING id,
created_at, updated_at`; the three platform columns of the new row are NULL.
Returns the caller's struct with the three returned columns filled in. -/
def CreateUser (env : Env) (user : User) (w : World) : Except String User × World :=
  match env.dbFault w.stmts with
  | some err => (.error ("failed to create user: " ++ err), w.tick)
  | none =>
    let id := env.genID w.stmts
    if w.db.users.any (fun u => u.ID == id || u.Email == user.Email) then
      (.error ("failed to create user: " ++ uniqueViolation), w.tick)
    else
      let t := env.now w.stmts
      let row : User :=
        { ID := id, Email := user.Email, PasswordHash := user.PasswordHash,
          FullName := user.FullName, TenantID := none, ApplicationID := none,
          DeviceProfileID := none, CreatedAt := t, UpdatedAt := t }
      (.ok { user with ID := id, CreatedAt := t, UpdatedAt := t },
        { w.tick with db := { w.db with users := w.db.users ++ [row] } })

/-- The method `UserRepository.GetUserByEmail`: `WHERE email = $1`. -/
def GetUserByEmail (env : Env) (email : String) (w : World) : Except String User × World :=
  match env.dbFault w.stmts with
  | some err => (.error ("failed to get user: " ++ err), w.tick)
  | none =>
    match w.db.users.find? (fun u => u.Email == email) with
    | none => (.error "user not found", w.tick)
    | some u => (.ok u, w.tick)

/-- The method `UserRepository.GetUserByID`: `WHERE id = $1`, the id given as text. -/
def GetUserByID (env : Env) (id : String) (w : World) : Except String User × World :=
  match env.dbFault w.stmts with
  | some err => (.error ("failed to get user: " ++ err), w.tick)
  | none =>
    match w.db.users.find? (fun u => u.ID.String == id) with
    | none => (.error "user not found", w.tick)
    | some u => (.ok u, w.tick)

/-- The method `UserRepository.UpdateUserChirpStackData`: one `UPDATE users SET
tenant_id, application_id, device_profile_id, updated_at WHERE id = $4`; fails
when no row was affected. -/
def UpdateUserChirpStackData (env : Env) (id tenantID applicationID deviceProfileID : String)
    (w : World) : Option String × World :=
  match env.dbFault w.stmts with
  | some err => (some ("failed to update user ChirpStack data: " ++ err), w.tick)
  | none =>
    let users := w.db.users.map (fun u =>
      if u.ID.String == id then
        { u with TenantID := some tenantID, ApplicationID := some applicationID,
                 DeviceProfileID := some deviceProfileID, UpdatedAt := env.now w.stmts }
      else u)
    let w1 : World := { w.tick with db := { w.db with users := users } }
    if (w.db.users.filter (fun u => u.ID.String == id)).length = 0 then
      (some "user not found", w1)
    else (none, w1)

end UserRepository

namespace DeviceRepository

/-- The method `DeviceRepository.GetDeviceVersionByID`. -/
def GetDeviceVersionByID (env : Env) (id : UUID) (w : World) :
    Except String DeviceVersion × World :=
  match env.dbFault w.stmts with
  | some err => (.error err, w.tick)
  | none =>
    match w.db.device_versions.find? (fun v => v.ID == id) with
    | none => (.error "device version not found", w.tick)
    | some v => (.ok v, w.tick)

/-- The method `DeviceRepository.GetAllowedDeviceByDevEUI`: `WHERE dev_eui = $1`. -/
def GetAllowedDeviceByDevEUI (env : Env) (devEUI : String) (w : World) :
    Except String AllowedDevice × World :=
  match env.dbFault w.stmts with
  | some err => (.error err, w.tick)
  | none =>
    match w.db.allowed_devices.find? (fun a => a.DevEUI == devEUI) with
    | none => (.error "allowed device not found", w.tick)
    | some a => (.ok a, w.tick)

/-- The method `DeviceRepository.CreateDevice`: one `INSERT INTO devices
(user_id, version_id, name, dev_eui, description) ... RETURNING id, created_at,
updated_at`; the columns the statement does not name take their defaults.
Returns the caller's struct with the three returned columns filled in. -/
def CreateDevice (env : Env) (device : Device) (w : World) : Except String Device × World :=
  match env.dbFault w.stmts with
  | some err => (.error err, w.tick)
  | none =>
    let id := env.genID w.stmts
    if w.db.devices.any (fun d => d.ID == id) then (.error uniqueViolation, w.tick)
    else
      let t := env.now w.stmts
      let row : Device :=
        { ID := id, UserID := device.UserID, VersionID := device.VersionID,
          Name := device.Name, DevEUI := device.DevEUI, Description := device.Description,
          ChirpStackDeviceCreated := progressDefault,
          ChirpStackDeviceActivated := progressDefault,
          IsActive := env.isActiveDefault, CreatedAt := t, UpdatedAt := t,
          Version := none, User := none }
      (.ok { device with ID := id, CreatedAt := t, UpdatedAt := t },
        { w.tick with db := { w.db with devices := w.db.devices ++ [row] } })

/-- The method `DeviceRepository.GetDeviceByID`: the device row with
`WHERE d.id = $1`, left-joined with its version.  When the version row is
missing the scan of the joined row fails, and that error, which is not
`sql.ErrNoRows`, is returned as it is. -/
def GetDeviceByID (env : Env) (id : UUID) (w : World) : Except String Device × World :=
  match env.dbFault w.stmts with
  | some err => (.error err, w.tick)
  | none =>
    match w.db.devices.find? (fun d => d.ID == id) with
    | none => (.error "device not found", w.tick)
    | some d =>
      match w.db.device_versions.find? (fun v => v.ID == d.VersionID) with
      | none => (.error scanNullError, w.tick)
      | some v => (.ok { d with Version := some v }, w.tick)

/-- The method `DeviceRepository.UpdateDeviceChirpStackStatus`: one `UPDATE
devices SET chirpstack_device_created, chirpstack_device_activated, updated_at
WHERE id = $3`; fails when no row was affected. -/
def UpdateDeviceChirpStackStatus (env : Env) (id : UUID) (created activated : Bool)
    (w : World) : Option String × World :=
  match env.dbFault w.stmts with
  | some err => (some err, w.tick)
  | none =>
    let devices := w.db.devices.map (fun d =>
      if d.ID == id then
        { d with ChirpStackDeviceCreated := created, ChirpStackDeviceActivated := activated,
                 UpdatedAt := env.now w.stmts }
      else d)
    let w1 : World := { w.tick with db := { w.db with devices := devices } }
    if (w.db.devices.filter (fun d => d.ID == id)).length = 0 then
      (some "device not found", w1)
    else (none, w1)

/-- The method `DeviceRepository.DeleteDevice`: `DELETE FROM devices WHERE
id = $1`; fails when no row was affected. -/
def DeleteDevice (env : Env) (id : UUID) (w : World) : Option String × World :=
  match env.dbFault w.stmts with
  | some err => (some err, w.tick)
  | none =>
    let w1 : World :=
      { w.tick with db := { w.db with devices := w.db.devices.filter (fun d => !(d.ID == id)) } }
    if (w.db.devices.filter (fun d => d.ID == id)).length = 0 then
      (some "device not found", w1)
    else (none, w1)

end DeviceRepository

/-! ## Platform Gateway (`internal/service/chirpstack_service.go`) -/

/-- The struct `service.ChirpStackService`: its configuration and whether its
`userRepo` pointer is non-nil (the repository itself is the `users` table of
the world). -/
structure ChirpStackService where
  config : Config
  userRepo : Bool
deriving DecidableEq, Repr

namespace ChirpStackService

/-- The method `ChirpStackService.IsEnabled`. -/
def IsEnabled (cs : ChirpStackService) : Bool :=
  cs.config.ChirpStackEnabled && cs.config.ChirpStackToken != ""

/-- The method `ChirpStackService.getBaseURL`. -/
def getBaseURL (cs : ChirpStackService) : String :=
  "http://" ++ cs.config.ChirpStackHost ++ ":" ++ cs.config.ChirpStackPort ++ "/api"

/-- The request `makeRequest` builds for a method, an endpoint and a payload. -/
def buildRequest (cs : ChirpStackService) (method endpoint : String) (payload : Payload) :
    HttpRequest :=
  { method := method, url := cs.getBaseURL ++ endpoint, contentType := "application/json",
    authorization := "Bearer " ++ cs.config.ChirpStackToken, body := payload }

/-- The method `ChirpStackService.makeRequest`: when `http.NewRequest` fails
the method returns before anything is handed to the HTTP client; otherwise the
request is handed to the client once, and any failure of the client and any
status outside 200..299 is an error.  (Marshalling cannot fail for the payload
structs.) -/
def makeRequest (cs : ChirpStackService) (env : Env) (method endpoint : String)
    (payload : Payload) (w : World) : Except String String × World :=
  let req := cs.buildRequest method endpoint payload
  let w1 : World := { w with requests := w.requests ++ [req] }
  match env.http w.requests.length req with
  | .createFailed err => (.error ("failed to create request: " ++ err), w)
  | .doFailed err => (.error ("failed to make request: " ++ err), w1)
  | .readFailed err => (.error ("failed to read response: " ++ err), w1)
  | .response status body =>
    if status < 200 ∨ status ≥ 300 then
      (.error ("ChirpStack API error (status " ++ toString status ++ "): " ++ body), w1)
    else (.ok body, w1)

/-- The method `ChirpStackService.CreateTenant`. -/
def CreateTenant (cs : ChirpStackService) (env : Env) (username : String) (w : World) :
    Except String String × World :=
  let tenantReq : CreateTenantRequest :=
    { Tenant :=
        { CanHaveGateways := true, Description := username, MaxDeviceCount := 10000,
          MaxGatewayCount := 10000, Name := username, PrivateGatewaysDown := true,
          PrivateGatewaysUp := true, Tags := [] } }
  match cs.makeRequest env "POST" "/tenants" (.tenant tenantReq) w with
  | (.error err, w1) => (.error ("failed to create tenant: " ++ err), w1)
  | (.ok responseBody, w1) =>
    match env.jsonID responseBody with
    | .error err => (.error ("failed to parse tenant response: " ++ err), w1)
    | .ok id => (.ok id, w1)

/-- The method `ChirpStackService.CreateApplication`. -/
def CreateApplication (cs : ChirpStackService) (env : Env) (tenantID name : String)
    (w : World) : Except String String × World :=
  let appReq : CreateApplicationRequest :=
    { Application :=
        { TenantID := tenantID, Name := name, Description := "Application for " ++ name,
          Tags := [] } }
  match cs.makeRequest env "POST" "/applications" (.application appReq) w with
  | (.error err, w1) => (.error ("failed to create application: " ++ err), w1)
  | (.ok responseBody, w1) =>
    match env.jsonID responseBody with
    | .error err => (.error ("failed to parse application response: " ++ err), w1)
    | .ok id => (.ok id, w1)

/-- The method `ChirpStackService.CreateDeviceProfile`. -/
def CreateDeviceProfile (cs : ChirpStackService) (env : Env) (tenantID : String)
    (w : World) : Except String String × World :=
  let deviceProfileReq : CreateDeviceProfileRequest :=
    { DeviceProfile :=
        { TenantID := tenantID, Name := "RAK_ABP", Description := "", Region := "AS923_2",
          MacVersion := "LORAWAN_1_0_3", RegParamsRevision := "A",
          AdrAlgorithmID := "default", PayloadCodecRuntime := "JS",
          FlushQueueOnActivate := true, UplinkInterval := 3600,
          DeviceStatusReqInterval := 1, SupportsOtaa := false, SupportsClassB := false,
          SupportsClassC := true, AbpRx1Delay := 1, AbpRx1DrOffset := 0, AbpRx2Dr := 2,
          AbpRx2Freq := 921400000, AutoDetectMeasurements := true,
          RegionConfigID := "as923_2" } }
  match cs.makeRequest env "POST" "/device-profiles" (.deviceProfile deviceProfileReq) w with
  | (.error err, w1) => (.error ("failed to create device profile: " ++ err), w1)
  | (.ok responseBody, w1) =>
    match env.jsonID responseBody with
    | .error err => (.error ("failed to parse device profile response: " ++ err), w1)
    | .ok id => (.ok id, w1)

/-- The method `ChirpStackService.CreateUserResources`: tenant, application,
device profile, then the three identifiers are written onto the user row (a
failure of that write is only printed). -/
def CreateUserResources (cs : ChirpStackService) (env : Env) (userID username : String)
    (w : World) : Except String ChirpStackUserData × World :=
  if !cs.IsEnabled then (.error "ChirpStack integration is disabled", w)
  else
    match cs.CreateTenant env username w with
    | (.error err, w1) => (.error ("failed to create tenant: " ++ err), w1)
    | (.ok tenantID, w1) =>
      match cs.CreateApplication env tenantID "Lnode" w1 with
      | (.error err, w2) => (.error ("failed to create application: " ++ err), w2)
      | (.ok applicationID, w2) =>
        match cs.CreateDeviceProfile env tenantID w2 with
        | (.error err, w3) => (.error ("failed to create device profile: " ++ err), w3)
        | (.ok deviceProfileID, w3) =>
          let w4 : World :=
            if cs.userRepo then
              match UserRepository.UpdateUserChirpStackData env userID tenantID applicationID
                  deviceProfileID w3 with
              | (some err, w3a) =>
                w3a.print ("Warning: Failed to update user ChirpStack data: " ++ err ++ "\n")
              | (none, w3a) => w3a
            else w3
          (.ok { TenantID := tenantID, ApplicationID := applicationID,
                 DeviceProfileID := deviceProfileID, CreatedAt := env.now w4.stmts }, w4)

/-- The method `ChirpStackService.DeleteDevice`. -/
def DeleteDevice (cs : ChirpStackService) (env : Env) (devEUI : String) (w : World) :
    Option String × World :=
  if !cs.IsEnabled then (some "ChirpStack integration is disabled", w)
  else
    match cs.makeRequest env "DELETE" ("/devices/" ++ devEUI) .nil w with
    | (.error err, w1) => (some ("failed to delete ChirpStack device: " ++ err), w1)
    | (.ok _, w1) => (none, w1.print ("ChirpStack device deleted: " ++ devEUI ++ "\n"))

end ChirpStackService

/-! ## Provisioning Orchestrator (`internal/service`) -/

/-- The struct `service.DeviceService`: the two repositories are the tables of
the world, the gateway pointer may be nil. -/
structure DeviceService where
  chirpStackService : Option ChirpStackService
deriving DecidableEq, Repr

/-- The struct `service.UserService`; the token service is `Env.GenerateToken`. -/
structure UserService where
  chirpStackService : Option ChirpStackService
deriving DecidableEq, Repr

/-- The guard `s.chirpStackService != nil && s.chirpStackService.IsEnabled()`
used by the three orchestrator paths. -/
def gatewayEnabled (cs : Option ChirpStackService) : Bool :=
  match cs with
  | none => false
  | some c => c.IsEnabled

namespace DeviceService

/-- The create-device request built by `createChirpStackDevice`.  The two
pointers are dereferenced; `CreateDevice` has checked that neither is nil. -/
def createDeviceRequest (device : Device) (user : User) : ChirpStackCreateDeviceRequest :=
  { Device :=
      { ApplicationID := user.ApplicationID.getD "", Description := device.Name,
        DevEUI := device.DevEUI, DeviceProfileID := user.DeviceProfileID.getD "",
        IsDisabled := false, JoinEUI := "0000000000000000", Name := device.Name,
        SkipFcntCheck := true, Tags := [], Variables := [] } }

/-- The activate-device request built by `createChirpStackDevice`. -/
def activateDeviceRequest (allowedDevice : AllowedDevice) : ChirpStackActivateDeviceRequest :=
  { DeviceActivation :=
      { AFCntDown := 0, AppSKey := allowedDevice.AppKey, DevAddr := allowedDevice.AddrKey,
        FCntUp := 0, FNwkSIntKey := allowedDevice.NwkKey, NFCntDown := 0,
        NwkSEncKey := allowedDevice.NwkKey, SNwkSIntKey := allowedDevice.NwkKey } }

/-- The method `DeviceService.createChirpStackDevice`: remote create, remote
activate, then both progress columns are set to true (a failure of that write
is only printed). -/
def createChirpStackDevice (cs : ChirpStackService) (env : Env) (device : Device) (user : User)
    (allowedDevice : AllowedDevice) (w : World) : Option String × World :=
  match cs.makeRequest env "POST" "/devices" (.device (createDeviceRequest device user)) w with
  | (.error err, w1) => (some ("failed to create ChirpStack device: " ++ err), w1)
  | (.ok responseBody, w1) =>
    let w2 := w1.print ("ChirpStack device created: " ++ responseBody ++ "\n")
    let activateURL := "/devices/" ++ device.DevEUI ++ "/activate"
    match cs.makeRequest env "POST" activateURL
        (.activation (activateDeviceRequest allowedDevice)) w2 with
    | (.error err, w3) => (some ("failed to activate ChirpStack device: " ++ err), w3)
    | (.ok responseBody2, w3) =>
      let w4 := w3.print ("ChirpStack device activated: " ++ responseBody2 ++ "\n")
      match DeviceRepository.UpdateDeviceChirpStackStatus env device.ID true true w4 with
      | (some err, w5) =>
        (none, w5.print ("Warning: Failed to update device ChirpStack status: " ++ err ++ "\n"))
      | (none, w5) => (none, w5)

/-- The method `DeviceService.CreateDevice`. -/
def CreateDevice (s : DeviceService) (env : Env) (userID : UUID) (req : CreateDeviceRequest)
    (w : World) : Except String Device × World :=
  match UserRepository.GetUserByID env userID.String w with
  | (.error err, w1) => (.error ("user not found: " ++ err), w1)
  | (.ok user, w1) =>
    if user.ApplicationID = none ∨ user.DeviceProfileID = none then
      (.error "user does not have ChirpStack application or device profile", w1)
    else
      match DeviceRepository.GetAllowedDeviceByDevEUI env req.DevEUI w1 with
      | (.error _, w2) =>
        (.error ("device with devEUI " ++ req.DevEUI ++ " not found in allowed devices"), w2)
      | (.ok allowedDevice, w2) =>
        match DeviceRepository.GetDeviceVersionByID env req.VersionID w2 with
        | (.error err, w3) => (.error ("device version not found: " ++ err), w3)
        | (.ok _, w3) =>
          let device : Device :=
            { ID := UUID.Nil, UserID := userID, VersionID := req.VersionID, Name := req.Name,
              DevEUI := req.DevEUI, Description := req.Description,
              ChirpStackDeviceCreated := false, ChirpStackDeviceActivated := false,
              IsActive := false, CreatedAt := 0, UpdatedAt := 0, Version := none,
              User := none }
          match DeviceRepository.CreateDevice env device w3 with
          | (.error err, w4) => (.error ("failed to create device: " ++ err), w4)
          | (.ok device1, w4) =>
            let w5 : World :=
              match s.chirpStackService with
              | none => w4
              | some cs =>
                if cs.IsEnabled then
                  match createChirpStackDevice cs env device1 user allowedDevice w4 with
                  | (some err, w4a) =>
                    w4a.print ("Warning: Failed to create ChirpStack device: " ++ err ++ "\n")
                  | (none, w4a) => w4a
                else w4
            DeviceRepository.GetDeviceByID env device1.ID w5

/-- The method `DeviceService.DeleteDevice`. -/
def DeleteDevice (s : DeviceService) (env : Env) (id : UUID) (w : World) :
    Option String × World :=
  match DeviceRepository.GetDeviceByID env id w with
  | (.error err, w1) => (some ("device not found: " ++ err), w1)
  | (.ok device, w1) =>
    let w2 : World :=
      match s.chirpStackService with
      | none => w1
      | some cs =>
        if cs.IsEnabled && device.ChirpStackDeviceCreated then
          match cs.DeleteDevice env device.DevEUI w1 with
          | (some err, w1a) =>
            w1a.print ("Warning: Failed to delete ChirpStack device: " ++ err ++ "\n")
          | (none, w1a) => w1a
        else w1
    DeviceRepository.DeleteDevice env id w2

end DeviceService

namespace UserService

/-- The method `UserService.Register`. -/
def Register (s : UserService) (env : Env) (req : RegisterRequest) (w : World) :
    Except String AuthResponse × World :=
  match UserRepository.GetUserByEmail env req.Email w with
  | (.ok _, w1) => (.error ("user with email " ++ req.Email ++ " already exists"), w1)
  | (.error _, w1) =>
    match env.HashPassword req.Password with
    | .error err => (.error ("failed to hash password: " ++ err), w1)
    | .ok hashedPassword =>
      let user : User :=
        { ID := UUID.Nil, Email := req.Email, PasswordHash := hashedPassword,
          FullName := req.FullName, TenantID := none, ApplicationID := none,
          DeviceProfileID := none, CreatedAt := 0, UpdatedAt := 0 }
      match UserRepository.CreateUser env user w1 with
      | (.error err, w2) => (.error ("failed to create user: " ++ err), w2)
      | (.ok user1, w2) =>
        match env.GenerateToken user1.ID user1.Email with
        | .error err => (.error ("failed to generate token: " ++ err), w2)
        | .ok token =>
          let w3 : World :=
            match s.chirpStackService with
            | none => w2
            | some cs =>
              if cs.IsEnabled then
                match cs.CreateUserResources env user1.ID.String user1.Email w2 with
                | (.error err, w2a) =>
                  w2a.print ("Warning: Failed to create ChirpStack resources for user "
                    ++ user1.Email ++ ": " ++ err ++ "\n")
                | (.ok chirpStackData, w2a) =>
                  w2a.print ("Successfully created ChirpStack resources for user "
                    ++ user1.Email ++ ": TenantID=" ++ chirpStackData.TenantID
                    ++ ", ApplicationID=" ++ chirpStackData.ApplicationID
                    ++ ", DeviceProfileID=" ++ chirpStackData.DeviceProfileID ++ "\n")
              else w2
          (.ok { Token := token, User := user1 }, w3)

end UserService

/-! ## HTTP handlers (`internal/handlers/user_handler.go`) -/

/-- The JSON document a handler writes. -/
inductive ResponseBody where
  | error (message : String)
  | auth (r : AuthResponse)
deriving DecidableEq, Repr

/-- Status code and body written by `c.JSON`. -/
structure Response where
  status : Nat
  body : ResponseBody
deriving DecidableEq, Repr

/-- The struct `handlers.UserHandler`. -/
structure UserHandler where
  userService : UserService
deriving DecidableEq, Repr

/-- The method `UserHandler.Register`; `bind` is the result of
`c.ShouldBindJSON` on the request body. -/
def UserHandler.Register (h : UserHandler) (env : Env) (bind : Except String RegisterRequest)
    (w : World) : Response × World :=
  match bind with
  | .error err => ({ status := 400, body := .error err }, w)
  | .ok req =>
    match h.userService.Register env req w with
    | (.error err, w1) => ({ status := 400, body := .error err }, w1)
    | (.ok response, w1) => ({ status := 201, body := .auth response }, w1)

/-! ## Predicates on the collaborators and sample data -/

/-- The outcome is a response with a status in 200..299. -/
def HttpOutcome.ok (o : HttpOutcome) : Bool :=
  match o with
  | .response status _ => decide (200 ≤ status ∧ status < 300)
  | _ => false

/-- The request was built: `http.NewRequest` did not fail, so the request was
handed to the HTTP client. -/
def HttpOutcome.built (o : HttpOutcome) : Bool :=
  match o with
  | .createFailed _ => false
  | _ => true

/-- A user whose registration-time provisioning succeeded. -/
def sampleUser : User :=
  { ID := ⟨"u1"⟩, Email := "a@example.com", PasswordHash := "h", FullName := "A",
    TenantID := some "t1", ApplicationID := some "app1", DeviceProfileID := some "prof1",
    CreatedAt := 1, UpdatedAt := 1 }

/-- A user without platform identifiers. -/
def sampleBareUser : User :=
  { ID := ⟨"u2"⟩, Email := "b@example.com", PasswordHash := "h", FullName := "B",
    TenantID := none, ApplicationID := none, DeviceProfileID := none,
    CreatedAt := 1, UpdatedAt := 1 }

/-- The catalog entry of the end-to-end scenario. -/
def sampleVersion : DeviceVersion :=
  { ID := ⟨"v1"⟩, Name := "RAK7200", Version := "v1.0", Description := none,
    CreatedAt := 2, UpdatedAt := 2 }

/-- The allow-list row of the end-to-end scenario. -/
def sampleAllowed : AllowedDevice :=
  { ID := ⟨"a1"⟩, DevEUI := "C5EABC521E8304EE", NwkKey := "C518B15AB390B01762E4A3730E8C5F1C",
    AppKey := "97784F3B7F2A57EECF19F10E625081E0", AddrKey := "2F972E56", Description := none,
    CreatedAt := 3, UpdatedAt := 3 }

/-- A store with two users, one version, one allow-list row and no device. -/
def sampleWorld : World :=
  { db := { users := [sampleUser, sampleBareUser], device_versions := [sampleVersion],
            allowed_devices := [sampleAllowed], devices := [] },
    stmts := 0, requests := [], stdout := [] }

/-- Collaborators that never fail: the platform answers 200 to every request. -/
def sampleEnv : Env :=
  { dbFault := fun _ => none, genID := fun _ => ⟨"d1"⟩, now := fun n => 10 + n,
    isActiveDefault := true, http := fun _ _ => .response 200 "ok",
    jsonID := fun b => .ok b, HashPassword := fun p => .ok ("hash:" ++ p),
    CheckPasswordHash := fun p h => h == "hash:" ++ p,
    GenerateToken := fun id e => .ok (id.String ++ "/" ++ e) }

/-- The same collaborators with an unreachable platform. -/
def sampleEnvDown : Env :=
  { sampleEnv with http := fun _ _ => .doFailed "connection refused" }

/-- The create-device request of the end-to-end scenario. -/
def sampleReq : CreateDeviceRequest :=
  { Name := "My Device", VersionID := ⟨"v1"⟩, DevEUI := "C5EABC521E8304EE",
    Description := none }

/-- A create-device request for hardware that is not allow-listed. -/
def sampleUnknownReq : CreateDeviceRequest :=
  { Name := "My Device", VersionID := ⟨"v1"⟩, DevEUI := "0000000000000001",
    Description := none }

/-- A gateway with the integration switched on. -/
def sampleGateway : ChirpStackService :=
  { config := { ChirpStackHost := "h", ChirpStackPort := "8090", ChirpStackToken := "tok",
                ChirpStackEnabled := true },
    userRepo := true }

/-- A gateway whose flag is set but whose token is empty. -/
def sampleGatewayOff : ChirpStackService :=
  { config := { ChirpStackHost := "h", ChirpStackPort := "8090", ChirpStackToken := "",
                ChirpStackEnabled := true },
    userRepo := true }

/-- A device row already mirrored on the platform. -/
def sampleDevice : Device :=
  { ID := ⟨"d1"⟩, UserID := ⟨"u1"⟩, VersionID := ⟨"v1"⟩, Name := "My Device",
    DevEUI := "C5EABC521E8304EE", Description := none, ChirpStackDeviceCreated := true,
    ChirpStackDeviceActivated := true, IsActive := true, CreatedAt := 4, UpdatedAt := 4,
    Version := none, User := none }

/-- The sample store holding that one device. -/
def sampleWorldWithDevice : World :=
  { sampleWorld with db := { sampleWorld.db with devices := [sampleDevice] } }

/-- A registration request for an email the sample store does not hold. -/
def sampleRegister : RegisterRequest :=
  { Email := "c@example.com", Password := "password123", FullName := "C" }

/-- The user struct `Register` hands back for `sampleRegister` on the sample store. -/
def sampleRegistered : User :=
  { ID := ⟨"d1"⟩, Email := "c@example.com", PasswordHash := "hash:password123",
    FullName := "C", TenantID := none, ApplicationID := none, DeviceProfileID := none,
    CreatedAt := 11, UpdatedAt := 11 }

/-- The sample store right after `Register` has inserted the row for `sampleRegister`. -/
def sampleAfterInsert : World :=
  (UserRepository.CreateUser sampleEnv
    { ID := UUID.Nil, Email := "c@example.com", PasswordHash := "hash:password123",
      FullName := "C", TenantID := none, ApplicationID := none, DeviceProfileID := none,
      CreatedAt := 0, UpdatedAt := 0 } sampleWorld.tick).2

/-- The world after the tenant of that registration has been created. -/
def sampleAfterTenant : World :=
  (sampleGateway.CreateTenant sampleEnv "c@example.com" sampleAfterInsert).2

/-- The world after the application of that registration has been created. -/
def sampleAfterApplication : World :=
  (sampleGateway.CreateApplication sampleEnv "ok" "Lnode" sampleAfterTenant).2

/-- The world after the device profile of that registration has been created. -/
def sampleAfterProfile : World :=
  (sampleGateway.CreateDeviceProfile sampleEnv "ok" sampleAfterApplication).2

/-! ## Further models (`internal/models`) -/

/-- The struct `models.LoginRequest`. -/
structure LoginRequest where
  Email : String
  Password : String
deriving DecidableEq, Repr

/-- The struct `models.UpdateUserRequest`. -/
structure UpdateUserRequest where
  Email : String
  FullName : String
  Password : String
deriving DecidableEq, Repr

/-- The struct `models.UserListResponse`; Go `int` fields are integers. -/
structure UserListResponse where
  Users : List User
  Total : ℤ
  Page : ℤ
  PageSize : ℤ
  TotalPages : ℤ
deriving DecidableEq

/-- The struct `models.UserSearchRequest`. -/
structure UserSearchRequest where
  Query : String
  Page : ℤ
  PageSize : ℤ
deriving DecidableEq

/-- The struct `models.UpdateDeviceVersionRequest`; a nil pointer is `none`. -/
structure UpdateDeviceVersionRequest where
  Name : Option String
  Version : Option String
  Description : Option String
deriving DecidableEq, Repr

/-- The struct `models.UpdateAllowedDeviceRequest`. -/
structure UpdateAllowedDeviceRequest where
  NwkKey : Option String
  AppKey : Option String
  AddrKey : Option String
  Description : Option String
deriving DecidableEq, Repr

/-- The struct `models.UpdateDeviceRequest`. -/
structure UpdateDeviceRequest where
  Name : Option String
  VersionID : Option UUID
  Description : Option String
  IsActive : Option Bool
deriving DecidableEq, Repr

/-- The struct `models.DeviceListResponse`. -/
structure DeviceListResponse where
  Devices : List Device
  Total : ℤ
  Page : ℤ
  PageSize : ℤ
  TotalPages : ℤ
deriving DecidableEq

/-- The struct `models.DeviceVersionListResponse`. -/
structure DeviceVersionListResponse where
  Versions : List DeviceVersion
  Total : ℤ
  Page : ℤ
  PageSize : ℤ
  TotalPages : ℤ
deriving DecidableEq

/-- The struct `models.AllowedDeviceListResponse`. -/
structure AllowedDeviceListResponse where
  Devices : List AllowedDevice
  Total : ℤ
  Page : ℤ
  PageSize : ℤ
  TotalPages : ℤ
deriving DecidableEq

/-! ## Machine arithmetic and the query language of the store -/

/-- A Go `int` result on a 64-bit platform: the mathematical result wrapped
into the range from -2^63 to 2^63 - 1. -/
def wrapInt (z : ℤ) : ℤ := (z + 2 ^ 63) % 2 ^ 64 - 2 ^ 63

/-- The expression `(page - 1) * pageSize` every list query computes. -/
def pageOffset (page pageSize : ℤ) : ℤ := wrapInt (wrapInt (page - 1) * pageSize)

/-- Rounding of a rational to the nearest integer, ties to the even one. -/
def roundHalfEven (q : ℚ) : ℤ :=
  if q - ⌊q⌋ < 1 / 2 then ⌊q⌋
  else if 1 / 2 < q - ⌊q⌋ then ⌊q⌋ + 1
  else if ⌊q⌋ % 2 = 0 then ⌊q⌋ else ⌊q⌋ + 1

/-- The binary64 value nearest to a rational (53-bit significand, ties to
even).  The exponent range is not represented: every use is on quotients of
64-bit integers, far from overflow and from the subnormal numbers. -/
def roundFloat64 (q : ℚ) : ℚ :=
  if q = 0 then 0
  else if 0 < q then (roundHalfEven (q / 2 ^ (Int.log 2 q - 52)) : ℚ) * 2 ^ (Int.log 2 q - 52)
  else -((roundHalfEven (-q / 2 ^ (Int.log 2 (-q) - 52)) : ℚ) * 2 ^ (Int.log 2 (-q) - 52))

/-- The conversion `int(f)` of an integral float: exact in range; out of
range the result is platform-defined, here the value amd64 produces. -/
def intOfFloat (v : ℤ) : ℤ := if -2 ^ 63 ≤ v ∧ v < 2 ^ 63 then v else -2 ^ 63

/-- The expression `int(math.Ceil(float64(total) / float64(pageSize)))` of the
six list operations.  A zero page size divides by zero (infinity or NaN), whose
conversion to `int` is again the platform-defined value. -/
def totalPages (total pageSize : ℤ) : ℤ :=
  if pageSize = 0 then -2 ^ 63
  else intOfFloat ⌈roundFloat64 (roundFloat64 total / roundFloat64 pageSize)⌉

/-- The clause `ORDER BY created_at DESC`; rows with equal timestamps come in
an order the store chooses, here the one insertion sort leaves. -/
def orderByCreatedAtDesc {α : Type} (createdAt : α → Time) (rows : List α) : List α :=
  rows.insertionSort (fun a b => createdAt b ≤ createdAt a)

/-- The clause `LIMIT $n OFFSET $k` of the store, which refuses negative values. -/
def limitOffset {α : Type} (rows : List α) (limit offset : ℤ) : Except String (List α) :=
  if offset < 0 then .error "OFFSET must not be negative"
  else if limit < 0 then .error "LIMIT must not be negative"
  else .ok ((rows.drop offset.toNat).take limit.toNat)

/-- Case folding of the ASCII letters, on which `strings.ToLower` and SQL
`LOWER` agree.  Letters outside ASCII, which both also fold, are left as they
are here: the search of the model is the search of the code on ASCII text. -/
def lower (s : String) : String := String.mk (s.toList.map Char.toLower)

/-- The SQL operator `LIKE` on character lists (pattern first): the character
37 (percent) matches any sequence, 95 (underscore) any single character, and 92
(backslash) makes the next pattern character literal. -/
def likeMatch : List Char → List Char → Bool
  | [], s => s.isEmpty
  | c :: p, s =>
    if c = Char.ofNat 37 then s.tails.any (fun t => likeMatch p t)
    else if c = Char.ofNat 95 then
      match s with
      | [] => false
      | _ :: t => likeMatch p t
    else if c = Char.ofNat 92 then
      match p with
      | [] => false
      | e :: p1 =>
        match s with
        | [] => false
        | x :: t => x == e && likeMatch p1 t
    else
      match s with
      | [] => false
      | x :: t => x == c && likeMatch p t

/-- The SQL predicate `subject LIKE pattern` on strings. -/
def sqlLike (subject pattern : String) : Bool := likeMatch pattern.toList subject.toList

/-- An argument bound to a placeholder of a statement. -/
inductive SqlArg where
  | text (s : String)
  | uuid (u : UUID)
  | bool (b : Bool)
deriving DecidableEq, Repr

/-- The repeated step of the update builders: when a field is supplied, append
`column = $argIndex` to the SET parts, its value to the arguments, and advance
`argIndex`. -/
def addSetPart (column : String) (value : Option SqlArg)
    (acc : List String × List SqlArg × Nat) : List String × List SqlArg × Nat :=
  match value with
  | none => acc
  | some v => (acc.1 ++ [column ++ " = $" ++ toString acc.2.2], acc.2.1 ++ [v], acc.2.2 + 1)
/-! ## Repositories: list, search and update statements -/

namespace UserRepository

/-- The method `UserRepository.GetAllUsers`: a count statement, then the page
`ORDER BY created_at DESC LIMIT pageSize OFFSET (page - 1) * pageSize`. -/
def GetAllUsers (env : Env) (page pageSize : ℤ) (w : World) :
    Except String (List User × ℤ) × World :=
  match env.dbFault w.stmts with
  | some err => (.error ("failed to count users: " ++ err), w.tick)
  | none =>
    let total : ℤ := w.db.users.length
    let offset := pageOffset page pageSize
    match env.dbFault w.tick.stmts with
    | some err => (.error ("failed to query users: " ++ err), w.tick.tick)
    | none =>
      match limitOffset (orderByCreatedAtDesc User.CreatedAt w.db.users) pageSize offset with
      | .error err => (.error ("failed to query users: " ++ err), w.tick.tick)
      | .ok users => (.ok (users, total), w.tick.tick)

/-- The `updates map[string]interface{}` argument of `UpdateUser`, with the
three keys `UserService.UpdateUser` can put in it. -/
structure Updates where
  email : Option String
  full_name : Option String
  password_hash : Option String
deriving DecidableEq, Repr

/-- The number of keys of the map, `len(updates)`. -/
def Updates.len (u : Updates) : Nat :=
  (if u.email = none then 0 else 1) + (if u.full_name = none then 0 else 1)
    + (if u.password_hash = none then 0 else 1)

/-- The method `UserRepository.UpdateUser`: refuses an empty map before any
statement; otherwise one `UPDATE users SET ..., updated_at = NOW() WHERE id`
that fails when no row was affected. -/
def UpdateUser (env : Env) (id : String) (updates : Updates) (w : World) :
    Option String × World :=
  if updates.len = 0 then (some "no fields to update", w)
  else
    match env.dbFault w.stmts with
    | some err => (some ("failed to update user: " ++ err), w.tick)
    | none =>
      let clash : Bool :=
        match updates.email with
        | none => false
        | some e =>
          w.db.users.any (fun u => u.ID.String == id)
            && w.db.users.any (fun u => !(u.ID.String == id) && u.Email == e)
      if clash then (some ("failed to update user: " ++ uniqueViolation), w.tick)
      else
        let users := w.db.users.map (fun u =>
          if u.ID.String == id then
            { u with Email := updates.email.getD u.Email,
                     FullName := updates.full_name.getD u.FullName,
                     PasswordHash := updates.password_hash.getD u.PasswordHash,
                     UpdatedAt := env.now w.stmts }
          else u)
        let w1 : World := { w.tick with db := { w.db with users := users } }
        if (w.db.users.filter (fun u => u.ID.String == id)).length = 0 then
          (some "user not found", w1)
        else (none, w1)

/-- The `WHERE` clause of `SearchUsers`:
`LOWER(email) LIKE $1 OR LOWER(full_name) LIKE $1`. -/
def searchMatches (searchPattern : String) (u : User) : Bool :=
  sqlLike (lower u.Email) searchPattern || sqlLike (lower u.FullName) searchPattern

/-- The method `UserRepository.SearchUsers`. -/
def SearchUsers (env : Env) (query : String) (page pageSize : ℤ) (w : World) :
    Except String (List User × ℤ) × World :=
  let searchPattern := "%" ++ lower query ++ "%"
  match env.dbFault w.stmts with
  | some err => (.error ("failed to count search results: " ++ err), w.tick)
  | none =>
    let total : ℤ := (w.db.users.filter (searchMatches searchPattern)).length
    let offset := pageOffset page pageSize
    match env.dbFault w.tick.stmts with
    | some err => (.error ("failed to search users: " ++ err), w.tick.tick)
    | none =>
      match limitOffset
          (orderByCreatedAtDesc User.CreatedAt (w.db.users.filter (searchMatches searchPattern)))
          pageSize offset with
      | .error err => (.error ("failed to search users: " ++ err), w.tick.tick)
      | .ok users => (.ok (users, total), w.tick.tick)

end UserRepository

namespace DeviceRepository

/-- The method `DeviceRepository.GetDeviceVersions`. -/
def GetDeviceVersions (env : Env) (page pageSize : ℤ) (w : World) :
    Except String (List DeviceVersion × ℤ) × World :=
  let offset := pageOffset page pageSize
  match env.dbFault w.stmts with
  | some err => (.error err, w.tick)
  | none =>
    let total : ℤ := w.db.device_versions.length
    match env.dbFault w.tick.stmts with
    | some err => (.error err, w.tick.tick)
    | none =>
      match limitOffset (orderByCreatedAtDesc DeviceVersion.CreatedAt w.db.device_versions)
          pageSize offset with
      | .error err => (.error err, w.tick.tick)
      | .ok versions => (.ok (versions, total), w.tick.tick)

/-- The SET parts, arguments and next placeholder index `UpdateDeviceVersion`
builds from the supplied fields, in the order of the source. -/
def updateDeviceVersionParts (req : UpdateDeviceVersionRequest) :
    List String × List SqlArg × Nat :=
  addSetPart "description" (req.Description.map SqlArg.text)
    (addSetPart "version" (req.Version.map SqlArg.text)
      (addSetPart "name" (req.Name.map SqlArg.text) ([], [], 1)))

/-- The statement text and arguments `UpdateDeviceVersion` hands to `Exec`. -/
def updateDeviceVersionStatement (id : UUID) (req : UpdateDeviceVersionRequest) :
    String × List SqlArg :=
  let parts := updateDeviceVersionParts req
  ("UPDATE device_versions SET "
      ++ ", ".intercalate (parts.1 ++ ["updated_at = CURRENT_TIMESTAMP"])
      ++ " WHERE id = $" ++ toString parts.2.2,
    parts.2.1 ++ [.uuid id])

/-- The method `DeviceRepository.UpdateDeviceVersion`: refuses a request with
no field before any statement; otherwise one `UPDATE` that fails when no row
was affected. -/
def UpdateDeviceVersion (env : Env) (id : UUID) (req : UpdateDeviceVersionRequest)
    (w : World) : Option String × World :=
  if (updateDeviceVersionParts req).1.length = 0 then (some "no fields to update", w)
  else
    match env.dbFault w.stmts with
    | some err => (some err, w.tick)
    | none =>
      let versions := w.db.device_versions.map (fun v =>
        if v.ID == id then
          { v with Name := req.Name.getD v.Name, Version := req.Version.getD v.Version,
                   Description := (match req.Description with
                     | some x => some x
                     | none => v.Description),
                   UpdatedAt := env.now w.stmts }
        else v)
      let w1 : World := { w.tick with db := { w.db with device_versions := versions } }
      if (w.db.device_versions.filter (fun v => v.ID == id)).length = 0 then
        (some "device version not found", w1)
      else (none, w1)

/-- The method `DeviceRepository.GetAllowedDevices`. -/
def GetAllowedDevices (env : Env) (page pageSize : ℤ) (w : World) :
    Except String (List AllowedDevice × ℤ) × World :=
  let offset := pageOffset page pageSize
  match env.dbFault w.stmts with
  | some err => (.error err, w.tick)
  | none =>
    let total : ℤ := w.db.allowed_devices.length
    match env.dbFault w.tick.stmts with
    | some err => (.error err, w.tick.tick)
    | none =>
      match limitOffset (orderByCreatedAtDesc AllowedDevice.CreatedAt w.db.allowed_devices)
          pageSize offset with
      | .error err => (.error err, w.tick.tick)
      | .ok devices => (.ok (devices, total), w.tick.tick)

/-- The SET parts, arguments and next placeholder index `UpdateAllowedDevice`
builds from the supplied fields, in the order of the source. -/
def updateAllowedDeviceParts (req : UpdateAllowedDeviceRequest) :
    List String × List SqlArg × Nat :=
  addSetPart "description" (req.Description.map SqlArg.text)
    (addSetPart "addr_key" (req.AddrKey.map SqlArg.text)
      (addSetPart "app_key" (req.AppKey.map SqlArg.text)
        (addSetPart "nwk_key" (req.NwkKey.map SqlArg.text) ([], [], 1))))

/-- The statement text and arguments `UpdateAllowedDevice` hands to `Exec`. -/
def updateAllowedDeviceStatement (devEUI : String) (req : UpdateAllowedDeviceRequest) :
    String × List SqlArg :=
  let parts := updateAllowedDeviceParts req
  ("UPDATE allowed_devices SET "
      ++ ", ".intercalate (parts.1 ++ ["updated_at = CURRENT_TIMESTAMP"])
      ++ " WHERE dev_eui = $" ++ toString parts.2.2,
    parts.2.1 ++ [.text devEUI])

/-- The method `DeviceRepository.UpdateAllowedDevice`. -/
def UpdateAllowedDevice (env : Env) (devEUI : String) (req : UpdateAllowedDeviceRequest)
    (w : World) : Option String × World :=
  if (updateAllowedDeviceParts req).1.length = 0 then (some "no fields to update", w)
  else
    match env.dbFault w.stmts with
    | some err => (some err, w.tick)
    | none =>
      let rows := w.db.allowed_devices.map (fun a =>
        if a.DevEUI == devEUI then
          { a with NwkKey := req.NwkKey.getD a.NwkKey, AppKey := req.AppKey.getD a.AppKey,
                   AddrKey := req.AddrKey.getD a.AddrKey,
                   Description := (match req.Description with
                     | some x => some x
                     | none => a.Description),
                   UpdatedAt := env.now w.stmts }
        else a)
      let w1 : World := { w.tick with db := { w.db with allowed_devices := rows } }
      if (w.db.allowed_devices.filter (fun a => a.DevEUI == devEUI)).length = 0 then
        (some "allowed device not found", w1)
      else (none, w1)

/-- The join `LEFT JOIN device_versions dv ON d.version_id = dv.id` of the
device queries, for one device row; `none` stands for the NULL columns of a row
without version. -/
def joinVersion (db : DB) (d : Device) : Device :=
  { d with Version := db.device_versions.find? (fun v => v.ID == d.VersionID) }

/-- The method `DeviceRepository.GetDevicesByUserID`.  The rows of the page are
scanned one by one; a row whose version is missing fails the scan and the
query returns that error (see `scanNullError`). -/
def GetDevicesByUserID (env : Env) (userID : UUID) (page pageSize : ℤ) (w : World) :
    Except String (List Device × ℤ) × World :=
  let offset := pageOffset page pageSize
  match env.dbFault w.stmts with
  | some err => (.error err, w.tick)
  | none =>
    let total : ℤ := (w.db.devices.filter (fun d => d.UserID == userID)).length
    match env.dbFault w.tick.stmts with
    | some err => (.error err, w.tick.tick)
    | none =>
      match limitOffset
          (orderByCreatedAtDesc Device.CreatedAt
            ((w.db.devices.filter (fun d => d.UserID == userID)).map (joinVersion w.db)))
          pageSize offset with
      | .error err => (.error err, w.tick.tick)
      | .ok devices =>
        if devices.all (fun d => d.Version.isSome) then (.ok (devices, total), w.tick.tick)
        else (.error scanNullError, w.tick.tick)

/-- The method `DeviceRepository.GetAllDevices`; the rows of the page are
scanned as in `GetDevicesByUserID`. -/
def GetAllDevices (env : Env) (page pageSize : ℤ) (w : World) :
    Except String (List Device × ℤ) × World :=
  let offset := pageOffset page pageSize
  match env.dbFault w.stmts with
  | some err => (.error err, w.tick)
  | none =>
    let total : ℤ := w.db.devices.length
    match env.dbFault w.tick.stmts with
    | some err => (.error err, w.tick.tick)
    | none =>
      match limitOffset
          (orderByCreatedAtDesc Device.CreatedAt (w.db.devices.map (joinVersion w.db)))
          pageSize offset with
      | .error err => (.error err, w.tick.tick)
      | .ok devices =>
        if devices.all (fun d => d.Version.isSome) then (.ok (devices, total), w.tick.tick)
        else (.error scanNullError, w.tick.tick)

/-- The SET parts, arguments and next placeholder index `UpdateDevice` builds
from the supplied fields, in the order of the source. -/
def updateDeviceParts (req : UpdateDeviceRequest) : List String × List SqlArg × Nat :=
  addSetPart "is_active" (req.IsActive.map SqlArg.bool)
    (addSetPart "description" (req.Description.map SqlArg.text)
      (addSetPart "version_id" (req.VersionID.map SqlArg.uuid)
        (addSetPart "name" (req.Name.map SqlArg.text) ([], [], 1))))

/-- The statement text and arguments `UpdateDevice` hands to `Exec`. -/
def updateDeviceStatement (id : UUID) (req : UpdateDeviceRequest) : String × List SqlArg :=
  let parts := updateDeviceParts req
  ("UPDATE devices SET "
      ++ ", ".intercalate (parts.1 ++ ["updated_at = CURRENT_TIMESTAMP"])
      ++ " WHERE id = $" ++ toString parts.2.2,
    parts.2.1 ++ [.uuid id])

/-- The method `DeviceRepository.UpdateDevice`. -/
def UpdateDevice (env : Env) (id : UUID) (req : UpdateDeviceRequest) (w : World) :
    Option String × World :=
  if (updateDeviceParts req).1.length = 0 then (some "no fields to update", w)
  else
    match env.dbFault w.stmts with
    | some err => (some err, w.tick)
    | none =>
      let devices := w.db.devices.map (fun d =>
        if d.ID == id then
          { d with Name := req.Name.getD d.Name, VersionID := req.VersionID.getD d.VersionID,
                   Description := (match req.Description with
                     | some x => some x
                     | none => d.Description),
                   IsActive := req.IsActive.getD d.IsActive,
                   UpdatedAt := env.now w.stmts }
        else d)
      let w1 : World := { w.tick with db := { w.db with devices := devices } }
      if (w.db.devices.filter (fun d => d.ID == id)).length = 0 then
        (some "device not found", w1)
      else (none, w1)

end DeviceRepository
/-! ## Services: list, search, update and login -/

namespace DeviceService

/-- The method `DeviceService.GetDeviceVersions`. -/
def GetDeviceVersions (_s : DeviceService) (env : Env) (page pageSize : ℤ) (w : World) :
    Except String DeviceVersionListResponse × World :=
  match DeviceRepository.GetDeviceVersions env page pageSize w with
  | (.error err, w1) => (.error ("failed to get device versions: " ++ err), w1)
  | (.ok (versions, total), w1) =>
    (.ok { Versions := versions, Total := total, Page := page, PageSize := pageSize,
           TotalPages := totalPages total pageSize }, w1)

/-- The method `DeviceService.UpdateDeviceVersion`. -/
def UpdateDeviceVersion (_s : DeviceService) (env : Env) (id : UUID)
    (req : UpdateDeviceVersionRequest) (w : World) : Option String × World :=
  DeviceRepository.UpdateDeviceVersion env id req w

/-- The method `DeviceService.GetAllowedDevices`. -/
def GetAllowedDevices (_s : DeviceService) (env : Env) (page pageSize : ℤ) (w : World) :
    Except String AllowedDeviceListResponse × World :=
  match DeviceRepository.GetAllowedDevices env page pageSize w with
  | (.error err, w1) => (.error ("failed to get allowed devices: " ++ err), w1)
  | (.ok (devices, total), w1) =>
    (.ok { Devices := devices, Total := total, Page := page, PageSize := pageSize,
           TotalPages := totalPages total pageSize }, w1)

/-- The method `DeviceService.UpdateAllowedDevice`. -/
def UpdateAllowedDevice (_s : DeviceService) (env : Env) (devEUI : String)
    (req : UpdateAllowedDeviceRequest) (w : World) : Option String × World :=
  DeviceRepository.UpdateAllowedDevice env devEUI req w

/-- The method `DeviceService.GetDeviceByID`. -/
def GetDeviceByID (_s : DeviceService) (env : Env) (id : UUID) (w : World) :
    Except String Device × World :=
  DeviceRepository.GetDeviceByID env id w

/-- The method `DeviceService.GetDevicesByUserID`. -/
def GetDevicesByUserID (_s : DeviceService) (env : Env) (userID : UUID) (page pageSize : ℤ)
    (w : World) : Except String DeviceListResponse × World :=
  match DeviceRepository.GetDevicesByUserID env userID page pageSize w with
  | (.error err, w1) => (.error ("failed to get user devices: " ++ err), w1)
  | (.ok (devices, total), w1) =>
    (.ok { Devices := devices, Total := total, Page := page, PageSize := pageSize,
           TotalPages := totalPages total pageSize }, w1)

/-- The method `DeviceService.GetAllDevices`. -/
def GetAllDevices (_s : DeviceService) (env : Env) (page pageSize : ℤ) (w : World) :
    Except String DeviceListResponse × World :=
  match DeviceRepository.GetAllDevices env page pageSize w with
  | (.error err, w1) => (.error ("failed to get all devices: " ++ err), w1)
  | (.ok (devices, total), w1) =>
    (.ok { Devices := devices, Total := total, Page := page, PageSize := pageSize,
           TotalPages := totalPages total pageSize }, w1)

/-- The method `DeviceService.UpdateDevice`: the referenced version is looked
up first when the request carries one. -/
def UpdateDevice (_s : DeviceService) (env : Env) (id : UUID) (req : UpdateDeviceRequest)
    (w : World) : Option String × World :=
  match req.VersionID with
  | some versionID =>
    match DeviceRepository.GetDeviceVersionByID env versionID w with
    | (.error err, w1) => (some ("device version not found: " ++ err), w1)
    | (.ok _, w1) => DeviceRepository.UpdateDevice env id req w1
  | none => DeviceRepository.UpdateDevice env id req w

end DeviceService

namespace UserService

/-- The method `UserService.Login`. -/
def Login (_s : UserService) (env : Env) (req : LoginRequest) (w : World) :
    Except String AuthResponse × World :=
  match UserRepository.GetUserByEmail env req.Email w with
  | (.error _, w1) => (.error "invalid credentials", w1)
  | (.ok user, w1) =>
    if !env.CheckPasswordHash req.Password user.PasswordHash then
      (.error "invalid credentials", w1)
    else
      match env.GenerateToken user.ID user.Email with
      | .error err => (.error ("failed to generate token: " ++ err), w1)
      | .ok token => (.ok { Token := token, User := user }, w1)

/-- The method `UserService.GetAllUsers`: the page is raised to 1 and a page
size outside 1..100 replaced by 10 before the repository is called. -/
def GetAllUsers (_s : UserService) (env : Env) (page pageSize : ℤ) (w : World) :
    Except String UserListResponse × World :=
  let page := if page < 1 then 1 else page
  let pageSize := if pageSize < 1 ∨ pageSize > 100 then 10 else pageSize
  match UserRepository.GetAllUsers env page pageSize w with
  | (.error err, w1) => (.error ("failed to get users: " ++ err), w1)
  | (.ok (users, total), w1) =>
    (.ok { Users := users, Total := total, Page := page, PageSize := pageSize,
           TotalPages := totalPages total pageSize }, w1)

/-- The method `UserService.UpdateUser`. -/
def UpdateUser (_s : UserService) (env : Env) (id : String) (req : UpdateUserRequest)
    (w : World) : Except String User × World :=
  match UserRepository.GetUserByID env id w with
  | (.error _, w1) => (.error "user not found", w1)
  | (.ok existingUser, w1) =>
    -- the e-mail entry of the map, with the uniqueness check
    let emailStep : Except String (Option String) × World :=
      if req.Email ≠ "" ∧ req.Email ≠ existingUser.Email then
        match UserRepository.GetUserByEmail env req.Email w1 with
        | (.ok emailUser, w2) =>
          if emailUser.ID.String ≠ id then (.error "email already exists", w2)
          else (.ok (some req.Email), w2)
        | (.error _, w2) => (.ok (some req.Email), w2)
      else (.ok none, w1)
    match emailStep with
    | (.error err, w2) => (.error err, w2)
    | (.ok email, w2) =>
      let fullName : Option String := if req.FullName ≠ "" then some req.FullName else none
      let passwordStep : Except String (Option String) :=
        if req.Password ≠ "" then
          match env.HashPassword req.Password with
          | .error err => .error ("failed to hash password: " ++ err)
          | .ok hashedPassword => .ok (some hashedPassword)
        else .ok none
      match passwordStep with
      | .error err => (.error err, w2)
      | .ok passwordHash =>
        let updates : UserRepository.Updates :=
          { email := email, full_name := fullName, password_hash := passwordHash }
        if updates.len = 0 then (.ok existingUser, w2)
        else
          match UserRepository.UpdateUser env id updates w2 with
          | (some err, w3) => (.error ("failed to update user: " ++ err), w3)
          | (none, w3) =>
            match UserRepository.GetUserByID env id w3 with
            | (.error err, w4) => (.error err, w4)
            | (.ok user, w4) => (.ok user, w4)

/-- The method `UserService.SearchUsers`. -/
def SearchUsers (s : UserService) (env : Env) (req : UserSearchRequest) (w : World) :
    Except String UserListResponse × World :=
  let page := if req.Page < 1 then 1 else req.Page
  let pageSize := if req.PageSize < 1 ∨ req.PageSize > 100 then 10 else req.PageSize
  if req.Query = "" then s.GetAllUsers env page pageSize w
  else
    match UserRepository.SearchUsers env req.Query page pageSize w with
    | (.error err, w1) => (.error ("failed to search users: " ++ err), w1)
    | (.ok (users, total), w1) =>
      (.ok { Users := users, Total := total, Page := page, PageSize := pageSize,
             TotalPages := totalPages total pageSize }, w1)

end UserService

/-- The method `UserHandler.Login`; `bind` is the result of
`c.ShouldBindJSON` on the request body. -/
def UserHandler.Login (h : UserHandler) (env : Env) (bind : Except String LoginRequest)
    (w : World) : Response × World :=
  match bind with
  | .error err => ({ status := 400, body := .error err }, w)
  | .ok req =>
    match h.userService.Login env req w with
    | (.error err, w1) => ({ status := 401, body := .error err }, w1)
    | (.ok response, w1) => ({ status := 200, body := .auth response }, w1)

/-- The sample store after `sampleRegister` has been registered. -/
def sampleWorldRegistered : World :=
  { sampleWorld with db := { sampleWorld.db with
      users := sampleWorld.db.users ++ [sampleRegistered] } }

/-- A login request with the password of `sampleRegister`. -/
def sampleLogin : LoginRequest :=
  { Email := "c@example.com", Password := "password123" }

/-- A create-device request naming a version and a DevEUI the sample store does not hold. -/
def sampleStrayReq : CreateDeviceRequest :=
  { Name := "My Device", VersionID := ⟨"v9"⟩, DevEUI := "0000000000000001",
    Description := none }

/-- A create-device request for the allow-listed DevEUI naming an unknown version. -/
def sampleUnknownVersionReq : CreateDeviceRequest :=
  { Name := "My Device", VersionID := ⟨"v9"⟩, DevEUI := "C5EABC521E8304EE",
    Description := none }

/-- The create-device request of the integration test: a name and a
description that differ. -/
def sampleDescribedReq : CreateDeviceRequest :=
  { Name := "My Integration Test Device", VersionID := ⟨"v1"⟩, DevEUI := "C5EABC521E8304EE",
    Description := some "Device created during integration test" }

/-- Collaborators whose platform accepts the first request and refuses every
later one. -/
def sampleEnvNoActivate : Env :=
  { sampleEnv with
    http := fun n _ => if n = 0 then .response 200 "ok" else .response 500 "refused" }

/-- The UPDATE statement in the words of the specification, for a table, its
key column, the updatable columns in field-declaration order with the supplied
values, and the key: the k supplied columns are assigned to the placeholders
$1..$k in that order, then `updated_at` is set, the key is bound in the
`WHERE` clause to placeholder $(k+1), and the arguments are the k supplied
values in the same order followed by the key. -/
def specUpdateStatement (table keyColumn : String) (fields : List (String × Option SqlArg))
    (key : SqlArg) : String × List SqlArg :=
  let supplied : List (String × SqlArg) :=
    fields.filterMap (fun f => f.2.map (fun v => (f.1, v)))
  ("UPDATE " ++ table ++ " SET "
      ++ ", ".intercalate
          (supplied.enum.map (fun p => p.2.1 ++ " = $" ++ toString (p.1 + 1))
            ++ ["updated_at = CURRENT_TIMESTAMP"])
      ++ " WHERE " ++ keyColumn ++ " = $" ++ toString (supplied.length + 1),
    supplied.map Prod.snd ++ [key])

/-- Collaborators whose store fails the second statement, the insert of
`Register`. -/
def sampleEnvInsertFails : Env :=
  { sampleEnv with dbFault := fun n => if n = 1 then some "connection lost" else none }

/-! ## JSON documents written by the handlers -/

/-- The struct `models.PublicUser`. -/
structure PublicUser where
  ID : UUID
  Email : String
  FullName : String
  CreatedAt : Time
  UpdatedAt : Time
deriving DecidableEq, Repr

/-- A JSON document as `encoding/json` produces it; an object keeps its
members in the order of the struct fields.  Timestamps are kept as `time`
leaves rather than rendered as RFC 3339 text. -/
inductive Json where
  | null
  | bool (b : Bool)
  | num (n : ℤ)
  | str (s : String)
  | time (t : Time)
  | arr (items : List Json)
  | obj (members : List (String × Json))

/-- The member names of a JSON object (none for the other documents). -/
def Json.keys : Json → List String
  | .obj members => members.map Prod.fst
  | _ => []

/-- A member for a `*string` field tagged `omitempty`: left out when the
pointer is nil. -/
def omitEmpty (key : String) (value : Option String) : List (String × Json) :=
  match value with
  | none => []
  | some s => [(key, .str s)]

/-- The document `encoding/json` writes for a `models.User`, from the struct
tags: `PasswordHash` carries the tag `json:"-"` and is skipped; the three
platform identifiers are `omitempty`. -/
def User.toJson (u : User) : Json :=
  .obj ([("id", .str u.ID.String), ("email", .str u.Email), ("full_name", .str u.FullName)]
    ++ omitEmpty "tenant_id" u.TenantID
    ++ omitEmpty "application_id" u.ApplicationID
    ++ omitEmpty "device_profile_id" u.DeviceProfileID
    ++ [("created_at", .time u.CreatedAt), ("updated_at", .time u.UpdatedAt)])

/-- The document `encoding/json` writes for a `models.AuthResponse`. -/
def AuthResponse.toJson (r : AuthResponse) : Json :=
  .obj [("token", .str r.Token), ("user", r.User.toJson)]

/-- The document `encoding/json` writes for a `models.PublicUser`. -/
def PublicUser.toJson (p : PublicUser) : Json :=
  .obj [("id", .str p.ID.String), ("email", .str p.Email), ("full_name", .str p.FullName),
        ("created_at", .time p.CreatedAt), ("updated_at", .time p.UpdatedAt)]

/-- The document `c.JSON` writes for the body of a `Register` or `Login`
response: `gin.H{"error": ...}` or the `AuthResponse`. -/
def ResponseBody.toJson : ResponseBody → Json
  | .error message => .obj [("error", .str message)]
  | .auth r => r.toJson

/-- Status code and JSON document written by `c.JSON`. -/
structure JsonResponse where
  status : Nat
  body : Json

/-- The method `UserService.GetUserByID`. -/
def UserService.GetUserByID (_s : UserService) (env : Env) (id : String) (w : World) :
    Except String User × World :=
  match UserRepository.GetUserByID env id w with
  | (.error err, w1) => (.error ("failed to get user: " ++ err), w1)
  | (.ok user, w1) => (.ok user, w1)

/-- The conversion to `models.PublicUser` that `GetUserByID` and `UpdateUser`
of the user handler both spell out. -/
def publicUser (user : User) : PublicUser :=
  { ID := user.ID, Email := user.Email, FullName := user.FullName,
    CreatedAt := user.CreatedAt, UpdatedAt := user.UpdatedAt }

/-- The method `UserHandler.GetUserByID`; `idStr` is `c.Param("id")`. -/
def UserHandler.GetUserByID (h : UserHandler) (env : Env) (idStr : String) (w : World) :
    JsonResponse × World :=
  match h.userService.GetUserByID env idStr w with
  | (.error _, w1) => ({ status := 404, body := .obj [("error", .str "User not found")] }, w1)
  | (.ok user, w1) => ({ status := 200, body := (publicUser user).toJson }, w1)

/-- The method `UserHandler.UpdateUser`; `bind` is the result of
`c.ShouldBindJSON` on the request body. -/
def UserHandler.UpdateUser (h : UserHandler) (env : Env) (idStr : String)
    (bind : Except String UpdateUserRequest) (w : World) : JsonResponse × World :=
  match bind with
  | .error err => ({ status := 400, body := .obj [("error", .str err)] }, w)
  | .ok req =>
    match h.userService.UpdateUser env idStr req w with
    | (.error err, w1) => ({ status := 400, body := .obj [("error", .str err)] }, w1)
    | (.ok user, w1) => ({ status := 200, body := (publicUser user).toJson }, w1)

/-! ## The remaining operations of the two service interfaces -/

/-- The struct `models.CreateDeviceVersionRequest`. -/
structure CreateDeviceVersionRequest where
  Name : String
  Version : String
  Description : Option String
deriving DecidableEq, Repr

/-- The struct `models.CreateAllowedDeviceRequest`. -/
structure CreateAllowedDeviceRequest where
  DevEUI : String
  NwkKey : String
  AppKey : String
  AddrKey : String
  Description : Option String
deriving DecidableEq, Repr

/-- The method `UserRepository.DeleteUser`: `DELETE FROM users WHERE id = $1`;
fails when no row was affected.  The table declarations are not part of the
sources; as the specification states, the deletion is not cascaded to the
devices. -/
def UserRepository.DeleteUser (env : Env) (id : String) (w : World) : Option String × World :=
  match env.dbFault w.stmts with
  | some err => (some ("failed to delete user: " ++ err), w.tick)
  | none =>
    let w1 : World :=
      { w.tick with
        db := { w.db with users := w.db.users.filter (fun u => !(u.ID.String == id)) } }
    if (w.db.users.filter (fun u => u.ID.String == id)).length = 0 then
      (some "user not found", w1)
    else (none, w1)

/-- The method `UserService.DeleteUser`. -/
def UserService.DeleteUser (_s : UserService) (env : Env) (id : String) (w : World) :
    Option String × World :=
  match UserRepository.GetUserByID env id w with
  | (.error _, w1) => (some "user not found", w1)
  | (.ok _, w1) =>
    match UserRepository.DeleteUser env id w1 with
    | (some err, w2) => (some ("failed to delete user: " ++ err), w2)
    | (none, w2) => (none, w2)

/-- The method `DeviceRepository.CreateDeviceVersion`: one `INSERT INTO
device_versions (name, version, description) ... RETURNING id, created_at,
updated_at`. -/
def DeviceRepository.CreateDeviceVersion (env : Env) (version : DeviceVersion) (w : World) :
    Except String DeviceVersion × World :=
  match env.dbFault w.stmts with
  | some err => (.error err, w.tick)
  | none =>
    let id := env.genID w.stmts
    if w.db.device_versions.any (fun v => v.ID == id) then (.error uniqueViolation, w.tick)
    else
      let t := env.now w.stmts
      (.ok { version with ID := id, CreatedAt := t, UpdatedAt := t },
        { w.tick with db := { w.db with device_versions := w.db.device_versions ++
            [{ ID := id, Name := version.Name, Version := version.Version,
               Description := version.Description, CreatedAt := t, UpdatedAt := t }] } })

/-- The method `DeviceRepository.DeleteDeviceVersion`: `DELETE FROM
device_versions WHERE id = $1`; fails when no row was affected.  The reference
from a device to its version is kept by explicit checks, not by the store. -/
def DeviceRepository.DeleteDeviceVersion (env : Env) (id : UUID) (w : World) :
    Option String × World :=
  match env.dbFault w.stmts with
  | some err => (some err, w.tick)
  | none =>
    let w1 : World :=
      { w.tick with db := { w.db with
          device_versions := w.db.device_versions.filter (fun v => !(v.ID == id)) } }
    if (w.db.device_versions.filter (fun v => v.ID == id)).length = 0 then
      (some "device version not found", w1)
    else (none, w1)

/-- The method `DeviceRepository.CreateAllowedDevice`: one `INSERT INTO
allowed_devices (dev_eui, nwk_key, app_key, addr_key, description) ...
RETURNING id, created_at, updated_at`; `dev_eui` is unique. -/
def DeviceRepository.CreateAllowedDevice (env : Env) (device : AllowedDevice) (w : World) :
    Except String AllowedDevice × World :=
  match env.dbFault w.stmts with
  | some err => (.error err, w.tick)
  | none =>
    let id := env.genID w.stmts
    if w.db.allowed_devices.any (fun a => a.ID == id || a.DevEUI == device.DevEUI) then
      (.error uniqueViolation, w.tick)
    else
      let t := env.now w.stmts
      (.ok { device with ID := id, CreatedAt := t, UpdatedAt := t },
        { w.tick with db := { w.db with allowed_devices := w.db.allowed_devices ++
            [{ ID := id, DevEUI := device.DevEUI, NwkKey := device.NwkKey,
               AppKey := device.AppKey, AddrKey := device.AddrKey,
               Description := device.Description, CreatedAt := t, UpdatedAt := t }] } })

/-- The method `DeviceRepository.DeleteAllowedDevice`: `DELETE FROM
allowed_devices WHERE dev_eui = $1`; fails when no row was affected. -/
def DeviceRepository.DeleteAllowedDevice (env : Env) (devEUI : String) (w : World) :
    Option String × World :=
  match env.dbFault w.stmts with
  | some err => (some err, w.tick)
  | none =>
    let w1 : World :=
      { w.tick with db := { w.db with
          allowed_devices := w.db.allowed_devices.filter (fun a => !(a.DevEUI == devEUI)) } }
    if (w.db.allowed_devices.filter (fun a => a.DevEUI == devEUI)).length = 0 then
      (some "allowed device not found", w1)
    else (none, w1)

/-- The method `DeviceService.CreateDeviceVersion`. -/
def DeviceService.CreateDeviceVersion (_s : DeviceService) (env : Env)
    (req : CreateDeviceVersionRequest) (w : World) : Except String DeviceVersion × World :=
  match DeviceRepository.CreateDeviceVersion env
      { ID := UUID.Nil, Name := req.Name, Version := req.Version,
        Description := req.Description, CreatedAt := 0, UpdatedAt := 0 } w with
  | (.error err, w1) => (.error ("failed to create device version: " ++ err), w1)
  | (.ok version, w1) => (.ok version, w1)

/-- The method `DeviceService.GetDeviceVersionByID`. -/
def DeviceService.GetDeviceVersionByID (_s : DeviceService) (env : Env) (id : UUID)
    (w : World) : Except String DeviceVersion × World :=
  DeviceRepository.GetDeviceVersionByID env id w

/-- The method `DeviceService.DeleteDeviceVersion`. -/
def DeviceService.DeleteDeviceVersion (_s : DeviceService) (env : Env) (id : UUID)
    (w : World) : Option String × World :=
  DeviceRepository.DeleteDeviceVersion env id w

/-- The method `DeviceService.CreateAllowedDevice`. -/
def DeviceService.CreateAllowedDevice (_s : DeviceService) (env : Env)
    (req : CreateAllowedDeviceRequest) (w : World) : Except String AllowedDevice × World :=
  match DeviceRepository.CreateAllowedDevice env
      { ID := UUID.Nil, DevEUI := req.DevEUI, NwkKey := req.NwkKey, AppKey := req.AppKey,
        AddrKey := req.AddrKey, Description := req.Description, CreatedAt := 0,
        UpdatedAt := 0 } w with
  | (.error err, w1) => (.error ("failed to create allowed device: " ++ err), w1)
  | (.ok device, w1) => (.ok device, w1)

/-- The method `DeviceService.GetAllowedDeviceByDevEUI`. -/
def DeviceService.GetAllowedDeviceByDevEUI (_s : DeviceService) (env : Env) (devEUI : String)
    (w : World) : Except String AllowedDevice × World :=
  DeviceRepository.GetAllowedDeviceByDevEUI env devEUI w

/-- The method `DeviceService.DeleteAllowedDevice`. -/
def DeviceService.DeleteAllowedDevice (_s : DeviceService) (env : Env) (devEUI : String)
    (w : World) : Option String × World :=
  DeviceRepository.DeleteAllowedDevice env devEUI w

/-- One call of a method of `UserServiceInterface` or `DeviceServiceInterface`,
with its arguments. -/
inductive ServiceCall where
  | Register (req : RegisterRequest)
  | Login (req : LoginRequest)
  | GetUserByID (id : String)
  | GetAllUsers (page pageSize : ℤ)
  | UpdateUser (id : String) (req : UpdateUserRequest)
  | DeleteUser (id : String)
  | SearchUsers (req : UserSearchRequest)
  | CreateDeviceVersion (req : CreateDeviceVersionRequest)
  | GetDeviceVersionByID (id : UUID)
  | GetDeviceVersions (page pageSize : ℤ)
  | UpdateDeviceVersion (id : UUID) (req : UpdateDeviceVersionRequest)
  | DeleteDeviceVersion (id : UUID)
  | CreateAllowedDevice (req : CreateAllowedDeviceRequest)
  | GetAllowedDeviceByDevEUI (devEUI : String)
  | GetAllowedDevices (page pageSize : ℤ)
  | UpdateAllowedDevice (devEUI : String) (req : UpdateAllowedDeviceRequest)
  | DeleteAllowedDevice (devEUI : String)
  | CreateDevice (userID : UUID) (req : CreateDeviceRequest)
  | GetDeviceByID (id : UUID)
  | GetDevicesByUserID (userID : UUID) (page pageSize : ℤ)
  | GetAllDevices (page pageSize : ℤ)
  | UpdateDevice (id : UUID) (req : UpdateDeviceRequest)
  | DeleteDevice (id : UUID)

/-- The world a service call leaves behind. -/
def ServiceCall.run (us : UserService) (ds : DeviceService) (env : Env) :
    ServiceCall → World → World
  | .Register req, w => (us.Register env req w).2
  | .Login req, w => (us.Login env req w).2
  | .GetUserByID id, w => (us.GetUserByID env id w).2
  | .GetAllUsers page pageSize, w => (us.GetAllUsers env page pageSize w).2
  | .UpdateUser id req, w => (us.UpdateUser env id req w).2
  | .DeleteUser id, w => (us.DeleteUser env id w).2
  | .SearchUsers req, w => (us.SearchUsers env req w).2
  | .CreateDeviceVersion req, w => (ds.CreateDeviceVersion env req w).2
  | .GetDeviceVersionByID id, w => (ds.GetDeviceVersionByID env id w).2
  | .GetDeviceVersions page pageSize, w => (ds.GetDeviceVersions env page pageSize w).2
  | .UpdateDeviceVersion id req, w => (ds.UpdateDeviceVersion env id req w).2
  | .DeleteDeviceVersion id, w => (ds.DeleteDeviceVersion env id w).2
  | .CreateAllowedDevice req, w => (ds.CreateAllowedDevice env req w).2
  | .GetAllowedDeviceByDevEUI devEUI, w => (ds.GetAllowedDeviceByDevEUI env devEUI w).2
  | .GetAllowedDevices page pageSize, w => (ds.GetAllowedDevices env page pageSize w).2
  | .UpdateAllowedDevice devEUI req, w => (ds.UpdateAllowedDevice env devEUI req w).2
  | .DeleteAllowedDevice devEUI, w => (ds.DeleteAllowedDevice env devEUI w).2
  | .CreateDevice userID req, w => (ds.CreateDevice env userID req w).2
  | .GetDeviceByID id, w => (ds.GetDeviceByID env id w).2
  | .GetDevicesByUserID userID page pageSize, w =>
    (ds.GetDevicesByUserID env userID page pageSize w).2
  | .GetAllDevices page pageSize, w => (ds.GetAllDevices env page pageSize w).2
  | .UpdateDevice id req, w => (ds.UpdateDevice env id req w).2
  | .DeleteDevice id, w => (ds.DeleteDevice env id w).2

/-- The states the two services can reach from `w0`: any sequence of calls,
each under any behaviour of the collaborators. -/
inductive Reachable (us : UserService) (ds : DeviceService) (w0 : World) : World → Prop where
  | start : Reachable us ds w0 w0
  | step {w : World} (env : Env) (call : ServiceCall) :
      Reachable us ds w0 w → Reachable us ds w0 (call.run us ds env w)

/-- Every device row has equal progress booleans. -/
def FlagsAgree (w : World) : Prop :=
  ∀ d ∈ w.db.devices, d.ChirpStackDeviceCreated = d.ChirpStackDeviceActivated

/-! ## Tokens (`internal/auth`) -/

/-- Modelled from the spec: the claims of a token of the absent package
`internal/auth`, the identity (user id, email) the token was minted for. -/
structure Claims where
  UserID : UUID
  Email : String

/-- Modelled from the spec: the struct `auth.JWTService` built by
`auth.NewJWTService(secretKey)`, which is not part of the sources.  The spec
keeps the issuer opaque ("mint token for identity", "verify token → identity");
the keyed signature algorithm is a parameter. -/
structure JWTService where
  secretKey : String
  /-- signature of a signing input under a key -/
  sign : String → List Char → List Char

/-- Modelled from the spec: the dot-free encoding of a token segment of the
absent package `internal/auth` (a token is dot-separated segments): a dot is
written `~d`, a tilde `~t`. -/
def encodeSegment : List Char → List Char
  | [] => []
  | c :: cs =>
    if c = '.' then '~' :: 'd' :: encodeSegment cs
    else if c = '~' then '~' :: 't' :: encodeSegment cs
    else c :: encodeSegment cs

/-- Modelled from the spec: decoding of a token segment of the absent package
`internal/auth`, the inverse of `encodeSegment`; a tilde followed by anything
but `d` or `t` is not an encoding. -/
def decodeSegment : List Char → Option (List Char)
  | [] => some []
  | c :: cs =>
    if c = '~' then
      match cs with
      | [] => none
      | e :: r =>
        if e = 'd' then (decodeSegment r).map (fun l => '.' :: l)
        else if e = 't' then (decodeSegment r).map (fun l => '~' :: l)
        else none
    else (decodeSegment cs).map (fun l => c :: l)

/-- Modelled from the spec: the method `auth.JWTService.GenerateToken`, which is
not part of the sources ("mint token for identity").  The token is three
dot-separated segments: the user id, the email, and the signature of the first
two under the issuer's key. -/
def JWTService.GenerateToken (j : JWTService) (userID : UUID) (email : String) :
    Except String String :=
  let signingInput := encodeSegment userID.String.toList ++ '.' :: encodeSegment email.toList
  .ok (String.mk (signingInput ++ '.' :: encodeSegment (j.sign j.secretKey signingInput)))

/-- Modelled from the spec: the method `auth.JWTService.ValidateToken`, which is
not part of the sources ("verify token → identity").  A token that is not three
segments, or whose segments do not decode, is malformed; the signature must be
the issuer's signature of the first two segments. -/
def JWTService.ValidateToken (j : JWTService) (tokenString : String) : Except String Claims :=
  match tokenString.toList.splitOn '.' with
  | [a, b, c] =>
    if decodeSegment c = some (j.sign j.secretKey (a ++ '.' :: b)) then
      match decodeSegment a, decodeSegment b with
      | some u, some e => .ok { UserID := ⟨String.mk u⟩, Email := String.mk e }
      | _, _ => .error "token is malformed"
    else .error "signature is invalid"
  | _ => .error "token is malformed"

/-- An issuer whose signature is the key followed by the signing input. -/
def sampleJWTService : JWTService :=
  { secretKey := "test-secret-key", sign := fun key input => key.toList ++ input }

/-- Collaborators whose HTTP library rejects the activate URL of the DevEUI
"%zz0000000000000" (`http.NewRequest` fails to parse the URL: "%zz" is not a
percent escape) and whose platform answers 200 to every other request. -/
def sampleEnvBadEscape : Env :=
  { sampleEnv with
    http := fun _ req =>
      if req.url = "http://h:8090/api/devices/%zz0000000000000/activate" then
        .createFailed ("parse \"http://h:8090/api/devices/%zz0000000000000/activate\": " ++
          "invalid URL escape \"%zz\"")
      else .response 200 "ok" }

/-- Collaborators whose platform answers 200 to every request and whose store
fails the fifth statement of an operation started on a fresh store: in
`CreateDevice` that is the UPDATE of the two progress columns. -/
def sampleEnvStatusWriteFails : Env :=
  { sampleEnv with dbFault := fun n => if n = 4 then some "connection lost" else none }

/-- Collaborators whose platform answers 200 to every request and whose store
fails the third statement of an operation started on a fresh store: in
`Register` that is the UPDATE writing the three platform identifiers. -/
def sampleEnvIdsWriteFails : Env :=
  { sampleEnv with dbFault := fun n => if n = 2 then some "connection lost" else none }

/-! ## Device creation: the gates before the insert -/

/-- C1: for a user the store returns with both an application id and a profile
id, and a request whose DevEUI matches no allow-list row, `CreateDevice` fails
with the not-in-allow-list error, leaves the store unchanged and hands no
request to the platform. -/
theorem CreateDevice_not_allow_listed (s : DeviceService) (env : Env) (userID : UUID)
    (req : CreateDeviceRequest) (w : World) (user : User)
    (hu : (UserRepository.GetUserByID env userID.String w).1 = .ok user)
    (happ : user.ApplicationID ≠ none) (hprof : user.DeviceProfileID ≠ none)
    (hnot : ∀ a ∈ w.db.allowed_devices, a.DevEUI ≠ req.DevEUI) :
    (s.CreateDevice env userID req w).1
        = .error ("device with devEUI " ++ req.DevEUI ++ " not found in allowed devices")
      ∧ (s.CreateDevice env userID req w).2.db = w.db
      ∧ (s.CreateDevice env userID req w).2.requests = w.requests := by
  have hfind : w.db.allowed_devices.find? (fun a => a.DevEUI == req.DevEUI) = none := by
    simp only [List.find?_eq_none]
    intro a ha
    simpa using hnot a ha
  unfold DeviceService.CreateDevice
  unfold UserRepository.GetUserByID at hu ⊢
  cases hf : env.dbFault w.stmts with
  | some e => simp [hf] at hu
  | none =>
    simp only [hf] at hu ⊢
    cases hl : w.db.users.find? (fun u => u.ID.String == userID.String) with
    | none => simp [hl] at hu
    | some u =>
      simp only [hl] at hu ⊢
      have hsame : u = user := by simpa using hu
      subst hsame
      simp only [happ, hprof, or_self, if_false]
      unfold DeviceRepository.GetAllowedDeviceByDevEUI
      cases hf2 : env.dbFault w.tick.stmts with
      | some e => simp [World.tick]
      | none => simp [World.tick, hfind]

/-- Witness of C1 on the sample store: a DevEUI outside the allow-list. -/
theorem CreateDevice_not_allow_listed_witness :
    (UserRepository.GetUserByID sampleEnv (UUID.String ⟨"u1"⟩) sampleWorld).1 = .ok sampleUser
      ∧ (DeviceService.CreateDevice ⟨some sampleGateway⟩ sampleEnv ⟨"u1"⟩ sampleUnknownReq
          sampleWorld).1
        = .error "device with devEUI 0000000000000001 not found in allowed devices"
      ∧ (DeviceService.CreateDevice ⟨some sampleGateway⟩ sampleEnv ⟨"u1"⟩ sampleUnknownReq
          sampleWorld).2.db.devices = [] :=
  have h := CreateDevice_not_allow_listed ⟨some sampleGateway⟩ sampleEnv ⟨"u1"⟩
    sampleUnknownReq sampleWorld sampleUser rfl (by decide) (by decide) (by decide)
  ⟨rfl, h.1, by rw [h.2.1]; rfl⟩

/-- C2: for a user the store returns whose application id or profile id is
null, `CreateDevice` fails with the failed-precondition error for every
request, leaves the store unchanged and hands no request to the platform. -/
theorem CreateDevice_user_without_platform_identity (s : DeviceService) (env : Env)
    (userID : UUID) (req : CreateDeviceRequest) (w : World) (user : User)
    (hu : (UserRepository.GetUserByID env userID.String w).1 = .ok user)
    (hnull : user.ApplicationID = none ∨ user.DeviceProfileID = none) :
    (s.CreateDevice env userID req w).1
        = .error "user does not have ChirpStack application or device profile"
      ∧ (s.CreateDevice env userID req w).2.db = w.db
      ∧ (s.CreateDevice env userID req w).2.requests = w.requests := by
  unfold DeviceService.CreateDevice
  unfold UserRepository.GetUserByID at hu ⊢
  cases hf : env.dbFault w.stmts with
  | some e => simp [hf] at hu
  | none =>
    simp only [hf] at hu ⊢
    cases hl : w.db.users.find? (fun u => u.ID.String == userID.String) with
    | none => simp [hl] at hu
    | some u =>
      simp only [hl] at hu ⊢
      have hsame : u = user := by simpa using hu
      subst hsame
      simp [hnull, World.tick]

/-- Witness of C2 on the sample store: the user without platform identifiers
asks for an allow-listed DevEUI and an existing version. -/
theorem CreateDevice_user_without_platform_identity_witness :
    (UserRepository.GetUserByID sampleEnv (UUID.String ⟨"u2"⟩) sampleWorld).1
        = .ok sampleBareUser
      ∧ (DeviceService.CreateDevice ⟨some sampleGateway⟩ sampleEnv ⟨"u2"⟩ sampleReq
          sampleWorld).1
        = .error "user does not have ChirpStack application or device profile" :=
  ⟨rfl, (CreateDevice_user_without_platform_identity ⟨some sampleGateway⟩ sampleEnv ⟨"u2"⟩
    sampleReq sampleWorld sampleBareUser rfl (Or.inl rfl)).1⟩

/-! ## Shared lemmas on the repositories and the gateway -/

theorem find?_some_of_mem {α : Type} (p : α → Bool) (l : List α)
    (h : ∃ a ∈ l, p a = true) : ∃ b, l.find? p = some b ∧ p b = true := by
  cases hf : l.find? p with
  | none =>
    rcases h with ⟨a, ha, hpa⟩
    have := List.find?_eq_none.mp hf a ha
    simp [hpa] at this
  | some b => exact ⟨b, rfl, List.find?_some hf⟩

theorem find?_append_fresh (l : List Device) (row : Device) (id : UUID) (hid : row.ID = id)
    (hfresh : ∀ d ∈ l, d.ID ≠ id) :
    (l ++ [row]).find? (fun d => d.ID == id) = some row := by
  have hnone : l.find? (fun d => d.ID == id) = none := by
    rw [List.find?_eq_none]
    intro d hd h
    exact hfresh d hd (by simpa using h)
  simp [List.find?_append, hnone, hid]

theorem UserRepository.GetUserByID_snd (env : Env) (id : String) (w : World) :
    (UserRepository.GetUserByID env id w).2 = w.tick := by
  unfold UserRepository.GetUserByID
  cases env.dbFault w.stmts <;> simp only
  cases w.db.users.find? (fun u => u.ID.String == id) <;> rfl

theorem UserRepository.GetUserByID_of_ok (env : Env) (id : String) (w : World) (user : User)
    (h : (UserRepository.GetUserByID env id w).1 = .ok user) :
    UserRepository.GetUserByID env id w = (.ok user, w.tick) :=
  Prod.ext h (UserRepository.GetUserByID_snd env id w)

theorem DeviceRepository.GetAllowedDeviceByDevEUI_of_find (env : Env) (devEUI : String)
    (w : World) (a : AllowedDevice) (hf : env.dbFault w.stmts = none)
    (h : w.db.allowed_devices.find? (fun a => a.DevEUI == devEUI) = some a) :
    DeviceRepository.GetAllowedDeviceByDevEUI env devEUI w = (.ok a, w.tick) := by
  simp [DeviceRepository.GetAllowedDeviceByDevEUI, hf, h]

theorem DeviceRepository.GetDeviceVersionByID_of_find (env : Env) (id : UUID)
    (w : World) (v : DeviceVersion) (hf : env.dbFault w.stmts = none)
    (h : w.db.device_versions.find? (fun v => v.ID == id) = some v) :
    DeviceRepository.GetDeviceVersionByID env id w = (.ok v, w.tick) := by
  simp [DeviceRepository.GetDeviceVersionByID, hf, h]

theorem DeviceRepository.GetDeviceByID_snd (env : Env) (id : UUID) (w : World) :
    (DeviceRepository.GetDeviceByID env id w).2 = w.tick := by
  unfold DeviceRepository.GetDeviceByID
  cases env.dbFault w.stmts <;> simp only
  cases hd : w.db.devices.find? (fun d => d.ID == id) with
  | none => rfl
  | some d =>
    simp only
    cases w.db.device_versions.find? (fun v => v.ID == d.VersionID) <;> rfl

theorem DeviceRepository.GetDeviceByID_fst_of_find (env : Env) (id : UUID)
    (w : World) (d : Device) (v : DeviceVersion) (hf : env.dbFault w.stmts = none)
    (h : w.db.devices.find? (fun d => d.ID == id) = some d)
    (hv : w.db.device_versions.find? (fun v => v.ID == d.VersionID) = some v) :
    (DeviceRepository.GetDeviceByID env id w).1 = .ok { d with Version := some v } := by
  simp [DeviceRepository.GetDeviceByID, hf, h, hv]

/-- A device row without its version row cannot be read: the scan of the
joined row fails. -/
theorem DeviceRepository.GetDeviceByID_fst_of_no_version (env : Env) (id : UUID)
    (w : World) (d : Device) (hf : env.dbFault w.stmts = none)
    (h : w.db.devices.find? (fun d => d.ID == id) = some d)
    (hv : w.db.device_versions.find? (fun v => v.ID == d.VersionID) = none) :
    (DeviceRepository.GetDeviceByID env id w).1 = .error scanNullError := by
  simp [DeviceRepository.GetDeviceByID, hf, h, hv]

theorem DeviceRepository.GetDeviceByID_fst_of_none (env : Env) (id : UUID)
    (w : World) (hf : env.dbFault w.stmts = none)
    (h : w.db.devices.find? (fun d => d.ID == id) = none) :
    (DeviceRepository.GetDeviceByID env id w).1 = .error "device not found" := by
  simp [DeviceRepository.GetDeviceByID, hf, h]

theorem World.tick_db (w : World) : w.tick.db = w.db := rfl

theorem World.tick_requests (w : World) : w.tick.requests = w.requests := rfl

theorem World.tick_stmts (w : World) : w.tick.stmts = w.stmts + 1 := rfl

theorem World.print_db (w : World) (l : String) : (w.print l).db = w.db := rfl

theorem World.print_requests (w : World) (l : String) : (w.print l).requests = w.requests := rfl

theorem World.print_stmts (w : World) (l : String) : (w.print l).stmts = w.stmts := rfl

/-- The insert of `CreateDevice` under a working store and a fresh id: the
struct handed back and the world after the insert. -/
theorem DeviceRepository.CreateDevice_of_fresh (env : Env) (device : Device) (w : World)
    (hf : env.dbFault w.stmts = none)
    (hfresh : ∀ d ∈ w.db.devices, d.ID ≠ env.genID w.stmts) :
    ∃ w1 : World,
      DeviceRepository.CreateDevice env device w
        = (.ok { device with ID := env.genID w.stmts, CreatedAt := env.now w.stmts,
                             UpdatedAt := env.now w.stmts }, w1)
      ∧ w1.db.devices = w.db.devices ++
          [{ ID := env.genID w.stmts, UserID := device.UserID,
             VersionID := device.VersionID, Name := device.Name, DevEUI := device.DevEUI,
             Description := device.Description, ChirpStackDeviceCreated := false,
             ChirpStackDeviceActivated := false, IsActive := env.isActiveDefault,
             CreatedAt := env.now w.stmts, UpdatedAt := env.now w.stmts,
             Version := none, User := none }]
      ∧ w1.db.users = w.db.users ∧ w1.db.device_versions = w.db.device_versions
      ∧ w1.db.allowed_devices = w.db.allowed_devices
      ∧ w1.requests = w.requests ∧ w1.stmts = w.stmts + 1 := by
  have hany : w.db.devices.any (fun d => d.ID == env.genID w.stmts) = false := by
    rw [Bool.eq_false_iff]
    intro h
    obtain ⟨d, hd, hd2⟩ := List.any_eq_true.mp h
    exact hfresh d hd (by simpa using hd2)
  refine ⟨(DeviceRepository.CreateDevice env device w).2, ?_, ?_⟩
  · simp [DeviceRepository.CreateDevice, hf, hany]
  · simp [DeviceRepository.CreateDevice, hf, hany, World.tick, progressDefault]

/-- The local leg of `CreateDevice` under a working store: after the three
lookups and the insert, what remains is the mirroring block followed by the
final re-read. -/
theorem DeviceService.CreateDevice_local_leg (s : DeviceService) (env : Env) (userID : UUID)
    (req : CreateDeviceRequest) (w : World) (user : User) (a : AllowedDevice)
    (hrel : ∀ n, env.dbFault n = none)
    (hfresh : ∀ n, ∀ d ∈ w.db.devices, d.ID ≠ env.genID n)
    (hu : (UserRepository.GetUserByID env userID.String w).1 = .ok user)
    (happ : user.ApplicationID ≠ none) (hprof : user.DeviceProfileID ≠ none)
    (ha : w.db.allowed_devices.find? (fun a => a.DevEUI == req.DevEUI) = some a)
    (hver : ∃ v ∈ w.db.device_versions, v.ID = req.VersionID) :
    ∃ (device1 : Device) (w4 : World),
      device1.ID = env.genID (w.stmts + 3) ∧ device1.Name = req.Name
      ∧ device1.DevEUI = req.DevEUI
      ∧ w4.db.devices = w.db.devices ++
          [{ ID := env.genID (w.stmts + 3), UserID := userID, VersionID := req.VersionID,
             Name := req.Name, DevEUI := req.DevEUI, Description := req.Description,
             ChirpStackDeviceCreated := false, ChirpStackDeviceActivated := false,
             IsActive := env.isActiveDefault, CreatedAt := env.now (w.stmts + 3),
             UpdatedAt := env.now (w.stmts + 3), Version := none, User := none }]
      ∧ w4.db.users = w.db.users ∧ w4.db.device_versions = w.db.device_versions
      ∧ w4.db.allowed_devices = w.db.allowed_devices
      ∧ w4.requests = w.requests
      ∧ s.CreateDevice env userID req w
          = DeviceRepository.GetDeviceByID env (env.genID (w.stmts + 3))
              (match s.chirpStackService with
                | none => w4
                | some cs =>
                  if cs.IsEnabled then
                    match DeviceService.createChirpStackDevice cs env device1 user a w4 with
                    | (some err, w4a) =>
                      w4a.print ("Warning: Failed to create ChirpStack device: " ++ err ++ "\n")
                    | (none, w4a) => w4a
                  else w4) := by
  obtain ⟨v, hv, -⟩ := find?_some_of_mem (fun v : DeviceVersion => v.ID == req.VersionID) _
    (by obtain ⟨v, hv, h⟩ := hver; exact ⟨v, hv, by simp [h]⟩)
  have h1 := UserRepository.GetUserByID_of_ok env _ w user hu
  have h2 := DeviceRepository.GetAllowedDeviceByDevEUI_of_find env req.DevEUI w.tick a
    (hrel _) ha
  have h3 := DeviceRepository.GetDeviceVersionByID_of_find env req.VersionID w.tick.tick v
    (hrel _) hv
  obtain ⟨w4, h4, hdev, husers, hvers, hallowed, hreqs, -⟩ :=
    DeviceRepository.CreateDevice_of_fresh env
      { ID := UUID.Nil, UserID := userID, VersionID := req.VersionID, Name := req.Name,
        DevEUI := req.DevEUI, Description := req.Description,
        ChirpStackDeviceCreated := false, ChirpStackDeviceActivated := false,
        IsActive := false, CreatedAt := 0, UpdatedAt := 0, Version := none, User := none }
      w.tick.tick.tick (hrel _) (hfresh _)
  refine ⟨{ ID := env.genID (w.stmts + 3), UserID := userID, VersionID := req.VersionID,
            Name := req.Name, DevEUI := req.DevEUI, Description := req.Description,
            ChirpStackDeviceCreated := false, ChirpStackDeviceActivated := false,
            IsActive := false, CreatedAt := env.now (w.stmts + 3),
            UpdatedAt := env.now (w.stmts + 3), Version := none, User := none },
          w4, rfl, rfl, rfl, hdev, husers, hvers, hallowed, hreqs, ?_⟩
  simp only [DeviceService.CreateDevice, h1, happ, hprof, or_self, if_false, h2, h3, h4]
  rfl

theorem HttpOutcome.built_of_ok (o : HttpOutcome) (h : o.ok = true) : o.built = true := by
  cases o <;> first | rfl | simp [HttpOutcome.ok] at h

/-- The world after `makeRequest`: the request is in the log of the client
exactly when `http.NewRequest` built it; nothing else changes. -/
theorem ChirpStackService.makeRequest_snd (cs : ChirpStackService) (env : Env)
    (method endpoint : String) (payload : Payload) (w : World) :
    (cs.makeRequest env method endpoint payload w).2
      = if (env.http w.requests.length (cs.buildRequest method endpoint payload)).built then
          { w with requests := w.requests ++ [cs.buildRequest method endpoint payload] }
        else w := by
  simp only [ChirpStackService.makeRequest]
  cases env.http w.requests.length (cs.buildRequest method endpoint payload) with
  | createFailed e => rfl
  | doFailed e => rfl
  | readFailed e => rfl
  | response status body => simp only [HttpOutcome.built, if_true]; split <;> rfl

theorem ChirpStackService.makeRequest_db (cs : ChirpStackService) (env : Env)
    (method endpoint : String) (payload : Payload) (w : World) :
    (cs.makeRequest env method endpoint payload w).2.db = w.db := by
  rw [ChirpStackService.makeRequest_snd]
  split <;> rfl

theorem ChirpStackService.makeRequest_stmts (cs : ChirpStackService) (env : Env)
    (method endpoint : String) (payload : Payload) (w : World) :
    (cs.makeRequest env method endpoint payload w).2.stmts = w.stmts := by
  rw [ChirpStackService.makeRequest_snd]
  split <;> rfl

theorem ChirpStackService.makeRequest_stdout (cs : ChirpStackService) (env : Env)
    (method endpoint : String) (payload : Payload) (w : World) :
    (cs.makeRequest env method endpoint payload w).2.stdout = w.stdout := by
  rw [ChirpStackService.makeRequest_snd]
  split <;> rfl

/-- A call that returned a body was answered 2xx, and its request is the last
entry of the log. -/
theorem ChirpStackService.makeRequest_of_eq_ok (cs : ChirpStackService) (env : Env)
    (method endpoint : String) (payload : Payload) (w w1 : World) (body : String)
    (h : cs.makeRequest env method endpoint payload w = (.ok body, w1)) :
    (env.http w.requests.length (cs.buildRequest method endpoint payload)).ok = true
      ∧ w1 = { w with requests := w.requests ++ [cs.buildRequest method endpoint payload] } := by
  simp only [ChirpStackService.makeRequest] at h
  cases ho : env.http w.requests.length (cs.buildRequest method endpoint payload) with
  | createFailed e => simp [ho] at h
  | doFailed e => simp [ho] at h
  | readFailed e => simp [ho] at h
  | response status b =>
    simp only [ho] at h
    by_cases hs : status < 200 ∨ status ≥ 300
    · simp [hs] at h
    · simp only [hs, if_false, Prod.mk.injEq] at h
      refine ⟨?_, h.2.symm⟩
      simp only [HttpOutcome.ok, decide_eq_true_eq]
      omega

theorem ChirpStackService.makeRequest_of_ok (cs : ChirpStackService) (env : Env)
    (method endpoint : String) (payload : Payload) (w : World)
    (h : (env.http w.requests.length (cs.buildRequest method endpoint payload)).ok = true) :
    ∃ body, (cs.makeRequest env method endpoint payload w).1 = .ok body := by
  simp only [ChirpStackService.makeRequest]
  cases ho : env.http w.requests.length (cs.buildRequest method endpoint payload) with
  | response status body =>
    have hs : ¬ (status < 200 ∨ status ≥ 300) := by
      simp [ho, HttpOutcome.ok] at h
      omega
    exact ⟨body, by simp [hs]⟩
  | createFailed e => simp [ho, HttpOutcome.ok] at h
  | doFailed e => simp [ho, HttpOutcome.ok] at h
  | readFailed e => simp [ho, HttpOutcome.ok] at h

theorem ChirpStackService.makeRequest_of_not_ok (cs : ChirpStackService) (env : Env)
    (method endpoint : String) (payload : Payload) (w : World)
    (h : (env.http w.requests.length (cs.buildRequest method endpoint payload)).ok = false) :
    ∃ err, (cs.makeRequest env method endpoint payload w).1 = .error err := by
  simp only [ChirpStackService.makeRequest]
  cases ho : env.http w.requests.length (cs.buildRequest method endpoint payload) with
  | response status body =>
    have hs : status < 200 ∨ status ≥ 300 := by
      simp [ho, HttpOutcome.ok] at h
      omega
    exact ⟨"ChirpStack API error (status " ++ toString status ++ "): " ++ body, by simp [hs]⟩
  | createFailed e => exact ⟨_, rfl⟩
  | doFailed e => exact ⟨_, rfl⟩
  | readFailed e => exact ⟨_, rfl⟩

/-- The mirroring step when the create call or the activate call fails: it
reports an error and has not touched the store. -/
theorem DeviceService.createChirpStackDevice_of_failure (cs : ChirpStackService) (env : Env)
    (device : Device) (user : User) (allowedDevice : AllowedDevice) (w : World)
    (hfail :
      (env.http w.requests.length (cs.buildRequest "POST" "/devices"
          (.device (DeviceService.createDeviceRequest device user)))).ok = false
      ∨ (env.http (w.requests.length + 1)
          (cs.buildRequest "POST" ("/devices/" ++ device.DevEUI ++ "/activate")
            (.activation (DeviceService.activateDeviceRequest allowedDevice)))).ok = false) :
    ∃ err, (DeviceService.createChirpStackDevice cs env device user allowedDevice w).1 = some err
      ∧ (DeviceService.createChirpStackDevice cs env device user allowedDevice w).2.db = w.db
      ∧ (DeviceService.createChirpStackDevice cs env device user allowedDevice w).2.stmts
          = w.stmts := by
  unfold DeviceService.createChirpStackDevice
  have hdb1 := ChirpStackService.makeRequest_db cs env "POST" "/devices"
    (.device (DeviceService.createDeviceRequest device user)) w
  have hst1 := ChirpStackService.makeRequest_stmts cs env "POST" "/devices"
    (.device (DeviceService.createDeviceRequest device user)) w
  rcases h1 : cs.makeRequest env "POST" "/devices"
    (.device (DeviceService.createDeviceRequest device user)) w with ⟨r1, w1⟩
  rw [h1] at hdb1 hst1
  simp only at hdb1 hst1
  cases r1 with
  | error e => exact ⟨_, rfl, hdb1, hst1⟩
  | ok body =>
    simp only
    obtain ⟨hcreate, hw1⟩ := ChirpStackService.makeRequest_of_eq_ok cs env _ _ _ w w1 body h1
    have hact : (env.http (w.requests.length + 1)
          (cs.buildRequest "POST" ("/devices/" ++ device.DevEUI ++ "/activate")
            (.activation (DeviceService.activateDeviceRequest allowedDevice)))).ok = false := by
      rcases hfail with h | h
      · rw [hcreate] at h; simp at h
      · exact h
    have hlen : (w1.print ("ChirpStack device created: " ++ body ++ "\n")).requests.length
        = w.requests.length + 1 := by
      rw [hw1]; simp [World.print]
    have hdb2 := ChirpStackService.makeRequest_db cs env "POST"
      ("/devices/" ++ device.DevEUI ++ "/activate")
      (.activation (DeviceService.activateDeviceRequest allowedDevice))
      (w1.print ("ChirpStack device created: " ++ body ++ "\n"))
    have hst2 := ChirpStackService.makeRequest_stmts cs env "POST"
      ("/devices/" ++ device.DevEUI ++ "/activate")
      (.activation (DeviceService.activateDeviceRequest allowedDevice))
      (w1.print ("ChirpStack device created: " ++ body ++ "\n"))
    obtain ⟨err, herr⟩ := ChirpStackService.makeRequest_of_not_ok cs env "POST"
      ("/devices/" ++ device.DevEUI ++ "/activate")
      (.activation (DeviceService.activateDeviceRequest allowedDevice))
      (w1.print ("ChirpStack device created: " ++ body ++ "\n"))
      (by rw [hlen]; exact hact)
    rcases h2 : cs.makeRequest env "POST" ("/devices/" ++ device.DevEUI ++ "/activate")
      (.activation (DeviceService.activateDeviceRequest allowedDevice))
      (w1.print ("ChirpStack device created: " ++ body ++ "\n")) with ⟨r2, w2⟩
    rw [h2] at hdb2 hst2 herr
    simp only at hdb2 hst2 herr
    subst herr
    exact ⟨_, rfl, by rw [hdb2, World.print_db, hdb1], by rw [hst2, World.print_stmts, hst1]⟩

theorem DeviceRepository.UpdateDeviceChirpStackStatus_snd (env : Env) (id : UUID)
    (created activated : Bool) (w : World) (hf : env.dbFault w.stmts = none) :
    (DeviceRepository.UpdateDeviceChirpStackStatus env id created activated w).2
      = { w.tick with db := { w.db with devices := w.db.devices.map (fun d =>
            if d.ID == id then
              { d with ChirpStackDeviceCreated := created,
                       ChirpStackDeviceActivated := activated, UpdatedAt := env.now w.stmts }
            else d) } } := by
  simp only [DeviceRepository.UpdateDeviceChirpStackStatus, hf]
  split <;> rfl

theorem HttpOutcome.ok_iff (o : HttpOutcome) :
    o.ok = true ↔ ∃ status body, o = .response status body ∧ ¬ (status < 200 ∨ status ≥ 300) := by
  cases o with
  | response status body =>
    simp only [HttpOutcome.ok, decide_eq_true_eq, HttpOutcome.response.injEq]
    constructor
    · intro h
      exact ⟨status, body, ⟨rfl, rfl⟩, by omega⟩
    · rintro ⟨s1, b1, ⟨rfl, rfl⟩, h⟩
      omega
  | createFailed e => simp [HttpOutcome.ok]
  | doFailed e => simp [HttpOutcome.ok]
  | readFailed e => simp [HttpOutcome.ok]

/-- The mirroring step when both calls succeed and the store works: no error,
and the rows with the device's id have both progress columns set to true. -/
theorem DeviceService.createChirpStackDevice_of_success (cs : ChirpStackService) (env : Env)
    (device : Device) (user : User) (allowedDevice : AllowedDevice) (w : World)
    (hf : env.dbFault w.stmts = none)
    (hcreate :
      (env.http w.requests.length (cs.buildRequest "POST" "/devices"
          (.device (DeviceService.createDeviceRequest device user)))).ok = true)
    (hact :
      (env.http (w.requests.length + 1)
          (cs.buildRequest "POST" ("/devices/" ++ device.DevEUI ++ "/activate")
            (.activation (DeviceService.activateDeviceRequest allowedDevice)))).ok = true) :
    (DeviceService.createChirpStackDevice cs env device user allowedDevice w).1 = none
      ∧ (DeviceService.createChirpStackDevice cs env device user allowedDevice w).2.db.devices
          = w.db.devices.map (fun d =>
              if d.ID == device.ID then
                { d with ChirpStackDeviceCreated := true, ChirpStackDeviceActivated := true,
                         UpdatedAt := env.now w.stmts }
              else d)
      ∧ (DeviceService.createChirpStackDevice cs env device user allowedDevice w).2.db.device_versions
          = w.db.device_versions
      ∧ (DeviceService.createChirpStackDevice cs env device user allowedDevice w).2.stmts
          = w.stmts + 1 := by
  obtain ⟨s1, b1, ho1, hs1⟩ := (HttpOutcome.ok_iff _).mp hcreate
  obtain ⟨s2, b2, ho2, hs2⟩ := (HttpOutcome.ok_iff _).mp hact
  simp only [DeviceService.createChirpStackDevice, ChirpStackService.makeRequest, ho1, hs1,
    if_false, World.print, List.length_append, List.length_singleton, ho2, hs2,
    DeviceRepository.UpdateDeviceChirpStackStatus, hf, World.tick]
  split_ifs <;> exact ⟨rfl, rfl, rfl, rfl⟩

/-- Updating the progress columns of a fresh id touches only the appended row. -/
theorem map_append_fresh (l : List Device) (row : Device) (f : Device → Device)
    (hfresh : ∀ d ∈ l, d.ID ≠ row.ID) :
    (l ++ [row]).map (fun d => if d.ID == row.ID then f d else d) = l ++ [f row] := by
  have hl : l.map (fun d => if d.ID == row.ID then f d else d) = l := by
    conv_rhs => rw [← List.map_id l]
    apply List.map_congr_left
    intro d hd
    have := hfresh d hd
    simp [this]
  rw [List.map_append, hl]
  simp

/-! ## Device creation: the insert and the mirroring step -/

/-- C3: with the platform integration disabled, for a user the store returns
with both identifiers, an allow-listed DevEUI and an existing version (store
working, generated id unused), `CreateDevice` appends exactly one row that
carries the request's name, DevEUI, version id, description and the caller's
id, returns that row (joined with its version) with both progress booleans
false, and hands no request to the platform. -/
theorem CreateDevice_platform_disabled (s : DeviceService) (env : Env) (userID : UUID)
    (req : CreateDeviceRequest) (w : World) (user : User)
    (hoff : gatewayEnabled s.chirpStackService = false)
    (hrel : ∀ n, env.dbFault n = none)
    (hfresh : ∀ n, ∀ d ∈ w.db.devices, d.ID ≠ env.genID n)
    (hu : (UserRepository.GetUserByID env userID.String w).1 = .ok user)
    (happ : user.ApplicationID ≠ none) (hprof : user.DeviceProfileID ≠ none)
    (hallow : ∃ a ∈ w.db.allowed_devices, a.DevEUI = req.DevEUI)
    (hver : ∃ v ∈ w.db.device_versions, v.ID = req.VersionID) :
    ∃ row : Device,
      (s.CreateDevice env userID req w).2.db.devices = w.db.devices ++ [row]
      ∧ row.Name = req.Name ∧ row.DevEUI = req.DevEUI ∧ row.VersionID = req.VersionID
      ∧ row.Description = req.Description ∧ row.UserID = userID
      ∧ row.ChirpStackDeviceCreated = false ∧ row.ChirpStackDeviceActivated = false
      ∧ (s.CreateDevice env userID req w).1
          = .ok { row with
                    Version := w.db.device_versions.find? (fun v => v.ID == req.VersionID) }
      ∧ (s.CreateDevice env userID req w).2.requests = w.requests := by
  obtain ⟨a, ha, -⟩ := find?_some_of_mem (fun a : AllowedDevice => a.DevEUI == req.DevEUI) _
    (by obtain ⟨a, ha, h⟩ := hallow; exact ⟨a, ha, by simp [h]⟩)
  obtain ⟨device1, w4, -, -, -, hdev, -, hvers, -, hreqs, hrun⟩ :=
    DeviceService.CreateDevice_local_leg s env userID req w user a hrel hfresh hu happ hprof
      ha hver
  have hblock : (match s.chirpStackService with
      | none => w4
      | some cs =>
        if cs.IsEnabled then
          match DeviceService.createChirpStackDevice cs env device1 user a w4 with
          | (some err, w4a) =>
            w4a.print ("Warning: Failed to create ChirpStack device: " ++ err ++ "\n")
          | (none, w4a) => w4a
        else w4) = w4 := by
    cases hs : s.chirpStackService with
    | none => rfl
    | some cs =>
      have hoff2 : cs.IsEnabled = false := by simpa [gatewayEnabled, hs] using hoff
      simp [hoff2]
  rw [hblock] at hrun
  obtain ⟨v, hv, -⟩ := find?_some_of_mem (fun v : DeviceVersion => v.ID == req.VersionID) _
    (by obtain ⟨v, hv, h⟩ := hver; exact ⟨v, hv, by simp [h]⟩)
  refine ⟨{ ID := env.genID (w.stmts + 3), UserID := userID, VersionID := req.VersionID,
            Name := req.Name, DevEUI := req.DevEUI, Description := req.Description,
            ChirpStackDeviceCreated := false, ChirpStackDeviceActivated := false,
            IsActive := env.isActiveDefault, CreatedAt := env.now (w.stmts + 3),
            UpdatedAt := env.now (w.stmts + 3), Version := none, User := none },
          ?_, rfl, rfl, rfl, rfl, rfl, rfl, rfl, ?_, ?_⟩
  · rw [hrun, DeviceRepository.GetDeviceByID_snd, World.tick_db, hdev]
  · rw [hrun, DeviceRepository.GetDeviceByID_fst_of_find env _ w4 _ v (hrel _)
      (by rw [hdev]; exact find?_append_fresh _ _ _ rfl (hfresh _))
      (by rw [hvers]; exact hv), hv]
  · rw [hrun, DeviceRepository.GetDeviceByID_snd, World.tick_requests, hreqs]

/-- Witness of C3 on the sample store, with a gateway whose token is empty. -/
theorem CreateDevice_platform_disabled_witness :
    gatewayEnabled (some sampleGatewayOff) = false
      ∧ ∃ row : Device,
        (DeviceService.CreateDevice ⟨some sampleGatewayOff⟩ sampleEnv ⟨"u1"⟩ sampleReq
            sampleWorld).2.db.devices = sampleWorld.db.devices ++ [row]
        ∧ row.Name = "My Device" ∧ row.ChirpStackDeviceCreated = false
        ∧ row.ChirpStackDeviceActivated = false :=
  have h := CreateDevice_platform_disabled ⟨some sampleGatewayOff⟩ sampleEnv ⟨"u1"⟩ sampleReq
    sampleWorld sampleUser rfl (fun _ => rfl) (fun _ d hd => absurd hd (List.not_mem_nil d))
    rfl (by decide) (by decide)
    ⟨sampleAllowed, by decide, rfl⟩ ⟨sampleVersion, by decide, rfl⟩
  ⟨rfl, h.elim fun row hrow => ⟨row, hrow.1, hrow.2.1, hrow.2.2.2.2.2.2.1, hrow.2.2.2.2.2.2.2.1⟩⟩

/-- C4: with the platform integration enabled and the local gates passed, if
the platform fails the create-device request or the activate-device request,
`CreateDevice` still returns the persisted device: the new row is in the
table, both of its progress booleans are false, and the result is a success,
not the remote error. -/
theorem CreateDevice_remote_failure (s : DeviceService) (cs : ChirpStackService) (env : Env)
    (userID : UUID) (req : CreateDeviceRequest) (w : World) (user : User) (a : AllowedDevice)
    (hs : s.chirpStackService = some cs) (hen : cs.IsEnabled = true)
    (hrel : ∀ n, env.dbFault n = none)
    (hfresh : ∀ n, ∀ d ∈ w.db.devices, d.ID ≠ env.genID n)
    (hu : (UserRepository.GetUserByID env userID.String w).1 = .ok user)
    (happ : user.ApplicationID ≠ none) (hprof : user.DeviceProfileID ≠ none)
    (ha : w.db.allowed_devices.find? (fun a => a.DevEUI == req.DevEUI) = some a)
    (hver : ∃ v ∈ w.db.device_versions, v.ID = req.VersionID)
    (hfail :
      (∀ dev : Device, dev.Name = req.Name → dev.DevEUI = req.DevEUI →
        (env.http w.requests.length (cs.buildRequest "POST" "/devices"
          (.device (DeviceService.createDeviceRequest dev user)))).ok = false)
      ∨ (env.http (w.requests.length + 1)
          (cs.buildRequest "POST" ("/devices/" ++ req.DevEUI ++ "/activate")
            (.activation (DeviceService.activateDeviceRequest a)))).ok = false) :
    ∃ row : Device,
      (s.CreateDevice env userID req w).2.db.devices = w.db.devices ++ [row]
      ∧ row.Name = req.Name ∧ row.DevEUI = req.DevEUI ∧ row.UserID = userID
      ∧ row.ChirpStackDeviceCreated = false ∧ row.ChirpStackDeviceActivated = false
      ∧ (s.CreateDevice env userID req w).1
          = .ok { row with
                    Version := w.db.device_versions.find? (fun v => v.ID == req.VersionID) } := by
  obtain ⟨device1, w4, hid, hname, heui, hdev, -, hvers, -, hreqs, hrun⟩ :=
    DeviceService.CreateDevice_local_leg s env userID req w user a hrel hfresh hu happ hprof
      ha hver
  have hfail4 :
      (env.http w4.requests.length (cs.buildRequest "POST" "/devices"
          (.device (DeviceService.createDeviceRequest device1 user)))).ok = false
      ∨ (env.http (w4.requests.length + 1)
          (cs.buildRequest "POST" ("/devices/" ++ device1.DevEUI ++ "/activate")
            (.activation (DeviceService.activateDeviceRequest a)))).ok = false := by
    rw [hreqs, heui]
    exact hfail.imp (fun h => h device1 hname heui) id
  obtain ⟨err, herr, hdb, hstmts⟩ :=
    DeviceService.createChirpStackDevice_of_failure cs env device1 user a w4 hfail4
  simp only [hs, hen, if_true] at hrun
  rcases hccd : DeviceService.createChirpStackDevice cs env device1 user a w4 with ⟨r, w5⟩
  rw [hccd] at hrun herr hdb hstmts
  simp only at herr hdb hstmts
  subst herr
  simp only at hrun
  obtain ⟨v, hv, -⟩ := find?_some_of_mem (fun v : DeviceVersion => v.ID == req.VersionID) _
    (by obtain ⟨v, hv, h⟩ := hver; exact ⟨v, hv, by simp [h]⟩)
  refine ⟨{ ID := env.genID (w.stmts + 3), UserID := userID, VersionID := req.VersionID,
            Name := req.Name, DevEUI := req.DevEUI, Description := req.Description,
            ChirpStackDeviceCreated := false, ChirpStackDeviceActivated := false,
            IsActive := env.isActiveDefault, CreatedAt := env.now (w.stmts + 3),
            UpdatedAt := env.now (w.stmts + 3), Version := none, User := none },
          ?_, rfl, rfl, rfl, rfl, rfl, ?_⟩
  · rw [hrun, DeviceRepository.GetDeviceByID_snd, World.tick_db, World.print_db, hdb, hdev]
  · rw [hrun, DeviceRepository.GetDeviceByID_fst_of_find env _ _ _ v (hrel _)
      (by rw [World.print_db, hdb, hdev]; exact find?_append_fresh _ _ _ rfl (hfresh _))
      (by rw [World.print_db, hdb, hvers]; exact hv), hv]

/-- Witness of C4 on the sample store, with an unreachable platform. -/
theorem CreateDevice_remote_failure_witness :
    sampleGateway.IsEnabled = true
      ∧ (sampleEnvDown.http 0 (sampleGateway.buildRequest "POST" "/devices"
          (.device (DeviceService.createDeviceRequest
            { ID := UUID.Nil, UserID := ⟨"u1"⟩, VersionID := ⟨"v1"⟩, Name := "My Device",
              DevEUI := "C5EABC521E8304EE", Description := none,
              ChirpStackDeviceCreated := false, ChirpStackDeviceActivated := false,
              IsActive := false, CreatedAt := 0, UpdatedAt := 0, Version := none,
              User := none } sampleUser)))).ok = false
      ∧ ∃ row : Device,
        (DeviceService.CreateDevice ⟨some sampleGateway⟩ sampleEnvDown ⟨"u1"⟩ sampleReq
            sampleWorld).2.db.devices = sampleWorld.db.devices ++ [row]
        ∧ row.ChirpStackDeviceCreated = false ∧ row.ChirpStackDeviceActivated = false :=
  have h := CreateDevice_remote_failure ⟨some sampleGateway⟩ sampleGateway sampleEnvDown ⟨"u1"⟩
    sampleReq sampleWorld sampleUser sampleAllowed rfl rfl (fun _ => rfl)
    (fun _ d hd => absurd hd (List.not_mem_nil d)) rfl (by decide) (by decide) rfl
    ⟨sampleVersion, by decide, rfl⟩ (Or.inl (fun _ _ _ => rfl))
  ⟨rfl, rfl, h.elim fun row hrow => ⟨row, hrow.1, hrow.2.2.2.2.1, hrow.2.2.2.2.2.1⟩⟩

/-- C5 (counterexample): on the sample store with the platform answering 200
to both requests, the store fails the UPDATE of the progress columns.  Both
remote calls succeeded (two requests, both answers printed), the failure of the
write is only printed, and `CreateDevice` returns the device with both progress
booleans false. -/
theorem CreateDevice_status_write_fails :
    sampleGateway.IsEnabled = true
      ∧ (DeviceService.CreateDevice ⟨some sampleGateway⟩ sampleEnvStatusWriteFails ⟨"u1"⟩
          sampleReq sampleWorld).2.requests.map HttpRequest.url
        = ["http://h:8090/api/devices", "http://h:8090/api/devices/C5EABC521E8304EE/activate"]
      ∧ (DeviceService.CreateDevice ⟨some sampleGateway⟩ sampleEnvStatusWriteFails ⟨"u1"⟩
          sampleReq sampleWorld).2.stdout
        = ["ChirpStack device created: ok\n", "ChirpStack device activated: ok\n",
           "Warning: Failed to update device ChirpStack status: connection lost\n"]
      ∧ ∃ d : Device,
          (DeviceService.CreateDevice ⟨some sampleGateway⟩ sampleEnvStatusWriteFails ⟨"u1"⟩
            sampleReq sampleWorld).1 = .ok d
          ∧ d.ChirpStackDeviceCreated = false ∧ d.ChirpStackDeviceActivated = false :=
  ⟨rfl, rfl, rfl, _, rfl, rfl, rfl⟩

/-- C5 (amended): with the platform integration enabled and the local gates
passed, if the platform answers both the create-device request and the
activate-device request with a 2xx status and the store works, so that the
UPDATE of the progress columns is executed, the device `CreateDevice` returns
has both progress booleans true, and so has its stored row. -/
theorem CreateDevice_remote_success (s : DeviceService) (cs : ChirpStackService) (env : Env)
    (userID : UUID) (req : CreateDeviceRequest) (w : World) (user : User) (a : AllowedDevice)
    (hs : s.chirpStackService = some cs) (hen : cs.IsEnabled = true)
    (hrel : ∀ n, env.dbFault n = none)
    (hfresh : ∀ n, ∀ d ∈ w.db.devices, d.ID ≠ env.genID n)
    (hu : (UserRepository.GetUserByID env userID.String w).1 = .ok user)
    (happ : user.ApplicationID ≠ none) (hprof : user.DeviceProfileID ≠ none)
    (ha : w.db.allowed_devices.find? (fun a => a.DevEUI == req.DevEUI) = some a)
    (hver : ∃ v ∈ w.db.device_versions, v.ID = req.VersionID)
    (hcreate : ∀ dev : Device, dev.Name = req.Name → dev.DevEUI = req.DevEUI →
      (env.http w.requests.length (cs.buildRequest "POST" "/devices"
        (.device (DeviceService.createDeviceRequest dev user)))).ok = true)
    (hact : (env.http (w.requests.length + 1)
        (cs.buildRequest "POST" ("/devices/" ++ req.DevEUI ++ "/activate")
          (.activation (DeviceService.activateDeviceRequest a)))).ok = true) :
    ∃ row : Device,
      (s.CreateDevice env userID req w).2.db.devices = w.db.devices ++ [row]
      ∧ row.Name = req.Name ∧ row.DevEUI = req.DevEUI ∧ row.UserID = userID
      ∧ row.ChirpStackDeviceCreated = true ∧ row.ChirpStackDeviceActivated = true
      ∧ ∃ d : Device, (s.CreateDevice env userID req w).1 = .ok d
          ∧ d.ID = row.ID ∧ d.Name = req.Name ∧ d.DevEUI = req.DevEUI
          ∧ d.ChirpStackDeviceCreated = true ∧ d.ChirpStackDeviceActivated = true := by
  obtain ⟨device1, w4, hid, hname, heui, hdev, -, hvers, -, hreqs, hrun⟩ :=
    DeviceService.CreateDevice_local_leg s env userID req w user a hrel hfresh hu happ hprof
      ha hver
  obtain ⟨hnone, hdevs, hvers5, hstmts⟩ :=
    DeviceService.createChirpStackDevice_of_success cs env device1 user a w4 (hrel _)
      (by rw [hreqs]; exact hcreate device1 hname heui)
      (by rw [hreqs, heui]; exact hact)
  simp only [hs, hen, if_true] at hrun
  rcases hccd : DeviceService.createChirpStackDevice cs env device1 user a w4 with ⟨r, w5⟩
  rw [hccd] at hrun hnone hdevs hvers5 hstmts
  simp only at hnone hdevs hvers5 hstmts
  subst hnone
  simp only at hrun
  have hrow : w5.db.devices = w.db.devices ++
      [{ ID := env.genID (w.stmts + 3), UserID := userID, VersionID := req.VersionID,
         Name := req.Name, DevEUI := req.DevEUI, Description := req.Description,
         ChirpStackDeviceCreated := true, ChirpStackDeviceActivated := true,
         IsActive := env.isActiveDefault, CreatedAt := env.now (w.stmts + 3),
         UpdatedAt := env.now w4.stmts, Version := none, User := none }] := by
    rw [hdevs, hdev, hid]
    exact map_append_fresh w.db.devices
      { ID := env.genID (w.stmts + 3), UserID := userID, VersionID := req.VersionID,
        Name := req.Name, DevEUI := req.DevEUI, Description := req.Description,
        ChirpStackDeviceCreated := false, ChirpStackDeviceActivated := false,
        IsActive := env.isActiveDefault, CreatedAt := env.now (w.stmts + 3),
        UpdatedAt := env.now (w.stmts + 3), Version := none, User := none }
      (fun d => { d with ChirpStackDeviceCreated := true, ChirpStackDeviceActivated := true,
                         UpdatedAt := env.now w4.stmts })
      (hfresh _)
  obtain ⟨v, hv, -⟩ := find?_some_of_mem (fun v : DeviceVersion => v.ID == req.VersionID) _
    (by obtain ⟨v, hv, h⟩ := hver; exact ⟨v, hv, by simp [h]⟩)
  refine ⟨{ ID := env.genID (w.stmts + 3), UserID := userID, VersionID := req.VersionID,
            Name := req.Name, DevEUI := req.DevEUI, Description := req.Description,
            ChirpStackDeviceCreated := true, ChirpStackDeviceActivated := true,
            IsActive := env.isActiveDefault, CreatedAt := env.now (w.stmts + 3),
            UpdatedAt := env.now w4.stmts, Version := none, User := none },
          ?_, rfl, rfl, rfl, rfl, rfl,
          { ID := env.genID (w.stmts + 3), UserID := userID, VersionID := req.VersionID,
            Name := req.Name, DevEUI := req.DevEUI, Description := req.Description,
            ChirpStackDeviceCreated := true, ChirpStackDeviceActivated := true,
            IsActive := env.isActiveDefault, CreatedAt := env.now (w.stmts + 3),
            UpdatedAt := env.now w4.stmts, Version := some v, User := none },
          ?_, rfl, rfl, rfl, rfl, rfl⟩
  · rw [hrun, DeviceRepository.GetDeviceByID_snd, World.tick_db, hrow]
  · rw [hrun, DeviceRepository.GetDeviceByID_fst_of_find env _ _ _ v (hrel _)
      (by rw [hrow]; exact find?_append_fresh _ _ _ rfl (hfresh _))
      (by rw [hvers5, hvers]; exact hv)]

/-- Witness of C5 (amended) on the sample store, with a platform that answers 200. -/
theorem CreateDevice_remote_success_witness :
    sampleGateway.IsEnabled = true
      ∧ ∃ d : Device,
        (DeviceService.CreateDevice ⟨some sampleGateway⟩ sampleEnv ⟨"u1"⟩ sampleReq
            sampleWorld).1 = .ok d
        ∧ d.ChirpStackDeviceCreated = true ∧ d.ChirpStackDeviceActivated = true :=
  have h := CreateDevice_remote_success ⟨some sampleGateway⟩ sampleGateway sampleEnv ⟨"u1"⟩
    sampleReq sampleWorld sampleUser sampleAllowed rfl rfl (fun _ => rfl)
    (fun _ d hd => absurd hd (List.not_mem_nil d)) rfl (by decide) (by decide) rfl
    ⟨sampleVersion, by decide, rfl⟩ (fun _ _ _ => rfl) rfl
  ⟨rfl, h.elim fun _ hrow => hrow.2.2.2.2.2.2.elim fun d hd =>
    ⟨d, hd.1, hd.2.2.2.2.1, hd.2.2.2.2.2⟩⟩

/-! ## Device deletion -/

theorem ChirpStackService.DeleteDevice_snd (cs : ChirpStackService) (env : Env)
    (devEUI : String) (w : World) :
    (cs.DeleteDevice env devEUI w).2.db = w.db
      ∧ (cs.DeleteDevice env devEUI w).2.stmts = w.stmts
      ∧ (cs.DeleteDevice env devEUI w).2.requests
          = if cs.IsEnabled
                && (env.http w.requests.length
                      (cs.buildRequest "DELETE" ("/devices/" ++ devEUI) .nil)).built then
              w.requests ++ [cs.buildRequest "DELETE" ("/devices/" ++ devEUI) .nil]
            else w.requests := by
  unfold ChirpStackService.DeleteDevice
  by_cases hen : cs.IsEnabled = true
  · have hw := ChirpStackService.makeRequest_snd cs env "DELETE" ("/devices/" ++ devEUI) .nil w
    rcases h : cs.makeRequest env "DELETE" ("/devices/" ++ devEUI) .nil w with ⟨r, w1⟩
    rw [h] at hw
    simp only at hw
    subst hw
    cases hb : (env.http w.requests.length
        (cs.buildRequest "DELETE" ("/devices/" ++ devEUI) .nil)).built <;>
      cases r <;> simp [hen, World.print]
  · simp [hen]

/-- The block of `DeleteDevice` between the lookup and the local delete: it
never touches the store, and it hands one DELETE request for the DevEUI to the
HTTP client exactly when the gateway is enabled, the device is flagged as
created on the platform and `http.NewRequest` builds the request. -/
theorem DeviceService.DeleteDevice_remote_block (cso : Option ChirpStackService) (env : Env)
    (device : Device) (w : World) :
    ((match cso with
      | none => w
      | some cs =>
        if cs.IsEnabled && device.ChirpStackDeviceCreated then
          match cs.DeleteDevice env device.DevEUI w with
          | (some err, w1a) =>
            w1a.print ("Warning: Failed to delete ChirpStack device: " ++ err ++ "\n")
          | (none, w1a) => w1a
        else w).db = w.db)
    ∧ ((match cso with
      | none => w
      | some cs =>
        if cs.IsEnabled && device.ChirpStackDeviceCreated then
          match cs.DeleteDevice env device.DevEUI w with
          | (some err, w1a) =>
            w1a.print ("Warning: Failed to delete ChirpStack device: " ++ err ++ "\n")
          | (none, w1a) => w1a
        else w).stmts = w.stmts)
    ∧ ((match cso with
      | none => w
      | some cs =>
        if cs.IsEnabled && device.ChirpStackDeviceCreated then
          match cs.DeleteDevice env device.DevEUI w with
          | (some err, w1a) =>
            w1a.print ("Warning: Failed to delete ChirpStack device: " ++ err ++ "\n")
          | (none, w1a) => w1a
        else w).requests
        = match cso with
          | none => w.requests
          | some cs =>
            if cs.IsEnabled && device.ChirpStackDeviceCreated
                && (env.http w.requests.length
                      (cs.buildRequest "DELETE" ("/devices/" ++ device.DevEUI) .nil)).built then
              w.requests ++ [cs.buildRequest "DELETE" ("/devices/" ++ device.DevEUI) .nil]
            else w.requests) := by
  cases cso with
  | none => exact ⟨rfl, rfl, rfl⟩
  | some cs =>
    by_cases hc : (cs.IsEnabled && device.ChirpStackDeviceCreated) = true
    · obtain ⟨hdb, hst, hrq⟩ := ChirpStackService.DeleteDevice_snd cs env device.DevEUI w
      have hen : cs.IsEnabled = true := by
        cases h : cs.IsEnabled <;> simp_all
      rw [hen] at hrq
      simp only [hc, if_true, Bool.true_and] at hrq ⊢
      rcases h : cs.DeleteDevice env device.DevEUI w with ⟨r, w1⟩
      rw [h] at hdb hst hrq
      cases r <;> exact ⟨hdb, hst, hrq⟩
    · simp only [hc, Bool.false_and]
      exact ⟨rfl, rfl, rfl⟩

theorem DeviceRepository.DeleteDevice_of_mem (env : Env) (id : UUID) (w : World)
    (hf : env.dbFault w.stmts = none) (hd : ∃ d ∈ w.db.devices, d.ID = id) :
    (DeviceRepository.DeleteDevice env id w).1 = none
      ∧ (DeviceRepository.DeleteDevice env id w).2.db
          = { w.db with devices := w.db.devices.filter (fun d => !(d.ID == id)) }
      ∧ (DeviceRepository.DeleteDevice env id w).2.requests = w.requests := by
  have hlen : (w.db.devices.filter (fun d => d.ID == id)).length ≠ 0 := by
    obtain ⟨d, hd, hid⟩ := hd
    have : d ∈ w.db.devices.filter (fun d => d.ID == id) := by
      simp [List.mem_filter, hd, hid]
    intro h0
    rw [List.length_eq_zero] at h0
    rw [h0] at this
    exact absurd this (List.not_mem_nil d)
  simp only [DeviceRepository.DeleteDevice, hf, hlen, if_false]
  simp [World.tick]

/-- The lookup of `DeleteDevice` on a row whose version row is missing: the
scan error is wrapped and returned, nothing is handed to the platform and the
store is unchanged, so the row is still there. -/
theorem DeviceService.DeleteDevice_of_no_version (s : DeviceService) (env : Env) (id : UUID)
    (w : World) (d : Device) (hread : env.dbFault w.stmts = none)
    (hfind : w.db.devices.find? (fun d => d.ID == id) = some d)
    (hv : w.db.device_versions.find? (fun v => v.ID == d.VersionID) = none) :
    s.DeleteDevice env id w = (some ("device not found: " ++ scanNullError), w.tick) := by
  have hget : DeviceRepository.GetDeviceByID env id w = (.error scanNullError, w.tick) :=
    Prod.ext (DeviceRepository.GetDeviceByID_fst_of_no_version env id w d hread hfind hv)
      (DeviceRepository.GetDeviceByID_snd env id w)
  simp only [DeviceService.DeleteDevice, hget]

/-- Local deletion when the row can be read: for a device that exists locally
together with its version row (store working), `DeleteDevice` returns success
and removes every row with that id, leaving the other rows and tables as they
were, whatever the gateway configuration and whatever the platform answers. -/
theorem DeviceService.DeleteDevice_removes_row (s : DeviceService) (env : Env) (id : UUID)
    (w : World) (d0 : Device) (v : DeviceVersion) (hrel : ∀ n, env.dbFault n = none)
    (hfind : w.db.devices.find? (fun d => d.ID == id) = some d0)
    (hv : w.db.device_versions.find? (fun v => v.ID == d0.VersionID) = some v) :
    (s.DeleteDevice env id w).1 = none
      ∧ (s.DeleteDevice env id w).2.db
          = { w.db with devices := w.db.devices.filter (fun d => !(d.ID == id)) }
      ∧ ∀ d ∈ (s.DeleteDevice env id w).2.db.devices, d.ID ≠ id := by
  have hd : ∃ d ∈ w.db.devices, d.ID = id :=
    ⟨d0, List.mem_of_find?_eq_some hfind, by simpa using List.find?_some hfind⟩
  have hget : DeviceRepository.GetDeviceByID env id w
      = (.ok { d0 with Version := some v }, w.tick) :=
    Prod.ext (DeviceRepository.GetDeviceByID_fst_of_find env id w d0 v (hrel _) hfind hv)
      (DeviceRepository.GetDeviceByID_snd env id w)
  obtain ⟨hdb, -, -⟩ := DeviceService.DeleteDevice_remote_block s.chirpStackService env
    { d0 with Version := some v } w.tick
  simp only [DeviceService.DeleteDevice, hget]
  obtain ⟨h1, h2, -⟩ := DeviceRepository.DeleteDevice_of_mem env id _ (hrel _)
    (by rw [hdb]; exact hd)
  rw [hdb] at h2
  refine ⟨h1, h2, ?_⟩
  rw [h2]
  intro d hdmem
  simp only [World.tick_db, List.mem_filter] at hdmem
  simpa using hdmem.2

/-- C6 (failing input): on the sample store holding one device, its version is
deleted and then the device.  `DeleteDeviceVersion` succeeds and leaves the
device row in place; `DeleteDevice` of that existing device then returns the
wrapped scan error instead of success, and the device row is not removed. -/
theorem DeleteDevice_fails_without_version :
    (DeviceService.DeleteDeviceVersion ⟨some sampleGateway⟩ sampleEnvDown ⟨"v1"⟩
        sampleWorldWithDevice).1 = none
      ∧ (DeviceService.DeleteDeviceVersion ⟨some sampleGateway⟩ sampleEnvDown ⟨"v1"⟩
          sampleWorldWithDevice).2.db.devices = [sampleDevice]
      ∧ (DeviceService.DeleteDevice ⟨some sampleGateway⟩ sampleEnvDown ⟨"d1"⟩
          (DeviceService.DeleteDeviceVersion ⟨some sampleGateway⟩ sampleEnvDown ⟨"v1"⟩
            sampleWorldWithDevice).2).1
        = some ("device not found: sql: Scan error on column index 12, " ++
            "name \"version.name\": converting NULL to string is unsupported")
      ∧ (DeviceService.DeleteDevice ⟨some sampleGateway⟩ sampleEnvDown ⟨"d1"⟩
          (DeviceService.DeleteDeviceVersion ⟨some sampleGateway⟩ sampleEnvDown ⟨"v1"⟩
            sampleWorldWithDevice).2).2.db.devices = [sampleDevice] := by
  refine ⟨rfl, rfl, ?_, rfl⟩
  decide

/-- The remote delete when the row can be read: when the store answers the
lookup and the version row of the device exists, `DeleteDevice` hands a request
to the HTTP client if and only if the device exists, the gateway is enabled,
the stored `ChirpStackDeviceCreated` flag is true and `http.NewRequest` builds
the request, and then it is exactly one DELETE request for the device's
DevEUI; for an id with no row it fails with the not-found error, hands nothing
to the platform and leaves the store unchanged. -/
theorem DeviceService.DeleteDevice_requests_iff (s : DeviceService) (env : Env) (id : UUID)
    (w : World) (hread : env.dbFault w.stmts = none)
    (hv : ∀ d, w.db.devices.find? (fun d => d.ID == id) = some d →
      ∃ v, w.db.device_versions.find? (fun v => v.ID == d.VersionID) = some v) :
    ((s.DeleteDevice env id w).2.requests ≠ w.requests
        ↔ ∃ d cs, w.db.devices.find? (fun d => d.ID == id) = some d
            ∧ s.chirpStackService = some cs ∧ cs.IsEnabled = true
            ∧ d.ChirpStackDeviceCreated = true
            ∧ (env.http w.requests.length
                (cs.buildRequest "DELETE" ("/devices/" ++ d.DevEUI) .nil)).built = true)
      ∧ (∀ d cs, w.db.devices.find? (fun d => d.ID == id) = some d →
          s.chirpStackService = some cs → cs.IsEnabled = true →
          d.ChirpStackDeviceCreated = true →
          (env.http w.requests.length
            (cs.buildRequest "DELETE" ("/devices/" ++ d.DevEUI) .nil)).built = true →
          (s.DeleteDevice env id w).2.requests
            = w.requests ++ [cs.buildRequest "DELETE" ("/devices/" ++ d.DevEUI) .nil])
      ∧ (w.db.devices.find? (fun d => d.ID == id) = none →
          (s.DeleteDevice env id w).1 = some "device not found: device not found"
          ∧ (s.DeleteDevice env id w).2.requests = w.requests
          ∧ (s.DeleteDevice env id w).2.db = w.db) := by
  have hdel : ∀ w2 : World, (DeviceRepository.DeleteDevice env id w2).2.requests
      = w2.requests := by
    intro w2
    simp only [DeviceRepository.DeleteDevice]
    split
    · rfl
    · split_ifs <;> rfl
  cases hfind : w.db.devices.find? (fun d => d.ID == id) with
  | none =>
    have hget : DeviceRepository.GetDeviceByID env id w
        = (.error "device not found", w.tick) :=
      Prod.ext (DeviceRepository.GetDeviceByID_fst_of_none env id w hread hfind)
        (DeviceRepository.GetDeviceByID_snd env id w)
    simp only [DeviceService.DeleteDevice, hget]
    refine ⟨?_, ?_, ?_⟩
    · simp [World.tick]
    · intro d cs h
      simp at h
    · intro _
      exact ⟨rfl, rfl, rfl⟩
  | some d0 =>
    obtain ⟨v, hv0⟩ := hv d0 hfind
    have hget : DeviceRepository.GetDeviceByID env id w
        = (.ok { d0 with Version := some v }, w.tick) :=
      Prod.ext (DeviceRepository.GetDeviceByID_fst_of_find env id w d0 v hread hfind hv0)
        (DeviceRepository.GetDeviceByID_snd env id w)
    obtain ⟨-, -, hrq⟩ := DeviceService.DeleteDevice_remote_block s.chirpStackService env
      { d0 with Version := some v } w.tick
    simp only [DeviceService.DeleteDevice, hget]
    rw [hdel, hrq]
    refine ⟨?_, ?_, ?_⟩
    · cases hs : s.chirpStackService with
      | none => simp [World.tick]
      | some cs =>
        by_cases hc : (cs.IsEnabled && d0.ChirpStackDeviceCreated
            && (env.http w.requests.length
                  (cs.buildRequest "DELETE" ("/devices/" ++ d0.DevEUI) .nil)).built) = true
        · simp only [World.tick_requests, hc, if_true]
          have hc2 : (cs.IsEnabled = true ∧ d0.ChirpStackDeviceCreated = true)
              ∧ (env.http w.requests.length
                  (cs.buildRequest "DELETE" ("/devices/" ++ d0.DevEUI) .nil)).built = true := by
            simpa using hc
          constructor
          · intro _
            exact ⟨d0, cs, rfl, rfl, hc2.1.1, hc2.1.2, hc2.2⟩
          · intro _ h
            have := congrArg List.length h
            simp at this
        · simp only [World.tick_requests, hc]
          constructor
          · intro h
            exact absurd rfl h
          · rintro ⟨d, cs2, hd, hcs, hen, hcr, hb⟩
            simp only [Option.some.injEq] at hd hcs
            subst hd
            subst hcs
            simp [hen, hcr, hb] at hc
    · intro d cs hd hcs hen hcr hb
      simp only [Option.some.injEq] at hd
      subst hd
      simp [hcs, hen, hcr, hb, World.tick]
    · intro h
      simp at h

/-- C7 (failing input): the sample device exists, is flagged as created on the
platform, and the gateway is enabled and answers every request with 200; after
its version row has been deleted, `DeleteDevice` hands no request to the
platform and does not remove the row. -/
theorem DeleteDevice_no_remote_delete_without_version :
    sampleGateway.IsEnabled = true
      ∧ (DeviceService.DeleteDeviceVersion ⟨some sampleGateway⟩ sampleEnv ⟨"v1"⟩
          sampleWorldWithDevice).2.db.devices.find? (fun d => d.ID == ⟨"d1"⟩)
        = some sampleDevice
      ∧ sampleDevice.ChirpStackDeviceCreated = true
      ∧ (DeviceService.DeleteDevice ⟨some sampleGateway⟩ sampleEnv ⟨"d1"⟩
          (DeviceService.DeleteDeviceVersion ⟨some sampleGateway⟩ sampleEnv ⟨"v1"⟩
            sampleWorldWithDevice).2).2.requests = []
      ∧ (DeviceService.DeleteDevice ⟨some sampleGateway⟩ sampleEnv ⟨"d1"⟩
          (DeviceService.DeleteDeviceVersion ⟨some sampleGateway⟩ sampleEnv ⟨"v1"⟩
            sampleWorldWithDevice).2).2.db.devices = [sampleDevice] := by
  exact ⟨rfl, rfl, rfl, rfl, rfl⟩

/-! ## The enabled predicate guards every gateway call -/

theorem UserRepository.GetUserByEmail_snd (env : Env) (email : String) (w : World) :
    (UserRepository.GetUserByEmail env email w).2 = w.tick := by
  unfold UserRepository.GetUserByEmail
  cases env.dbFault w.stmts <;> simp only
  cases w.db.users.find? (fun u => u.Email == email) <;> rfl

theorem DeviceRepository.GetAllowedDeviceByDevEUI_snd (env : Env) (devEUI : String)
    (w : World) : (DeviceRepository.GetAllowedDeviceByDevEUI env devEUI w).2 = w.tick := by
  unfold DeviceRepository.GetAllowedDeviceByDevEUI
  cases env.dbFault w.stmts <;> simp only
  cases w.db.allowed_devices.find? (fun a => a.DevEUI == devEUI) <;> rfl

theorem DeviceRepository.GetDeviceVersionByID_snd (env : Env) (id : UUID) (w : World) :
    (DeviceRepository.GetDeviceVersionByID env id w).2 = w.tick := by
  unfold DeviceRepository.GetDeviceVersionByID
  cases env.dbFault w.stmts <;> simp only
  cases w.db.device_versions.find? (fun v => v.ID == id) <;> rfl

theorem UserRepository.CreateUser_requests (env : Env) (user : User) (w : World) :
    (UserRepository.CreateUser env user w).2.requests = w.requests := by
  simp only [UserRepository.CreateUser]
  split
  · rfl
  · split_ifs <;> rfl

theorem DeviceRepository.CreateDevice_requests (env : Env) (device : Device) (w : World) :
    (DeviceRepository.CreateDevice env device w).2.requests = w.requests := by
  simp only [DeviceRepository.CreateDevice]
  split
  · rfl
  · split_ifs <;> rfl

theorem DeviceRepository.DeleteDevice_requests (env : Env) (id : UUID) (w : World) :
    (DeviceRepository.DeleteDevice env id w).2.requests = w.requests := by
  simp only [DeviceRepository.DeleteDevice]
  split
  · rfl
  · split_ifs <;> rfl

/-- With the gateway absent or disabled, `CreateDevice` hands nothing to the platform. -/
theorem DeviceService.CreateDevice_requests_of_disabled (s : DeviceService) (env : Env)
    (userID : UUID) (req : CreateDeviceRequest) (w : World)
    (hoff : gatewayEnabled s.chirpStackService = false) :
    (s.CreateDevice env userID req w).2.requests = w.requests := by
  unfold DeviceService.CreateDevice
  have e1 := UserRepository.GetUserByID_snd env userID.String w
  rcases h1 : UserRepository.GetUserByID env userID.String w with ⟨r1, w1⟩
  rw [h1] at e1
  simp only at e1
  subst e1
  cases r1 with
  | error err => rfl
  | ok user =>
    simp only
    split_ifs
    · rfl
    · have e2 := DeviceRepository.GetAllowedDeviceByDevEUI_snd env req.DevEUI w.tick
      rcases h2 : DeviceRepository.GetAllowedDeviceByDevEUI env req.DevEUI w.tick with ⟨r2, w2⟩
      rw [h2] at e2
      simp only at e2
      subst e2
      cases r2 with
      | error err => rfl
      | ok allowedDevice =>
        simp only
        have e3 := DeviceRepository.GetDeviceVersionByID_snd env req.VersionID w.tick.tick
        rcases h3 : DeviceRepository.GetDeviceVersionByID env req.VersionID w.tick.tick
          with ⟨r3, w3⟩
        rw [h3] at e3
        simp only at e3
        subst e3
        cases r3 with
        | error err => rfl
        | ok v =>
          simp only
          have e4 := DeviceRepository.CreateDevice_requests env
            { ID := UUID.Nil, UserID := userID, VersionID := req.VersionID, Name := req.Name,
              DevEUI := req.DevEUI, Description := req.Description,
              ChirpStackDeviceCreated := false, ChirpStackDeviceActivated := false,
              IsActive := false, CreatedAt := 0, UpdatedAt := 0, Version := none,
              User := none } w.tick.tick.tick
          rcases h4 : DeviceRepository.CreateDevice env
            { ID := UUID.Nil, UserID := userID, VersionID := req.VersionID, Name := req.Name,
              DevEUI := req.DevEUI, Description := req.Description,
              ChirpStackDeviceCreated := false, ChirpStackDeviceActivated := false,
              IsActive := false, CreatedAt := 0, UpdatedAt := 0, Version := none,
              User := none } w.tick.tick.tick with ⟨r4, w4⟩
          rw [h4] at e4
          simp only at e4
          cases r4 with
          | error err => exact e4
          | ok device1 =>
            simp only
            rw [DeviceRepository.GetDeviceByID_snd, World.tick_requests]
            cases hs : s.chirpStackService with
            | none => exact e4
            | some cs =>
              have hoff2 : cs.IsEnabled = false := by simpa [gatewayEnabled, hs] using hoff
              simp only [hoff2]
              exact e4

/-- With the gateway absent or disabled, `DeleteDevice` hands nothing to the platform. -/
theorem DeviceService.DeleteDevice_requests_of_disabled (s : DeviceService) (env : Env)
    (id : UUID) (w : World) (hoff : gatewayEnabled s.chirpStackService = false) :
    (s.DeleteDevice env id w).2.requests = w.requests := by
  unfold DeviceService.DeleteDevice
  have e1 := DeviceRepository.GetDeviceByID_snd env id w
  rcases h1 : DeviceRepository.GetDeviceByID env id w with ⟨r1, w1⟩
  rw [h1] at e1
  simp only at e1
  subst e1
  cases r1 with
  | error err => rfl
  | ok device =>
    simp only
    rw [DeviceRepository.DeleteDevice_requests]
    cases hs : s.chirpStackService with
    | none => rfl
    | some cs =>
      have hoff2 : cs.IsEnabled = false := by simpa [gatewayEnabled, hs] using hoff
      simp [hoff2, World.tick]

/-- With the gateway absent or disabled, `Register` hands nothing to the platform. -/
theorem UserService.Register_requests_of_disabled (s : UserService) (env : Env)
    (req : RegisterRequest) (w : World) (hoff : gatewayEnabled s.chirpStackService = false) :
    (s.Register env req w).2.requests = w.requests := by
  unfold UserService.Register
  have e1 := UserRepository.GetUserByEmail_snd env req.Email w
  rcases h1 : UserRepository.GetUserByEmail env req.Email w with ⟨r1, w1⟩
  rw [h1] at e1
  simp only at e1
  subst e1
  cases r1 with
  | ok u => rfl
  | error err =>
    simp only
    cases hh : env.HashPassword req.Password with
    | error e => rfl
    | ok hashedPassword =>
      simp only
      have e2 := UserRepository.CreateUser_requests env
        { ID := UUID.Nil, Email := req.Email, PasswordHash := hashedPassword,
          FullName := req.FullName, TenantID := none, ApplicationID := none,
          DeviceProfileID := none, CreatedAt := 0, UpdatedAt := 0 } w.tick
      rcases h2 : UserRepository.CreateUser env
        { ID := UUID.Nil, Email := req.Email, PasswordHash := hashedPassword,
          FullName := req.FullName, TenantID := none, ApplicationID := none,
          DeviceProfileID := none, CreatedAt := 0, UpdatedAt := 0 } w.tick with ⟨r2, w2⟩
      rw [h2] at e2
      simp only at e2
      cases r2 with
      | error e => exact e2
      | ok user1 =>
        simp only
        cases ht : env.GenerateToken user1.ID user1.Email with
        | error e => exact e2
        | ok token =>
          simp only
          cases hs : s.chirpStackService with
          | none => exact e2
          | some cs =>
            have hoff2 : cs.IsEnabled = false := by simpa [gatewayEnabled, hs] using hoff
            simp only [hoff2]
            exact e2

/-- C8: `IsEnabled` holds exactly when the configuration flag is true and the
token is non-empty; and when it does not hold, no execution of `Register`,
`CreateDevice` or `DeleteDevice` hands a request to the platform. -/
theorem IsEnabled_guards_gateway (cs : ChirpStackService) :
    (cs.IsEnabled = true
        ↔ cs.config.ChirpStackEnabled = true ∧ cs.config.ChirpStackToken ≠ "")
      ∧ (cs.IsEnabled = false → ∀ (env : Env) (w : World),
          (∀ req, (UserService.Register ⟨some cs⟩ env req w).2.requests = w.requests)
          ∧ (∀ userID req,
              (DeviceService.CreateDevice ⟨some cs⟩ env userID req w).2.requests = w.requests)
          ∧ (∀ id, (DeviceService.DeleteDevice ⟨some cs⟩ env id w).2.requests = w.requests)) := by
  refine ⟨?_, ?_⟩
  · simp [ChirpStackService.IsEnabled]
  · intro hoff env w
    have hg : gatewayEnabled (some cs) = false := hoff
    exact ⟨fun req => UserService.Register_requests_of_disabled ⟨some cs⟩ env req w hg,
      fun userID req => DeviceService.CreateDevice_requests_of_disabled ⟨some cs⟩ env userID
        req w hg,
      fun id => DeviceService.DeleteDevice_requests_of_disabled ⟨some cs⟩ env id w hg⟩

/-- Witness of C8: with an empty token the predicate is false and creating a
device for an allow-listed DevEUI leaves the request log empty. -/
theorem IsEnabled_guards_gateway_witness :
    sampleGatewayOff.IsEnabled = false
      ∧ (DeviceService.CreateDevice ⟨some sampleGatewayOff⟩ sampleEnv ⟨"u1"⟩ sampleReq
          sampleWorld).2.requests = [] :=
  ⟨rfl, ((IsEnabled_guards_gateway sampleGatewayOff).2 rfl sampleEnv sampleWorld).2.1
    ⟨"u1"⟩ sampleReq⟩

/-! ## Registration -/

theorem UserRepository.CreateUser_of_duplicate (env : Env) (user : User) (w : World)
    (hdup : ∃ u ∈ w.db.users, u.Email = user.Email) :
    ∃ err, UserRepository.CreateUser env user w = (.error err, w.tick) := by
  have hany : w.db.users.any (fun u => u.ID == env.genID w.stmts || u.Email == user.Email)
      = true := by
    obtain ⟨u, hu, hmail⟩ := hdup
    exact List.any_eq_true.mpr ⟨u, hu, by simp [hmail]⟩
  simp only [UserRepository.CreateUser]
  cases env.dbFault w.stmts with
  | some err => exact ⟨_, rfl⟩
  | none =>
    simp only [hany, if_true]
    exact ⟨_, rfl⟩

/-- C9: when the store already holds a user with the request's email,
`Register` fails (with the already-exists error whenever the store answers the
lookup), the handler answers 400 with that error, no token is returned, the
store is unchanged and nothing is handed to the platform. -/
theorem Register_duplicate_email (s : UserService) (env : Env) (req : RegisterRequest)
    (w : World) (hdup : ∃ u ∈ w.db.users, u.Email = req.Email) :
    ∃ err, (s.Register env req w).1 = .error err
      ∧ (env.dbFault w.stmts = none
          → err = "user with email " ++ req.Email ++ " already exists")
      ∧ (UserHandler.Register ⟨s⟩ env (.ok req) w).1 = { status := 400, body := .error err }
      ∧ (s.Register env req w).2.db = w.db
      ∧ (s.Register env req w).2.requests = w.requests
      ∧ (UserHandler.Register ⟨s⟩ env (.ok req) w).2 = (s.Register env req w).2 := by
  have hhandler : ∀ err, (s.Register env req w).1 = .error err →
      (UserHandler.Register ⟨s⟩ env (.ok req) w).1 = { status := 400, body := .error err }
      ∧ (UserHandler.Register ⟨s⟩ env (.ok req) w).2 = (s.Register env req w).2 := by
    intro err herr
    simp only [UserHandler.Register]
    rcases hr : s.Register env req w with ⟨r, w1⟩
    rw [hr] at herr
    simp only at herr
    subst herr
    exact ⟨rfl, rfl⟩
  have hmain : ∃ err, (s.Register env req w).1 = .error err
      ∧ (env.dbFault w.stmts = none
          → err = "user with email " ++ req.Email ++ " already exists")
      ∧ (s.Register env req w).2.db = w.db
      ∧ (s.Register env req w).2.requests = w.requests := by
    obtain ⟨u0, hfind, -⟩ := find?_some_of_mem (fun u : User => u.Email == req.Email)
      w.db.users (by obtain ⟨u, hu, h⟩ := hdup; exact ⟨u, hu, by simp [h]⟩)
    simp only [UserService.Register, UserRepository.GetUserByEmail]
    cases hf : env.dbFault w.stmts with
    | none =>
      simp only [hfind]
      exact ⟨_, rfl, fun _ => rfl, rfl, rfl⟩
    | some e =>
      simp only
      cases hh : env.HashPassword req.Password with
      | error e2 => exact ⟨_, rfl, fun h => by simp at h, rfl, rfl⟩
      | ok hashedPassword =>
        simp only
        obtain ⟨err, hcreate⟩ := UserRepository.CreateUser_of_duplicate env
          { ID := UUID.Nil, Email := req.Email, PasswordHash := hashedPassword,
            FullName := req.FullName, TenantID := none, ApplicationID := none,
            DeviceProfileID := none, CreatedAt := 0, UpdatedAt := 0 } w.tick hdup
        rw [hcreate]
        exact ⟨_, rfl, fun h => by simp at h, rfl, rfl⟩
  obtain ⟨err, h1, h2, h3, h4⟩ := hmain
  exact ⟨err, h1, h2, (hhandler err h1).1, h3, h4, (hhandler err h1).2⟩

/-- Witness of C9: registering the sample user's email a second time. -/
theorem Register_duplicate_email_witness :
    ∃ err, (UserService.Register ⟨some sampleGateway⟩ sampleEnv
        { Email := "a@example.com", Password := "password123", FullName := "A again" }
        sampleWorld).1 = .error err
      ∧ err = "user with email a@example.com already exists" :=
  (Register_duplicate_email ⟨some sampleGateway⟩ sampleEnv
    { Email := "a@example.com", Password := "password123", FullName := "A again" }
    sampleWorld ⟨sampleUser, by decide, rfl⟩).elim
    fun err h => ⟨err, h.1, h.2.1 rfl⟩

theorem ChirpStackService.CreateTenant_db (cs : ChirpStackService) (env : Env)
    (username : String) (w : World) : (cs.CreateTenant env username w).2.db = w.db := by
  simp only [ChirpStackService.CreateTenant]
  have hw := ChirpStackService.makeRequest_db cs env "POST" "/tenants"
    (.tenant { Tenant :=
        { CanHaveGateways := true, Description := username, MaxDeviceCount := 10000,
          MaxGatewayCount := 10000, Name := username, PrivateGatewaysDown := true,
          PrivateGatewaysUp := true, Tags := [] } }) w
  rcases h : cs.makeRequest env "POST" "/tenants"
    (.tenant { Tenant :=
        { CanHaveGateways := true, Description := username, MaxDeviceCount := 10000,
          MaxGatewayCount := 10000, Name := username, PrivateGatewaysDown := true,
          PrivateGatewaysUp := true, Tags := [] } }) w with ⟨r, w1⟩
  rw [h] at hw
  simp only at hw
  cases r with
  | error e => exact hw
  | ok body => simp only; cases env.jsonID body <;> exact hw

theorem ChirpStackService.CreateApplication_db (cs : ChirpStackService) (env : Env)
    (tenantID name : String) (w : World) :
    (cs.CreateApplication env tenantID name w).2.db = w.db := by
  simp only [ChirpStackService.CreateApplication]
  have hw := ChirpStackService.makeRequest_db cs env "POST" "/applications"
    (.application { Application :=
        { TenantID := tenantID, Name := name, Description := "Application for " ++ name,
          Tags := [] } }) w
  rcases h : cs.makeRequest env "POST" "/applications"
    (.application { Application :=
        { TenantID := tenantID, Name := name, Description := "Application for " ++ name,
          Tags := [] } }) w with ⟨r, w1⟩
  rw [h] at hw
  simp only at hw
  cases r with
  | error e => exact hw
  | ok body => simp only; cases env.jsonID body <;> exact hw

theorem ChirpStackService.CreateDeviceProfile_db (cs : ChirpStackService) (env : Env)
    (tenantID : String) (w : World) :
    (cs.CreateDeviceProfile env tenantID w).2.db = w.db := by
  simp only [ChirpStackService.CreateDeviceProfile]
  generalize hp : Payload.deviceProfile _ = p
  have hw := ChirpStackService.makeRequest_db cs env "POST" "/device-profiles" p w
  rcases h : cs.makeRequest env "POST" "/device-profiles" p w with ⟨r, w1⟩
  rw [h] at hw
  simp only at hw
  cases r with
  | error e => exact hw
  | ok body => simp only; cases env.jsonID body <;> exact hw

/-- When one of the three create calls fails, `CreateUserResources` reports an
error and has not written to the store. -/
theorem ChirpStackService.CreateUserResources_of_failure (cs : ChirpStackService) (env : Env)
    (userID username : String) (w : World)
    (hfail :
      (∃ e, (cs.CreateTenant env username w).1 = .error e)
      ∨ (∃ t w3 e, cs.CreateTenant env username w = (.ok t, w3)
          ∧ (cs.CreateApplication env t "Lnode" w3).1 = .error e)
      ∨ (∃ t w3 ap w4 e, cs.CreateTenant env username w = (.ok t, w3)
          ∧ cs.CreateApplication env t "Lnode" w3 = (.ok ap, w4)
          ∧ (cs.CreateDeviceProfile env t w4).1 = .error e)) :
    ∃ err, (cs.CreateUserResources env userID username w).1 = .error err
      ∧ (cs.CreateUserResources env userID username w).2.db = w.db := by
  simp only [ChirpStackService.CreateUserResources]
  by_cases hoff : (!cs.IsEnabled) = true
  · rw [if_pos hoff]
    exact ⟨_, rfl, rfl⟩
  · rw [if_neg hoff]
    have dT := ChirpStackService.CreateTenant_db cs env username w
    rcases hT : cs.CreateTenant env username w with ⟨rT, wT⟩
    rw [hT] at dT hfail
    simp only at dT
    cases rT with
    | error e => exact ⟨_, rfl, dT⟩
    | ok t =>
      simp only
      have dA := ChirpStackService.CreateApplication_db cs env t "Lnode" wT
      rcases hA : cs.CreateApplication env t "Lnode" wT with ⟨rA, wA⟩
      rw [hA] at dA
      simp only at dA
      cases rA with
      | error e => exact ⟨_, rfl, dA.trans dT⟩
      | ok ap =>
        simp only
        have dP := ChirpStackService.CreateDeviceProfile_db cs env t wA
        rcases hP : cs.CreateDeviceProfile env t wA with ⟨rP, wP⟩
        rw [hP] at dP
        simp only at dP
        cases rP with
        | error e => exact ⟨_, rfl, dP.trans (dA.trans dT)⟩
        | ok p =>
          exfalso
          rcases hfail with ⟨e, h⟩ | ⟨t2, w3, e, h1, h2⟩ | ⟨t2, w3, ap2, w4, e, h1, h2, h3⟩
          · simp at h
          · simp only [Prod.mk.injEq, Except.ok.injEq] at h1
            obtain ⟨rfl, rfl⟩ := h1
            rw [hA] at h2
            simp at h2
          · simp only [Prod.mk.injEq, Except.ok.injEq] at h1
            obtain ⟨rfl, rfl⟩ := h1
            rw [hA] at h2
            simp only [Prod.mk.injEq, Except.ok.injEq] at h2
            obtain ⟨rfl, rfl⟩ := h2
            rw [hP] at h3
            simp at h3

/-- A successful `CreateUser`: the struct handed back and the row appended. -/
theorem UserRepository.CreateUser_of_ok (env : Env) (user user1 : User) (w w1 : World)
    (h : UserRepository.CreateUser env user w = (.ok user1, w1)) :
    user1 = { user with ID := user1.ID, CreatedAt := user1.CreatedAt,
                        UpdatedAt := user1.UpdatedAt }
      ∧ w1.db = { w.db with users := w.db.users ++
          [{ ID := user1.ID, Email := user.Email, PasswordHash := user.PasswordHash,
             FullName := user.FullName, TenantID := none, ApplicationID := none,
             DeviceProfileID := none, CreatedAt := user1.CreatedAt,
             UpdatedAt := user1.UpdatedAt }] }
      ∧ w1.requests = w.requests := by
  simp only [UserRepository.CreateUser] at h
  cases hf : env.dbFault w.stmts with
  | some e => simp [hf] at h
  | none =>
    simp only [hf] at h
    by_cases hany : (w.db.users.any
        (fun u => u.ID == env.genID w.stmts || u.Email == user.Email)) = true
    · rw [if_pos hany] at h
      simp at h
    · rw [if_neg hany] at h
      simp only [Prod.mk.injEq, Except.ok.injEq] at h
      obtain ⟨rfl, rfl⟩ := h
      exact ⟨rfl, rfl, rfl⟩

/-- C10: with the platform integration enabled and the local steps of
registration done (no user found for the email, password hashed, row inserted,
token minted), if creating the tenant, the application or the device profile
fails, `Register` still returns the minted token and the created user, the
inserted row is the last row of the table, and its tenant, application and
profile ids are null. -/
theorem Register_remote_failure (s : UserService) (cs : ChirpStackService) (env : Env)
    (req : RegisterRequest) (w w2 : World) (hash token : String) (user1 : User)
    (hs : s.chirpStackService = some cs) (hen : cs.IsEnabled = true)
    (hnew : ∃ e0, (UserRepository.GetUserByEmail env req.Email w).1 = .error e0)
    (hhash : env.HashPassword req.Password = .ok hash)
    (hins : UserRepository.CreateUser env
        { ID := UUID.Nil, Email := req.Email, PasswordHash := hash, FullName := req.FullName,
          TenantID := none, ApplicationID := none, DeviceProfileID := none,
          CreatedAt := 0, UpdatedAt := 0 } w.tick = (.ok user1, w2))
    (htok : env.GenerateToken user1.ID user1.Email = .ok token)
    (hfail :
      (∃ e, (cs.CreateTenant env user1.Email w2).1 = .error e)
      ∨ (∃ t w3 e, cs.CreateTenant env user1.Email w2 = (.ok t, w3)
          ∧ (cs.CreateApplication env t "Lnode" w3).1 = .error e)
      ∨ (∃ t w3 ap w4 e, cs.CreateTenant env user1.Email w2 = (.ok t, w3)
          ∧ cs.CreateApplication env t "Lnode" w3 = (.ok ap, w4)
          ∧ (cs.CreateDeviceProfile env t w4).1 = .error e)) :
    (s.Register env req w).1 = .ok { Token := token, User := user1 }
      ∧ (s.Register env req w).2.db.users = w.db.users ++
          [{ ID := user1.ID, Email := req.Email, PasswordHash := hash,
             FullName := req.FullName, TenantID := none, ApplicationID := none,
             DeviceProfileID := none, CreatedAt := user1.CreatedAt,
             UpdatedAt := user1.UpdatedAt }]
      ∧ user1.Email = req.Email ∧ user1.TenantID = none ∧ user1.ApplicationID = none
      ∧ user1.DeviceProfileID = none := by
  obtain ⟨e0, he0⟩ := hnew
  have hget : UserRepository.GetUserByEmail env req.Email w = (.error e0, w.tick) :=
    Prod.ext he0 (UserRepository.GetUserByEmail_snd env req.Email w)
  obtain ⟨hu1, hdb2, -⟩ := UserRepository.CreateUser_of_ok env _ user1 w.tick w2 hins
  obtain ⟨err, herr, hdb⟩ := ChirpStackService.CreateUserResources_of_failure cs env
    user1.ID.String user1.Email w2 hfail
  simp only [UserService.Register, hget, hhash, hins, htok, hs, hen, if_true]
  rcases hcur : cs.CreateUserResources env user1.ID.String user1.Email w2 with ⟨r, w3⟩
  rw [hcur] at herr hdb
  simp only at herr hdb
  subst herr
  simp only [World.print_db, hdb, hdb2, World.tick_db, true_and]
  rw [hu1]
  exact ⟨rfl, rfl, rfl, rfl⟩

/-- Witness of C10: registration of a new email while the platform is
unreachable, so that creating the tenant fails. -/
theorem Register_remote_failure_witness :
    sampleGateway.IsEnabled = true
      ∧ (∃ e, (sampleGateway.CreateTenant sampleEnvDown "c@example.com"
          (UserRepository.CreateUser sampleEnvDown
            { ID := UUID.Nil, Email := "c@example.com", PasswordHash := "hash:password123",
              FullName := "C", TenantID := none, ApplicationID := none,
              DeviceProfileID := none, CreatedAt := 0, UpdatedAt := 0 }
            sampleWorld.tick).2).1 = .error e)
      ∧ (UserService.Register ⟨some sampleGateway⟩ sampleEnvDown sampleRegister
          sampleWorld).1 = .ok { Token := "d1/c@example.com", User := sampleRegistered } :=
  ⟨rfl, ⟨_, rfl⟩,
    (Register_remote_failure ⟨some sampleGateway⟩ sampleGateway sampleEnvDown sampleRegister
      sampleWorld
      (UserRepository.CreateUser sampleEnvDown
        { ID := UUID.Nil, Email := "c@example.com", PasswordHash := "hash:password123",
          FullName := "C", TenantID := none, ApplicationID := none,
          DeviceProfileID := none, CreatedAt := 0, UpdatedAt := 0 } sampleWorld.tick).2
      "hash:password123" "d1/c@example.com" sampleRegistered rfl rfl ⟨_, rfl⟩ rfl rfl rfl
      (Or.inl ⟨_, rfl⟩)).1⟩

/-! ## Registration: the identifiers are written onto the user row -/

theorem UUID.String_inj (a b : UUID) : a.String = b.String ↔ a = b := by
  cases a; cases b; simp [UUID.String]

theorem UserRepository.CreateUser_fresh_of_ok (env : Env) (user user1 : User) (w w1 : World)
    (h : UserRepository.CreateUser env user w = (.ok user1, w1)) :
    ∀ u ∈ w.db.users, u.ID ≠ user1.ID := by
  simp only [UserRepository.CreateUser] at h
  cases hf : env.dbFault w.stmts with
  | some e => simp [hf] at h
  | none =>
    simp only [hf] at h
    by_cases hany : (w.db.users.any
        (fun u => u.ID == env.genID w.stmts || u.Email == user.Email)) = true
    · rw [if_pos hany] at h
      simp at h
    · rw [if_neg hany] at h
      simp only [Prod.mk.injEq, Except.ok.injEq] at h
      obtain ⟨rfl, -⟩ := h
      intro u hu hid
      apply hany
      exact List.any_eq_true.mpr ⟨u, hu, by simp [hid]⟩

theorem map_users_append_fresh (l : List User) (row : User) (f : User → User)
    (hfresh : ∀ u ∈ l, u.ID ≠ row.ID) :
    (l ++ [row]).map (fun u => if u.ID.String == row.ID.String then f u else u)
      = l ++ [f row] := by
  have hl : l.map (fun u => if u.ID.String == row.ID.String then f u else u) = l := by
    conv_rhs => rw [← List.map_id l]
    apply List.map_congr_left
    intro u hu
    have hne : ¬ u.ID.String = row.ID.String := fun h =>
      hfresh u hu ((UUID.String_inj _ _).mp h)
    simp [hne]
  rw [List.map_append, hl]
  simp

theorem find?_users_append_fresh (l : List User) (row : User)
    (hfresh : ∀ u ∈ l, u.ID ≠ row.ID) :
    (l ++ [row]).find? (fun u => u.ID.String == row.ID.String) = some row := by
  have hnone : l.find? (fun u => u.ID.String == row.ID.String) = none := by
    rw [List.find?_eq_none]
    intro u hu h
    exact hfresh u hu ((UUID.String_inj _ _).mp (by simpa using h))
  simp [List.find?_append, hnone]

/-- C11 (counterexample): registration on the sample store with the platform
answering 200 to the three create calls, when the store fails the UPDATE that
writes the identifiers.  The three requests were sent, the failure of the write
is only printed, `Register` succeeds, and the stored row of the new user has
its tenant, application and profile ids null. -/
theorem Register_ids_write_fails :
    sampleGateway.IsEnabled = true ∧ sampleGateway.userRepo = true
      ∧ (UserService.Register ⟨some sampleGateway⟩ sampleEnvIdsWriteFails sampleRegister
          sampleWorld).2.requests.map HttpRequest.url
        = ["http://h:8090/api/tenants", "http://h:8090/api/applications",
           "http://h:8090/api/device-profiles"]
      ∧ (UserService.Register ⟨some sampleGateway⟩ sampleEnvIdsWriteFails sampleRegister
          sampleWorld).2.stdout
        = ["Warning: Failed to update user ChirpStack data: " ++
             "failed to update user ChirpStack data: connection lost\n",
           "Successfully created ChirpStack resources for user c@example.com: " ++
             "TenantID=ok, ApplicationID=ok, DeviceProfileID=ok\n"]
      ∧ (∃ resp, (UserService.Register ⟨some sampleGateway⟩ sampleEnvIdsWriteFails
          sampleRegister sampleWorld).1 = .ok resp)
      ∧ (UserService.Register ⟨some sampleGateway⟩ sampleEnvIdsWriteFails sampleRegister
          sampleWorld).2.db.users = sampleWorld.db.users ++
          [{ ID := ⟨"d1"⟩, Email := "c@example.com", PasswordHash := "hash:password123",
             FullName := "C", TenantID := none, ApplicationID := none,
             DeviceProfileID := none, CreatedAt := 11, UpdatedAt := 11 }] :=
  ⟨rfl, rfl, rfl, rfl, ⟨_, rfl⟩, rfl⟩

/-- C11 (amended): with the platform integration enabled, the gateway wired to
the user repository (as `main.go` wires it) and the local steps of registration
done, if creating the tenant, the application and the device profile all
succeed and the store performs the update, the row inserted for the user ends
up carrying exactly the three returned identifiers, all non-null, and a later
`GetUserByID` of that user (answered by the store) returns the row with
them. -/
theorem Register_remote_success (s : UserService) (cs : ChirpStackService) (env : Env)
    (req : RegisterRequest) (w w2 w3 w4 w5 : World) (hash token t ap p : String)
    (user1 : User)
    (hs : s.chirpStackService = some cs) (hen : cs.IsEnabled = true)
    (hrepo : cs.userRepo = true)
    (hnew : ∃ e0, (UserRepository.GetUserByEmail env req.Email w).1 = .error e0)
    (hhash : env.HashPassword req.Password = .ok hash)
    (hins : UserRepository.CreateUser env
        { ID := UUID.Nil, Email := req.Email, PasswordHash := hash, FullName := req.FullName,
          TenantID := none, ApplicationID := none, DeviceProfileID := none,
          CreatedAt := 0, UpdatedAt := 0 } w.tick = (.ok user1, w2))
    (htok : env.GenerateToken user1.ID user1.Email = .ok token)
    (hT : cs.CreateTenant env user1.Email w2 = (.ok t, w3))
    (hA : cs.CreateApplication env t "Lnode" w3 = (.ok ap, w4))
    (hP : cs.CreateDeviceProfile env t w4 = (.ok p, w5))
    (hwrite : env.dbFault w5.stmts = none) :
    (s.Register env req w).1 = .ok { Token := token, User := user1 }
      ∧ (s.Register env req w).2.db.users = w.db.users ++
          [{ ID := user1.ID, Email := req.Email, PasswordHash := hash,
             FullName := req.FullName, TenantID := some t, ApplicationID := some ap,
             DeviceProfileID := some p, CreatedAt := user1.CreatedAt,
             UpdatedAt := env.now w5.stmts }]
      ∧ (env.dbFault (s.Register env req w).2.stmts = none →
          (UserRepository.GetUserByID env user1.ID.String (s.Register env req w).2).1
            = .ok { ID := user1.ID, Email := req.Email, PasswordHash := hash,
                    FullName := req.FullName, TenantID := some t, ApplicationID := some ap,
                    DeviceProfileID := some p, CreatedAt := user1.CreatedAt,
                    UpdatedAt := env.now w5.stmts }) := by
  obtain ⟨e0, he0⟩ := hnew
  have hget : UserRepository.GetUserByEmail env req.Email w = (.error e0, w.tick) :=
    Prod.ext he0 (UserRepository.GetUserByEmail_snd env req.Email w)
  obtain ⟨-, hdb2, -⟩ := UserRepository.CreateUser_of_ok env _ user1 w.tick w2 hins
  have hfresh := UserRepository.CreateUser_fresh_of_ok env _ user1 w.tick w2 hins
  have d3 : w3.db = w2.db := by
    have := ChirpStackService.CreateTenant_db cs env user1.Email w2
    rw [hT] at this
    exact this
  have d4 : w4.db = w3.db := by
    have := ChirpStackService.CreateApplication_db cs env t "Lnode" w3
    rw [hA] at this
    exact this
  have d5 : w5.db = w4.db := by
    have := ChirpStackService.CreateDeviceProfile_db cs env t w4
    rw [hP] at this
    exact this
  have husers5 : w5.db.users = w.db.users ++
      [{ ID := user1.ID, Email := req.Email, PasswordHash := hash, FullName := req.FullName,
         TenantID := none, ApplicationID := none, DeviceProfileID := none,
         CreatedAt := user1.CreatedAt, UpdatedAt := user1.UpdatedAt }] := by
    rw [d5, d4, d3, hdb2]
    rfl
  have hmap := map_users_append_fresh w.db.users
    { ID := user1.ID, Email := req.Email, PasswordHash := hash, FullName := req.FullName,
      TenantID := none, ApplicationID := none, DeviceProfileID := none,
      CreatedAt := user1.CreatedAt, UpdatedAt := user1.UpdatedAt }
    (fun u => { u with TenantID := some t, ApplicationID := some ap,
                       DeviceProfileID := some p, UpdatedAt := env.now w5.stmts })
    hfresh
  have hfinal : (s.Register env req w).1 = .ok { Token := token, User := user1 }
      ∧ (s.Register env req w).2.db.users = w.db.users ++
          [{ ID := user1.ID, Email := req.Email, PasswordHash := hash,
             FullName := req.FullName, TenantID := some t, ApplicationID := some ap,
             DeviceProfileID := some p, CreatedAt := user1.CreatedAt,
             UpdatedAt := env.now w5.stmts }] := by
    simp only [UserService.Register, hget, hhash, hins, htok, hs, hen, if_true,
      ChirpStackService.CreateUserResources, Bool.not_true, Bool.false_eq_true, if_false,
      hT, hA, hP, hrepo, UserRepository.UpdateUserChirpStackData, hwrite, husers5]
    split_ifs <;> exact ⟨trivial, hmap⟩
  refine ⟨hfinal.1, hfinal.2, ?_⟩
  intro hread
  simp only [UserRepository.GetUserByID, hread, hfinal.2]
  have hfind := find?_users_append_fresh w.db.users
    { ID := user1.ID, Email := req.Email, PasswordHash := hash, FullName := req.FullName,
      TenantID := some t, ApplicationID := some ap, DeviceProfileID := some p,
      CreatedAt := user1.CreatedAt, UpdatedAt := env.now w5.stmts } hfresh
  simp only at hfind
  rw [hfind]

/-- Witness of C11 (amended): registration of a new email with a platform that
answers 200 to the three create calls. -/
theorem Register_remote_success_witness :
    sampleGateway.IsEnabled = true
      ∧ sampleGateway.CreateTenant sampleEnv "c@example.com" sampleAfterInsert
          = (.ok "ok", sampleAfterTenant)
      ∧ (UserService.Register ⟨some sampleGateway⟩ sampleEnv sampleRegister
          sampleWorld).2.db.users = sampleWorld.db.users ++
          [{ ID := ⟨"d1"⟩, Email := "c@example.com", PasswordHash := "hash:password123",
             FullName := "C", TenantID := some "ok", ApplicationID := some "ok",
             DeviceProfileID := some "ok", CreatedAt := 11, UpdatedAt := 12 }] :=
  ⟨rfl, rfl,
    (Register_remote_success ⟨some sampleGateway⟩ sampleGateway sampleEnv sampleRegister
      sampleWorld sampleAfterInsert sampleAfterTenant sampleAfterApplication
      sampleAfterProfile "hash:password123" "d1/c@example.com" "ok" "ok" "ok"
      sampleRegistered rfl rfl rfl ⟨_, rfl⟩ rfl rfl rfl rfl rfl rfl rfl).2.1⟩

/-! ## The gateway request contract -/

/-- C17 (counterexample): the activate call for the DevEUI "%zz0000000000000",
whose URL `http.NewRequest` rejects.  `makeRequest` returns the error of
`http.NewRequest` and hands no request to the HTTP client: the call makes no
attempt, not exactly one. -/
theorem makeRequest_no_attempt :
    (sampleGateway.makeRequest sampleEnvBadEscape "POST" "/devices/%zz0000000000000/activate"
        (.activation (DeviceService.activateDeviceRequest sampleAllowed)) sampleWorld).1
        = .error ("failed to create request: parse " ++
            "\"http://h:8090/api/devices/%zz0000000000000/activate\": " ++
            "invalid URL escape \"%zz\"")
      ∧ (sampleGateway.makeRequest sampleEnvBadEscape "POST"
          "/devices/%zz0000000000000/activate"
          (.activation (DeviceService.activateDeviceRequest sampleAllowed))
          sampleWorld).2.requests = [] := by
  exact ⟨rfl, rfl⟩

/-- C17 (amended): `makeRequest` returns a body exactly when the HTTP client
delivers a response whose status s satisfies 200 <= s < 300, and then it is
that response's body; for every other status the error message is built from
the decimal status code and the raw body; and each call hands at most one
request to the HTTP client: exactly one when `http.NewRequest` builds the
request, whatever the client then answers, and none when it does not. -/
theorem makeRequest_contract (cs : ChirpStackService) (env : Env) (method endpoint : String)
    (payload : Payload) (w : World) :
    (∀ body, (cs.makeRequest env method endpoint payload w).1 = .ok body
        ↔ ∃ status, env.http w.requests.length (cs.buildRequest method endpoint payload)
              = .response status body ∧ 200 ≤ status ∧ status < 300)
      ∧ (∀ status body, env.http w.requests.length (cs.buildRequest method endpoint payload)
              = .response status body → ¬ (200 ≤ status ∧ status < 300) →
          (cs.makeRequest env method endpoint payload w).1
            = .error ("ChirpStack API error (status " ++ toString status ++ "): " ++ body))
      ∧ ((∀ e, env.http w.requests.length (cs.buildRequest method endpoint payload)
              ≠ .createFailed e) →
          (cs.makeRequest env method endpoint payload w).2.requests
            = w.requests ++ [cs.buildRequest method endpoint payload])
      ∧ (∀ e, env.http w.requests.length (cs.buildRequest method endpoint payload)
              = .createFailed e →
          (cs.makeRequest env method endpoint payload w).1
              = .error ("failed to create request: " ++ e)
            ∧ (cs.makeRequest env method endpoint payload w).2.requests = w.requests)
      ∧ (cs.makeRequest env method endpoint payload w).2.db = w.db := by
  refine ⟨?_, ?_, ?_, ?_, ?_⟩
  · intro body
    simp only [ChirpStackService.makeRequest]
    cases ho : env.http w.requests.length (cs.buildRequest method endpoint payload) with
    | response status b =>
      by_cases hs : status < 200 ∨ status ≥ 300
      · simp only [hs, if_true]
        constructor
        · intro h
          simp at h
        · rintro ⟨s2, h2, h200, h300⟩
          simp only [HttpOutcome.response.injEq] at h2
          obtain ⟨rfl, -⟩ := h2
          omega
      · simp only [hs, if_false]
        constructor
        · intro h
          simp only [Except.ok.injEq] at h
          subst h
          exact ⟨status, rfl, by omega, by omega⟩
        · rintro ⟨s2, h2, -, -⟩
          simp only [HttpOutcome.response.injEq] at h2
          rw [h2.2]
    | createFailed e => simp
    | doFailed e => simp
    | readFailed e => simp
  · intro status body ho hs
    have hs2 : status < 200 ∨ status ≥ 300 := by omega
    simp only [ChirpStackService.makeRequest, ho, hs2, if_true]
  · intro hb
    rw [ChirpStackService.makeRequest_snd]
    cases ho : env.http w.requests.length (cs.buildRequest method endpoint payload) with
    | createFailed e => exact absurd ho (hb e)
    | doFailed e => rfl
    | readFailed e => rfl
    | response status body => rfl
  · intro e ho
    simp only [ChirpStackService.makeRequest, ho]
    exact ⟨trivial, trivial⟩
  · exact ChirpStackService.makeRequest_db cs env method endpoint payload w

/-- C17 (amended) with the platform of `sampleEnv`, which answers 200 to the
create-tenant call: the body is returned and one request is in the log. -/
theorem makeRequest_contract_witness :
    (∀ e, sampleEnv.http sampleWorld.requests.length
        (sampleGateway.buildRequest "POST" "/tenants" .nil) ≠ .createFailed e)
      ∧ (sampleGateway.makeRequest sampleEnv "POST" "/tenants" .nil sampleWorld).1 = .ok "ok"
      ∧ (sampleGateway.makeRequest sampleEnv "POST" "/tenants" .nil sampleWorld).2.requests
          = [sampleGateway.buildRequest "POST" "/tenants" .nil] :=
  have h := makeRequest_contract sampleGateway sampleEnv "POST" "/tenants" .nil sampleWorld
  ⟨fun e he => HttpOutcome.noConfusion he,
    (h.1 "ok").mpr ⟨200, rfl, by decide, by decide⟩,
    h.2.2.1 (fun e he => HttpOutcome.noConfusion he)⟩

/-! ## Login -/

/-- C20: when the store answers the lookup and token minting succeeds, `Login`
returns a token and the user if and only if the store holds a user with exactly
the request's email and the password verifies against that user's stored hash;
an unknown email and a wrong password both fail with the error "invalid
credentials"; and the handler answers 200 with the response on success and 401
with the error on every service error. -/
theorem Login_contract (s : UserService) (env : Env) (req : LoginRequest) (w : World)
    (hread : env.dbFault w.stmts = none)
    (hmint : ∀ id email, ∃ token, env.GenerateToken id email = .ok token) :
    ((∃ resp, (s.Login env req w).1 = .ok resp)
        ↔ ∃ u, w.db.users.find? (fun u => u.Email == req.Email) = some u
            ∧ env.CheckPasswordHash req.Password u.PasswordHash = true)
      ∧ (∀ resp, (s.Login env req w).1 = .ok resp →
          w.db.users.find? (fun u => u.Email == req.Email) = some resp.User
            ∧ resp.User.Email = req.Email
            ∧ env.GenerateToken resp.User.ID resp.User.Email = .ok resp.Token)
      ∧ (w.db.users.find? (fun u => u.Email == req.Email) = none →
          (s.Login env req w).1 = .error "invalid credentials")
      ∧ (∀ u, w.db.users.find? (fun u => u.Email == req.Email) = some u →
          env.CheckPasswordHash req.Password u.PasswordHash = false →
          (s.Login env req w).1 = .error "invalid credentials")
      ∧ (∀ resp, (s.Login env req w).1 = .ok resp →
          (UserHandler.Login ⟨s⟩ env (.ok req) w).1 = { status := 200, body := .auth resp })
      ∧ (∀ err, (s.Login env req w).1 = .error err →
          (UserHandler.Login ⟨s⟩ env (.ok req) w).1 = { status := 401, body := .error err }) := by
  have hhandler : (∀ resp, (s.Login env req w).1 = .ok resp →
          (UserHandler.Login ⟨s⟩ env (.ok req) w).1 = { status := 200, body := .auth resp })
      ∧ (∀ err, (s.Login env req w).1 = .error err →
          (UserHandler.Login ⟨s⟩ env (.ok req) w).1
            = { status := 401, body := .error err }) := by
    simp only [UserHandler.Login]
    rcases hr : s.Login env req w with ⟨r, w1⟩
    cases r with
    | error e =>
      refine ⟨?_, ?_⟩
      · intro resp h
        simp at h
      · intro err h
        simp only [Except.error.injEq] at h
        subst h
        rfl
    | ok a =>
      refine ⟨?_, ?_⟩
      · intro resp h
        simp only [Except.ok.injEq] at h
        subst h
        rfl
      · intro err h
        simp at h
  refine ⟨?_, ?_, ?_, ?_, hhandler.1, hhandler.2⟩
  all_goals simp only [UserService.Login, UserRepository.GetUserByEmail, hread]
  · cases hfind : w.db.users.find? (fun u => u.Email == req.Email) with
    | none => simp
    | some u =>
      simp only
      cases hc : env.CheckPasswordHash req.Password u.PasswordHash with
      | false => simp [hc]
      | true =>
        obtain ⟨token, ht⟩ := hmint u.ID u.Email
        simp [ht, hc]
  · intro resp
    cases hfind : w.db.users.find? (fun u => u.Email == req.Email) with
    | none => simp
    | some u =>
      simp only
      cases hc : env.CheckPasswordHash req.Password u.PasswordHash with
      | false => simp [hc]
      | true =>
        obtain ⟨token, ht⟩ := hmint u.ID u.Email
        simp only [hc, Bool.not_true, Bool.false_eq_true, if_false, ht, Except.ok.injEq]
        intro h
        subst h
        have hmail : u.Email = req.Email := by simpa using List.find?_some hfind
        exact ⟨rfl, hmail, ht⟩
  · intro hfind
    simp [hfind]
  · intro u hfind hc
    simp [hfind, hc]

/-- Witness of C20: the registered sample user logs in with the right password. -/
theorem Login_contract_witness :
    sampleEnv.dbFault sampleWorldRegistered.stmts = none
      ∧ (UserService.Login ⟨none⟩ sampleEnv sampleLogin sampleWorldRegistered).1
          = .ok { Token := "d1/c@example.com", User := sampleRegistered }
      ∧ (UserHandler.Login ⟨⟨none⟩⟩ sampleEnv (.ok sampleLogin) sampleWorldRegistered).1
          = { status := 200, body := .auth { Token := "d1/c@example.com",
                                              User := sampleRegistered } } :=
  ⟨rfl, rfl,
    (Login_contract ⟨none⟩ sampleEnv sampleLogin sampleWorldRegistered rfl
      (fun id email => ⟨id.String ++ "/" ++ email, rfl⟩)).2.2.2.2.1 _ rfl⟩

/-! ## The version must exist at creation and update time -/

theorem DeviceRepository.GetDeviceVersionByID_of_absent (env : Env) (id : UUID) (w : World)
    (habs : ∀ v ∈ w.db.device_versions, v.ID ≠ id) :
    ∃ e, DeviceRepository.GetDeviceVersionByID env id w = (.error e, w.tick)
      ∧ (env.dbFault w.stmts = none → e = "device version not found") := by
  have hfind : w.db.device_versions.find? (fun v => v.ID == id) = none := by
    rw [List.find?_eq_none]
    intro v hv h
    exact habs v hv (by simpa using h)
  simp only [DeviceRepository.GetDeviceVersionByID, hfind]
  cases env.dbFault w.stmts with
  | some err => exact ⟨err, rfl, fun h => by simp at h⟩
  | none => exact ⟨_, rfl, fun _ => rfl⟩

/-- C16 (counterexample): a request naming an unknown version and a DevEUI
outside the allow-list is refused with the allow-list error, not with the
version-not-found error. -/
theorem CreateDevice_unknown_version_other_error :
    (∀ v ∈ sampleWorld.db.device_versions, v.ID ≠ sampleStrayReq.VersionID)
      ∧ (DeviceService.CreateDevice ⟨none⟩ sampleEnv ⟨"u1"⟩ sampleStrayReq sampleWorld).1
          = .error "device with devEUI 0000000000000001 not found in allowed devices"
      ∧ (DeviceService.CreateDevice ⟨none⟩ sampleEnv ⟨"u1"⟩ sampleStrayReq sampleWorld).1
          ≠ .error "device version not found: device version not found" := by
  refine ⟨by decide, rfl, ?_⟩
  have h : (DeviceService.CreateDevice ⟨none⟩ sampleEnv ⟨"u1"⟩ sampleStrayReq sampleWorld).1
      = .error "device with devEUI 0000000000000001 not found in allowed devices" := rfl
  rw [h]
  intro hne
  simp only [Except.error.injEq] at hne
  exact absurd hne (by decide)

/-- C16 (amended): for a request whose version id matches no `DeviceVersion`
row, `CreateDevice` fails and leaves the store unchanged, and its error is the
version-not-found error whenever the earlier gates pass (user returned with
both identifiers, DevEUI allow-listed, version lookup answered); `UpdateDevice`
with such a version id fails with a version-not-found error and leaves the
store unchanged. -/
theorem unknown_version_rejected (s : DeviceService) (env : Env) (w : World) :
    (∀ (userID : UUID) (req : CreateDeviceRequest),
        (∀ v ∈ w.db.device_versions, v.ID ≠ req.VersionID) →
        (∃ err, (s.CreateDevice env userID req w).1 = .error err)
          ∧ (s.CreateDevice env userID req w).2.db = w.db
          ∧ (∀ user a, (UserRepository.GetUserByID env userID.String w).1 = .ok user →
              user.ApplicationID ≠ none → user.DeviceProfileID ≠ none →
              (DeviceRepository.GetAllowedDeviceByDevEUI env req.DevEUI w.tick).1 = .ok a →
              env.dbFault (w.stmts + 2) = none →
              (s.CreateDevice env userID req w).1
                = .error "device version not found: device version not found"))
      ∧ (∀ (id : UUID) (req : UpdateDeviceRequest) (v : UUID), req.VersionID = some v →
          (∀ x ∈ w.db.device_versions, x.ID ≠ v) →
          (∃ e, (s.UpdateDevice env id req w).1 = some ("device version not found: " ++ e))
            ∧ (env.dbFault w.stmts = none → (s.UpdateDevice env id req w).1
                = some "device version not found: device version not found")
            ∧ (s.UpdateDevice env id req w).2.db = w.db) := by
  refine ⟨?_, ?_⟩
  · intro userID req habs
    unfold DeviceService.CreateDevice
    have e1 := UserRepository.GetUserByID_snd env userID.String w
    rcases h1 : UserRepository.GetUserByID env userID.String w with ⟨r1, w1⟩
    rw [h1] at e1
    simp only at e1
    subst e1
    cases r1 with
    | error err => exact ⟨⟨_, rfl⟩, rfl, fun user a hu => by simp at hu⟩
    | ok user0 =>
      simp only
      by_cases hnil : user0.ApplicationID = none ∨ user0.DeviceProfileID = none
      · rw [if_pos hnil]
        refine ⟨⟨_, rfl⟩, rfl, ?_⟩
        intro user a hu happ hprof
        simp only [Except.ok.injEq] at hu
        subst hu
        rcases hnil with h | h
        · exact absurd h happ
        · exact absurd h hprof
      · rw [if_neg hnil]
        have e2 := DeviceRepository.GetAllowedDeviceByDevEUI_snd env req.DevEUI w.tick
        rcases h2 : DeviceRepository.GetAllowedDeviceByDevEUI env req.DevEUI w.tick
          with ⟨r2, w2⟩
        rw [h2] at e2
        simp only at e2
        subst e2
        cases r2 with
        | error err => exact ⟨⟨_, rfl⟩, rfl, fun user a _ _ _ ha => by simp at ha⟩
        | ok allowedDevice =>
          simp only
          obtain ⟨e, he, hmsg⟩ := DeviceRepository.GetDeviceVersionByID_of_absent env
            req.VersionID w.tick.tick habs
          rw [he]
          refine ⟨⟨_, rfl⟩, rfl, ?_⟩
          intro user a _ _ _ _ hf
          rw [hmsg hf]
          rfl
  · intro id req v hv habs
    obtain ⟨e, he, hmsg⟩ := DeviceRepository.GetDeviceVersionByID_of_absent env v w habs
    simp only [DeviceService.UpdateDevice, hv, he]
    refine ⟨⟨e, rfl⟩, ?_, rfl⟩
    intro hf
    rw [hmsg hf]
    rfl

/-- Witness of C16: the allow-listed DevEUI with an unknown version, and an
update naming an unknown version. -/
theorem unknown_version_rejected_witness :
    (DeviceService.CreateDevice ⟨none⟩ sampleEnv ⟨"u1"⟩ sampleUnknownVersionReq sampleWorld).1
        = .error "device version not found: device version not found"
      ∧ (DeviceService.UpdateDevice ⟨none⟩ sampleEnv ⟨"d1"⟩
          { Name := none, VersionID := some ⟨"v9"⟩, Description := none, IsActive := none }
          sampleWorldWithDevice).1
        = some "device version not found: device version not found" :=
  ⟨((unknown_version_rejected ⟨none⟩ sampleEnv sampleWorld).1 ⟨"u1"⟩ sampleUnknownVersionReq
      (by decide)).2.2 sampleUser sampleAllowed rfl (by decide) (by decide) rfl rfl,
    ((unknown_version_rejected ⟨none⟩ sampleEnv sampleWorldWithDevice).2 ⟨"d1"⟩
      { Name := none, VersionID := some ⟨"v9"⟩, Description := none, IsActive := none }
      ⟨"v9"⟩ rfl (by decide)).2.1 rfl⟩

/-! ## Partial updates with no field supplied -/

/-- C15 (counterexample): for the Users family an update supplying no field
is not an error: `UpdateUser` returns the existing user. -/
theorem UpdateUser_zero_fields_succeeds :
    (UserService.UpdateUser ⟨none⟩ sampleEnv "u1"
        { Email := "", FullName := "", Password := "" } sampleWorld).1 = .ok sampleUser
      ∧ ∀ err, (UserService.UpdateUser ⟨none⟩ sampleEnv "u1"
        { Email := "", FullName := "", Password := "" } sampleWorld).1 ≠ .error err := by
  have h : (UserService.UpdateUser ⟨none⟩ sampleEnv "u1"
      { Email := "", FullName := "", Password := "" } sampleWorld).1 = .ok sampleUser := rfl
  refine ⟨h, ?_⟩
  intro err
  rw [h]
  simp

/-- C15 (amended): an update supplying no field fails with "no fields to
update", before any statement is sent to the store, for Devices, DeviceVersions
and AllowedDevices; for Users it is a no-op success: `UpdateUser` returns the
user the store holds for the id (or "user not found") and writes nothing.  In
all four families the store is left unchanged. -/
theorem zero_field_update (ds : DeviceService) (us : UserService) (env : Env) (w : World) :
    (∀ (id : UUID) (req : UpdateDeviceRequest), req.Name = none → req.VersionID = none →
        req.Description = none → req.IsActive = none →
        ds.UpdateDevice env id req w = (some "no fields to update", w))
      ∧ (∀ (id : UUID) (req : UpdateDeviceVersionRequest), req.Name = none →
          req.Version = none → req.Description = none →
          ds.UpdateDeviceVersion env id req w = (some "no fields to update", w))
      ∧ (∀ (devEUI : String) (req : UpdateAllowedDeviceRequest), req.NwkKey = none →
          req.AppKey = none → req.AddrKey = none → req.Description = none →
          ds.UpdateAllowedDevice env devEUI req w = (some "no fields to update", w))
      ∧ (∀ (id : String) (req : UpdateUserRequest), req.Email = "" → req.FullName = "" →
          req.Password = "" →
          (us.UpdateUser env id req w).2.db = w.db
            ∧ (∀ user, (UserRepository.GetUserByID env id w).1 = .ok user →
                (us.UpdateUser env id req w).1 = .ok user)
            ∧ (∀ err, (UserRepository.GetUserByID env id w).1 = .error err →
                (us.UpdateUser env id req w).1 = .error "user not found")) := by
  refine ⟨?_, ?_, ?_, ?_⟩
  · intro id req h1 h2 h3 h4
    simp [DeviceService.UpdateDevice, DeviceRepository.UpdateDevice,
      DeviceRepository.updateDeviceParts, addSetPart, h1, h2, h3, h4]
  · intro id req h1 h2 h3
    simp [DeviceService.UpdateDeviceVersion, DeviceRepository.UpdateDeviceVersion,
      DeviceRepository.updateDeviceVersionParts, addSetPart, h1, h2, h3]
  · intro devEUI req h1 h2 h3 h4
    simp [DeviceService.UpdateAllowedDevice, DeviceRepository.UpdateAllowedDevice,
      DeviceRepository.updateAllowedDeviceParts, addSetPart, h1, h2, h3, h4]
  · intro id req h1 h2 h3
    have e1 := UserRepository.GetUserByID_snd env id w
    simp only [UserService.UpdateUser]
    rcases hg : UserRepository.GetUserByID env id w with ⟨r, w1⟩
    rw [hg] at e1
    simp only at e1
    subst e1
    cases r with
    | error e => exact ⟨rfl, fun user h => by simp at h, fun err _ => rfl⟩
    | ok existing =>
      simp [h1, h2, h3, UserRepository.Updates.len, World.tick]

/-- Witness of C15: a zero-field update of the sample device is refused. -/
theorem zero_field_update_witness :
    DeviceService.UpdateDevice ⟨none⟩ sampleEnv ⟨"d1"⟩
        { Name := none, VersionID := none, Description := none, IsActive := none }
        sampleWorldWithDevice = (some "no fields to update", sampleWorldWithDevice) :=
  (zero_field_update ⟨none⟩ ⟨none⟩ sampleEnv sampleWorldWithDevice).1 ⟨"d1"⟩
    { Name := none, VersionID := none, Description := none, IsActive := none }
    rfl rfl rfl rfl

/-! ## Pagination: pages beyond the end and the reported bounds -/

/-- C13 (failing input): page 2^62 + 1 with page size 100 on the sample store
of two users.  The offset `(page - 1) * pageSize` wraps to 0, so
`GetAllUsers` returns both users although the page lies far beyond the single
page the two rows fill. -/
theorem GetAllUsers_offset_wraps :
    pageOffset 4611686018427387905 100 = 0
      ∧ (UserService.GetAllUsers ⟨none⟩ sampleEnv 4611686018427387905 100 sampleWorld).1
          = .ok { Users := [sampleUser, sampleBareUser], Total := 2,
                  Page := 4611686018427387905, PageSize := 100,
                  TotalPages := totalPages 2 100 } := by
  refine ⟨by decide, ?_⟩
  rfl

/-- Pages beyond the end without overflow: when the offset does not wrap and is
at least the number of rows, the page is empty. -/
theorem limitOffset_beyond {α : Type} (rows : List α) (limit offset : ℤ)
    (hlimit : 0 ≤ limit) (hoffset : (rows.length : ℤ) ≤ offset) :
    limitOffset rows limit offset = .ok [] := by
  have h0 : ¬ offset < 0 := by
    have : (0 : ℤ) ≤ rows.length := Int.natCast_nonneg _
    omega
  have h1 : ¬ limit < 0 := by omega
  have hdrop : rows.drop offset.toNat = [] := by
    apply List.drop_eq_nil_of_le
    omega
  simp [limitOffset, h0, h1, hdrop]

/-- C14 (failing input): `DeviceService.GetDeviceVersions` with page size 500
reports page size 500; the device list operations pass their arguments through
unclamped. -/
theorem GetDeviceVersions_echoes_page_size :
    (DeviceService.GetDeviceVersions ⟨none⟩ sampleEnv 1 500 sampleWorld).1
        = .ok { Versions := [sampleVersion], Total := 1, Page := 1, PageSize := 500,
                TotalPages := totalPages 1 500 }
      ∧ (DeviceService.GetAllDevices ⟨none⟩ sampleEnv 0 0 sampleWorld).1
        = .ok { Devices := [], Total := 0, Page := 0, PageSize := 0,
                TotalPages := totalPages 0 0 } := by
  exact ⟨rfl, rfl⟩

/-- The user list operation reports a page of at least 1 and a page size
within 1..100 for every argument. -/
theorem UserService.GetAllUsers_bounds (s : UserService) (env : Env) (page pageSize : ℤ)
    (w : World) (resp : UserListResponse)
    (h : (s.GetAllUsers env page pageSize w).1 = .ok resp) :
    1 ≤ resp.Page ∧ 1 ≤ resp.PageSize ∧ resp.PageSize ≤ 100 := by
  simp only [UserService.GetAllUsers] at h
  rcases hr : UserRepository.GetAllUsers env (if page < 1 then 1 else page)
    (if pageSize < 1 ∨ pageSize > 100 then 10 else pageSize) w with ⟨r, w1⟩
  rw [hr] at h
  cases r with
  | error e => simp at h
  | ok a =>
    obtain ⟨users, total⟩ := a
    simp only [Except.ok.injEq] at h
    subst h
    simp only
    refine ⟨?_, ?_, ?_⟩
    · split_ifs <;> omega
    · split_ifs <;> omega
    · split_ifs <;> omega

theorem wrapInt_of_range (z : ℤ) (h0 : -2 ^ 63 ≤ z) (h1 : z < 2 ^ 63) : wrapInt z = z := by
  unfold wrapInt
  have h : (z + 2 ^ 63) % 2 ^ 64 = z + 2 ^ 63 := by
    apply Int.emod_eq_of_lt <;> omega
  rw [h]
  ring

/-- Outside the wrap-around the user list behaves as the pagination invariant
says: with a working store, a page size in 1..100 and a page beyond the last
one whose offset stays below 2^63, `GetAllUsers` returns no item and the full
count. -/
theorem UserService.GetAllUsers_beyond_last_page (s : UserService) (env : Env)
    (page pageSize : ℤ) (w : World) (hrel : ∀ n, env.dbFault n = none)
    (hP1 : 1 ≤ pageSize) (hP100 : pageSize ≤ 100)
    (hpage : ⌈((w.db.users.length : ℤ) : ℚ) / (pageSize : ℚ)⌉ < page)
    (hnowrap : (page - 1) * pageSize < 2 ^ 63) :
    ∃ resp, (s.GetAllUsers env page pageSize w).1 = .ok resp
      ∧ resp.Users = [] ∧ resp.Total = w.db.users.length := by
  have hceil0 : (0 : ℤ) ≤ ⌈((w.db.users.length : ℤ) : ℚ) / (pageSize : ℚ)⌉ := by
    apply Int.ceil_nonneg
    apply div_nonneg
    · exact_mod_cast Int.natCast_nonneg _
    · exact_mod_cast (by omega : (0 : ℤ) ≤ pageSize)
  have hpage1 : 1 ≤ page := by omega
  have hle : ((w.db.users.length : ℤ) : ℚ) / (pageSize : ℚ) ≤ ((page - 1 : ℤ) : ℚ) := by
    apply Int.ceil_le.mp
    omega
  have hPpos : (0 : ℚ) < (pageSize : ℚ) := by exact_mod_cast (by omega : (0 : ℤ) < pageSize)
  have hT : (w.db.users.length : ℤ) ≤ (page - 1) * pageSize := by
    have := (div_le_iff₀ hPpos).mp hle
    exact_mod_cast this
  have hpm : page - 1 < 2 ^ 63 := by nlinarith
  have hoff : pageOffset page pageSize = (page - 1) * pageSize := by
    unfold pageOffset
    rw [wrapInt_of_range (page - 1) (by omega) hpm]
    exact wrapInt_of_range _ (by nlinarith) hnowrap
  have hc1 : ¬ page < 1 := by omega
  have hc2 : ¬ (pageSize < 1 ∨ pageSize > 100) := by omega
  simp only [UserService.GetAllUsers, hc1, hc2, if_false, UserRepository.GetAllUsers, hrel,
    hoff]
  rw [limitOffset_beyond _ _ _ (by omega)
    (by rw [orderByCreatedAtDesc, List.length_insertionSort]; exact hT)]
  exact ⟨_, rfl, rfl, rfl⟩


/-! ## Search: the pattern built from the query -/

/-- C18 (failing input): the query "_" on the sample store of two users. No
email and no display name of the store contains an underscore, yet
`SearchUsers` returns both users with total 2: the query is placed between two
percent signs without escaping, so its underscore is the single-character
wildcard of `LIKE`. -/
theorem SearchUsers_underscore_matches_all :
    (UserService.SearchUsers ⟨none⟩ sampleEnv { Query := "_", Page := 1, PageSize := 10 }
        sampleWorld).1
        = .ok { Users := [sampleUser, sampleBareUser], Total := 2, Page := 1, PageSize := 10,
                TotalPages := totalPages 2 10 }
      ∧ ∀ u ∈ sampleWorld.db.users,
          ¬ ((lower "_").toList <:+: (lower u.Email).toList)
            ∧ ¬ ((lower "_").toList <:+: (lower u.FullName).toList) := by
  refine ⟨rfl, ?_⟩
  decide

theorem likeMatch_percent (p s : List Char) :
    likeMatch (Char.ofNat 37 :: p) s = s.tails.any (fun t => likeMatch p t) := by
  rw [likeMatch.eq_def]
  simp

theorem likeMatch_literal (c : Char) (p s : List Char)
    (hc : c ≠ Char.ofNat 37 ∧ c ≠ Char.ofNat 95 ∧ c ≠ Char.ofNat 92) :
    likeMatch (c :: p) s
      = match s with
        | [] => false
        | x :: t => x == c && likeMatch p t := by
  rw [likeMatch.eq_def]
  simp [hc.1, hc.2.1, hc.2.2]

theorem likeMatch_nil (s : List Char) : likeMatch [] s = s.isEmpty := by
  rw [likeMatch.eq_def]

theorem likeMatch_literal_prefix (p s : List Char)
    (hp : ∀ c ∈ p, c ≠ Char.ofNat 37 ∧ c ≠ Char.ofNat 95 ∧ c ≠ Char.ofNat 92) :
    likeMatch (p ++ [Char.ofNat 37]) s = true ↔ p <+: s := by
  induction p generalizing s with
  | nil =>
    simp only [List.nil_append, likeMatch_percent, List.any_eq_true, List.nil_prefix, iff_true]
    exact ⟨[], by simp, by simp [likeMatch_nil]⟩
  | cons c p ih =>
    have hc := hp c (List.mem_cons_self c p)
    have hp1 : ∀ d ∈ p, d ≠ Char.ofNat 37 ∧ d ≠ Char.ofNat 95 ∧ d ≠ Char.ofNat 92 :=
      fun d hd => hp d (List.mem_cons_of_mem c hd)
    rw [List.cons_append, likeMatch_literal c _ s hc]
    cases s with
    | nil => simp
    | cons x t =>
      simp only [Bool.and_eq_true, beq_iff_eq, ih t hp1, List.cons_prefix_cons]
      constructor
      · rintro ⟨h1, h2⟩; exact ⟨h1.symm, h2⟩
      · rintro ⟨h1, h2⟩; exact ⟨h1.symm, h2⟩

/-- For a pattern text free of the characters percent, underscore and backslash,
the predicate built by `SearchUsers` is substring containment. -/
theorem likeMatch_literal_infix (q s : List Char)
    (hq : ∀ c ∈ q, c ≠ Char.ofNat 37 ∧ c ≠ Char.ofNat 95 ∧ c ≠ Char.ofNat 92) :
    likeMatch (Char.ofNat 37 :: (q ++ [Char.ofNat 37])) s = true ↔ q <:+: s := by
  rw [likeMatch_percent]
  simp only [List.any_eq_true, List.mem_tails, likeMatch_literal_prefix q _ hq]
  rw [List.infix_iff_prefix_suffix]
  constructor
  · rintro ⟨t, h1, h2⟩; exact ⟨t, h2, h1⟩
  · rintro ⟨t, h1, h2⟩; exact ⟨t, h2, h1⟩

/-- With the empty query `SearchUsers` is `GetAllUsers`. -/
theorem UserService.SearchUsers_empty_query (s : UserService) (env : Env) (page pageSize : ℤ)
    (w : World) :
    s.SearchUsers env { Query := "", Page := page, PageSize := pageSize } w
      = s.GetAllUsers env page pageSize w := by
  simp only [UserService.SearchUsers, if_true]
  unfold UserService.GetAllUsers
  by_cases h1 : page < 1 <;> by_cases h2 : pageSize < 1 ∨ pageSize > 100 <;>
    simp [h1, h2]

/-- For a query whose lower-case form is free of percent, underscore and
backslash, the `WHERE` clause of `SearchUsers` selects the users whose
lower-cased email or display name contains the lower-cased query. -/
theorem UserRepository.searchMatches_literal (q : String) (u : User)
    (hq : ∀ c ∈ (lower q).toList,
      c ≠ Char.ofNat 37 ∧ c ≠ Char.ofNat 95 ∧ c ≠ Char.ofNat 92) :
    UserRepository.searchMatches ("%" ++ lower q ++ "%") u = true
      ↔ ((lower q).toList <:+: (lower u.Email).toList
          ∨ (lower q).toList <:+: (lower u.FullName).toList) := by
  have hpat : ("%" ++ lower q ++ "%").toList
      = Char.ofNat 37 :: ((lower q).toList ++ [Char.ofNat 37]) := by
    simp only [String.toList, String.data_append]
    rfl
  simp only [UserRepository.searchMatches, sqlLike, hpat, Bool.or_eq_true,
    likeMatch_literal_infix _ _ hq]


/-! ## The device workflow: create, list, delete, read -/

theorem DeviceRepository.GetDeviceByID_of_ok (env : Env) (id : UUID) (w w1 : World)
    (d : Device) (h : DeviceRepository.GetDeviceByID env id w = (.ok d, w1)) :
    d.ID = id ∧ w1 = w.tick
      ∧ ∃ x v, w.db.devices.find? (fun d => d.ID == id) = some x
          ∧ w.db.device_versions.find? (fun v => v.ID == x.VersionID) = some v
          ∧ d = { x with Version := some v } := by
  have hw := DeviceRepository.GetDeviceByID_snd env id w
  rw [h] at hw
  unfold DeviceRepository.GetDeviceByID at h
  cases hf : env.dbFault w.stmts with
  | some err => simp [hf] at h
  | none =>
    cases hfind : w.db.devices.find? (fun d => d.ID == id) with
    | none => simp [hf, hfind] at h
    | some x =>
      cases hv : w.db.device_versions.find? (fun v => v.ID == x.VersionID) with
      | none => simp [hf, hfind, hv] at h
      | some v =>
        simp only [hf, hfind, hv, Prod.mk.injEq, Except.ok.injEq] at h
        have hx := List.find?_some hfind
        refine ⟨?_, hw, x, v, rfl, hv, h.1.symm⟩
        rw [← h.1]
        simpa using hx

theorem DeviceRepository.CreateDevice_of_ok (env : Env) (device d1 : Device) (w w1 : World)
    (h : DeviceRepository.CreateDevice env device w = (.ok d1, w1)) :
    ∃ row : Device, row.ID = d1.ID ∧ row.UserID = device.UserID
      ∧ w1.db.devices = w.db.devices ++ [row]
      ∧ w1.db.device_versions = w.db.device_versions
      ∧ ∀ y ∈ w.db.devices, y.ID ≠ d1.ID := by
  unfold DeviceRepository.CreateDevice at h
  cases hf : env.dbFault w.stmts with
  | some err => simp [hf] at h
  | none =>
    by_cases hany : w.db.devices.any (fun d => d.ID == env.genID w.stmts) = true
    · simp only [hf] at h
      rw [if_pos hany] at h
      simp at h
    · simp only [hf] at h
      rw [if_neg hany] at h
      simp only [Prod.mk.injEq, Except.ok.injEq] at h
      obtain ⟨h1, h2⟩ := h
      subst h1
      subst h2
      refine ⟨{ ID := env.genID w.stmts, UserID := device.UserID,
                VersionID := device.VersionID, Name := device.Name, DevEUI := device.DevEUI,
                Description := device.Description,
                ChirpStackDeviceCreated := progressDefault,
                ChirpStackDeviceActivated := progressDefault,
                IsActive := env.isActiveDefault, CreatedAt := env.now w.stmts,
                UpdatedAt := env.now w.stmts, Version := none, User := none },
              rfl, rfl, rfl, rfl, ?_⟩
      intro y hy hid
      apply hany
      exact List.any_eq_true.mpr ⟨y, hy, by simpa using hid⟩

/-- The mirroring step rewrites device rows in place: every row keeps its id,
its owner and its version id, and the catalog is untouched. -/
theorem DeviceService.createChirpStackDevice_devices (cs : ChirpStackService) (env : Env)
    (device : Device) (user : User) (allowedDevice : AllowedDevice) (w : World)
    (hrel : ∀ n, env.dbFault n = none) :
    ∃ f : Device → Device,
      (∀ x, (f x).ID = x.ID ∧ (f x).UserID = x.UserID ∧ (f x).VersionID = x.VersionID)
      ∧ (DeviceService.createChirpStackDevice cs env device user allowedDevice w).2.db.devices
          = w.db.devices.map f
      ∧ (DeviceService.createChirpStackDevice cs env device user
          allowedDevice w).2.db.device_versions = w.db.device_versions := by
  unfold DeviceService.createChirpStackDevice
  have hw1 := ChirpStackService.makeRequest_db cs env "POST" "/devices"
    (.device (DeviceService.createDeviceRequest device user)) w
  rcases h1 : cs.makeRequest env "POST" "/devices"
    (.device (DeviceService.createDeviceRequest device user)) w with ⟨r1, w1⟩
  rw [h1] at hw1
  simp only at hw1
  cases r1 with
  | error err => exact ⟨id, fun x => ⟨rfl, rfl, rfl⟩, by simp [hw1], by simp [hw1]⟩
  | ok body =>
    simp only
    have hw3 := ChirpStackService.makeRequest_db cs env "POST"
      ("/devices/" ++ device.DevEUI ++ "/activate")
      (.activation (DeviceService.activateDeviceRequest allowedDevice))
      (w1.print ("ChirpStack device created: " ++ body ++ "\n"))
    rcases h2 : cs.makeRequest env "POST" ("/devices/" ++ device.DevEUI ++ "/activate")
      (.activation (DeviceService.activateDeviceRequest allowedDevice))
      (w1.print ("ChirpStack device created: " ++ body ++ "\n")) with ⟨r2, w3⟩
    rw [h2] at hw3
    simp only at hw3
    cases r2 with
    | error err =>
      exact ⟨id, fun x => ⟨rfl, rfl, rfl⟩, by simp [hw3, hw1, World.print],
        by simp [hw3, hw1, World.print]⟩
    | ok body2 =>
      simp only
      have hw5 := DeviceRepository.UpdateDeviceChirpStackStatus_snd env device.ID true true
        (w3.print ("ChirpStack device activated: " ++ body2 ++ "\n")) (hrel _)
      rcases h3 : DeviceRepository.UpdateDeviceChirpStackStatus env device.ID true true
        (w3.print ("ChirpStack device activated: " ++ body2 ++ "\n")) with ⟨r3, w5⟩
      rw [h3] at hw5
      simp only at hw5
      refine ⟨fun d => if d.ID == device.ID then
          { d with ChirpStackDeviceCreated := true, ChirpStackDeviceActivated := true,
                   UpdatedAt := env.now
                     (w3.print ("ChirpStack device activated: " ++ body2 ++ "\n")).stmts }
        else d, ?_, ?_, ?_⟩
      · intro x
        dsimp only
        split_ifs <;> exact ⟨rfl, rfl, rfl⟩
      · cases r3 <;> simp [hw5, hw3, hw1, World.print, World.tick]
      · cases r3 <;> simp [hw5, hw3, hw1, World.print, World.tick]

/-- What a successful `CreateDevice` has done to the device table: one row
with the returned id and the caller's id was appended, and rows were at most
rewritten in place; the appended row is the one a read of the returned id
finds, and its version row exists. -/
theorem DeviceService.CreateDevice_devices_of_ok (s : DeviceService) (env : Env)
    (userID : UUID) (req : CreateDeviceRequest) (w w1 : World) (d : Device)
    (hrel : ∀ n, env.dbFault n = none)
    (h : s.CreateDevice env userID req w = (.ok d, w1)) :
    ∃ (row : Device) (f : Device → Device) (v : DeviceVersion),
      row.ID = d.ID ∧ row.UserID = userID
      ∧ (∀ x, (f x).ID = x.ID ∧ (f x).UserID = x.UserID ∧ (f x).VersionID = x.VersionID)
      ∧ w1.db.devices = (w.db.devices ++ [row]).map f
      ∧ w1.db.devices.find? (fun x => x.ID == d.ID) = some (f row)
      ∧ w1.db.device_versions.find? (fun v => v.ID == (f row).VersionID) = some v := by
  unfold DeviceService.CreateDevice at h
  have hs1 := UserRepository.GetUserByID_snd env userID.String w
  rcases h1 : UserRepository.GetUserByID env userID.String w with ⟨r1, wa⟩
  rw [h1] at hs1 h
  simp only at hs1
  cases r1 with
  | error err => simp at h
  | ok user =>
    simp only at h
    by_cases hc : user.ApplicationID = none ∨ user.DeviceProfileID = none
    · rw [if_pos hc] at h
      simp at h
    · rw [if_neg hc] at h
      have hs2 := DeviceRepository.GetAllowedDeviceByDevEUI_snd env req.DevEUI wa
      rcases h2 : DeviceRepository.GetAllowedDeviceByDevEUI env req.DevEUI wa with ⟨r2, wb⟩
      rw [h2] at hs2 h
      simp only at hs2
      cases r2 with
      | error err => simp at h
      | ok allowedDevice =>
        simp only at h
        have hs3 := DeviceRepository.GetDeviceVersionByID_snd env req.VersionID wb
        rcases h3 : DeviceRepository.GetDeviceVersionByID env req.VersionID wb with ⟨r3, wc⟩
        rw [h3] at hs3 h
        simp only at hs3
        cases r3 with
        | error err => simp at h
        | ok ver =>
          simp only at h
          rcases h4 : DeviceRepository.CreateDevice env
            { ID := UUID.Nil, UserID := userID, VersionID := req.VersionID, Name := req.Name,
              DevEUI := req.DevEUI, Description := req.Description,
              ChirpStackDeviceCreated := false, ChirpStackDeviceActivated := false,
              IsActive := false, CreatedAt := 0, UpdatedAt := 0, Version := none,
              User := none } wc with ⟨r4, wd⟩
          rw [h4] at h
          cases r4 with
          | error err => simp at h
          | ok device1 =>
            simp only at h
            obtain ⟨row, hrid, hruid, hdevs, -, hfresh⟩ :=
              DeviceRepository.CreateDevice_of_ok env _ device1 wc wd h4
            obtain ⟨hdid, hw1, x, v, hfx, hfv, -⟩ :=
              DeviceRepository.GetDeviceByID_of_ok env _ _ _ _ h
            have hold : wc.db.devices = w.db.devices := by
              rw [hs3, hs2, hs1]
              rfl
            rw [hold] at hdevs hfresh
            have key : ∀ (f : Device → Device) (w5 : World),
                (∀ x, (f x).ID = x.ID ∧ (f x).UserID = x.UserID
                  ∧ (f x).VersionID = x.VersionID) →
                w5.db.devices = (w.db.devices ++ [row]).map f →
                w5.db.devices.find? (fun d => d.ID == device1.ID) = some x →
                x = f row := by
              intro f w5 hf hmap hfind
              have hmem := List.mem_of_find?_eq_some hfind
              have hxid : x.ID = device1.ID := by simpa using List.find?_some hfind
              rw [hmap] at hmem
              obtain ⟨y, hy, rfl⟩ := List.mem_map.mp hmem
              rcases List.mem_append.mp hy with hy | hy
              · exact absurd ((hf y).1.symm.trans hxid) (hfresh y hy)
              · rw [List.mem_singleton.mp hy]
            rw [hw1, World.tick_db]
            cases hcs : s.chirpStackService with
            | none =>
              simp only [hcs] at hfx hfv
              have hxr : x = row := key id wd (fun x => ⟨rfl, rfl, rfl⟩)
                (by simp [hdevs]) hfx
              refine ⟨row, id, v, hrid.trans hdid.symm, hruid, fun x => ⟨rfl, rfl, rfl⟩,
                by simp [hdevs], ?_, ?_⟩
              · rw [hdid, hfx, hxr]; rfl
              · rw [← hxr] at *; exact hfv
            | some cs =>
              by_cases hen : cs.IsEnabled = true
              · obtain ⟨f, hf, hmap, -⟩ := DeviceService.createChirpStackDevice_devices cs env
                  device1 user allowedDevice wd hrel
                simp only [hcs, hen, if_true] at hfx hfv ⊢
                rcases h5 : DeviceService.createChirpStackDevice cs env device1 user
                  allowedDevice wd with ⟨r5, we⟩
                rw [h5] at hmap hfx hfv
                simp only at hmap
                rw [hdevs] at hmap
                have hmap2 : (match r5 with
                    | some err =>
                      we.print ("Warning: Failed to create ChirpStack device: " ++ err ++ "\n")
                    | none => we).db = we.db := by
                  cases r5 <;> rfl
                have hxr : x = f row := by
                  apply key f we hf hmap
                  cases r5 <;> exact hfx
                refine ⟨row, f, v, hrid.trans hdid.symm, hruid, hf, ?_, ?_, ?_⟩
                · cases r5 <;> simpa [World.print] using hmap
                · rw [hdid, ← hxr]
                  cases r5 <;> exact hfx
                · rw [← hxr]
                  cases r5 <;> exact hfv
              · simp only [hcs, hen, Bool.false_eq_true, if_false] at hfx hfv ⊢
                have hxr : x = row := key id wd (fun x => ⟨rfl, rfl, rfl⟩)
                  (by simp [hdevs]) hfx
                refine ⟨row, id, v, hrid.trans hdid.symm, hruid, fun x => ⟨rfl, rfl, rfl⟩,
                  by simp [hdevs], ?_, ?_⟩
                · rw [hdid, hfx, hxr]; rfl
                · rw [← hxr] at *; exact hfv

theorem filter_owner_map_append (l : List Device) (row : Device) (f : Device → Device)
    (userID : UUID)
    (hf : ∀ x, (f x).ID = x.ID ∧ (f x).UserID = x.UserID ∧ (f x).VersionID = x.VersionID)
    (hrow : row.UserID = userID) (hnone : ∀ x ∈ l, x.UserID ≠ userID) :
    ((l ++ [row]).map f).filter (fun d => d.UserID == userID) = [f row] := by
  have hl : (l.map f).filter (fun d => d.UserID == userID) = [] := by
    rw [List.filter_eq_nil_iff]
    intro a ha
    obtain ⟨x, hx, rfl⟩ := List.mem_map.mp ha
    have := hnone x hx
    simp [(hf x).2.1, this]
  rw [List.map_append, List.filter_append, hl]
  simp [(hf row).2.1, hrow]

theorem pageOffset_first (pageSize : ℤ) : pageOffset 1 pageSize = 0 := by
  simp [pageOffset, wrapInt]

theorem limitOffset_single {α : Type} (x : α) (limit : ℤ) (h : 1 ≤ limit) :
    limitOffset [x] limit 0 = .ok [x] := by
  have h1 : ¬ limit < 0 := by omega
  have h2 : limit.toNat = (limit.toNat - 1) + 1 := by omega
  simp only [limitOffset, lt_irrefl, if_false, h1, Int.toNat_zero, List.drop_zero]
  rw [h2]
  simp

/-- The first page of a user who owns exactly one row, whose version row exists. -/
theorem DeviceService.GetDevicesByUserID_single (s : DeviceService) (env : Env)
    (userID : UUID) (pageSize : ℤ) (w : World) (x : Device) (v : DeviceVersion)
    (hrel : ∀ n, env.dbFault n = none) (hsize : 1 ≤ pageSize)
    (hfilter : w.db.devices.filter (fun d => d.UserID == userID) = [x])
    (hv : w.db.device_versions.find? (fun v => v.ID == x.VersionID) = some v) :
    s.GetDevicesByUserID env userID 1 pageSize w
      = (.ok { Devices := [DeviceRepository.joinVersion w.db x], Total := 1, Page := 1,
               PageSize := pageSize, TotalPages := totalPages 1 pageSize }, w.tick.tick) := by
  simp only [DeviceService.GetDevicesByUserID, DeviceRepository.GetDevicesByUserID, hrel,
    hfilter, pageOffset_first, List.map_cons, List.map_nil, orderByCreatedAtDesc,
    List.insertionSort, List.orderedInsert, limitOffset_single _ _ hsize,
    DeviceRepository.joinVersion, hv]
  rfl

theorem DeviceRepository.DeleteDevice_devices (env : Env) (id : UUID) (w : World)
    (hf : env.dbFault w.stmts = none) :
    (DeviceRepository.DeleteDevice env id w).2.db.devices
      = w.db.devices.filter (fun d => !(d.ID == id)) := by
  simp only [DeviceRepository.DeleteDevice, hf]
  split_ifs <;> rfl

theorem DeviceRepository.DeleteDevice_stmts (env : Env) (id : UUID) (w : World) :
    (DeviceRepository.DeleteDevice env id w).2.stmts = w.stmts + 1 := by
  unfold DeviceRepository.DeleteDevice
  cases env.dbFault w.stmts with
  | some err => rfl
  | none =>
    simp only
    split_ifs <;> rfl

/-- After a successful `DeleteDevice` the id is gone: the next read fails with
the not-found error. -/
theorem DeviceService.DeleteDevice_then_not_found (s : DeviceService) (env : Env) (id : UUID)
    (w : World) (hrel : ∀ n, env.dbFault n = none)
    (h : (s.DeleteDevice env id w).1 = none) :
    (s.GetDeviceByID env id (s.DeleteDevice env id w).2).1 = .error "device not found" := by
  unfold DeviceService.GetDeviceByID
  apply DeviceRepository.GetDeviceByID_fst_of_none _ _ _ (hrel _)
  unfold DeviceService.DeleteDevice at h ⊢
  rcases h1 : DeviceRepository.GetDeviceByID env id w with ⟨r1, w1⟩
  rw [h1] at h
  cases r1 with
  | error err => simp at h
  | ok device =>
    simp only
    rw [DeviceRepository.DeleteDevice_devices env id _ (hrel _), List.find?_eq_none]
    intro x hx
    have := (List.mem_filter.mp hx).2
    simpa using this

/-- C19: for a user who owns no device, after a successful `CreateDevice`
(store working) the first page of `GetDevicesByUserID` for that user, with any
page size of at least one, holds exactly one device, whose id is the created
device's id, and reports a total of one; deleting that id then succeeds, and
after any successful `DeleteDevice` of that id `GetDeviceByID` fails with the
not-found error. -/
theorem create_list_delete_get (s : DeviceService) (env : Env) (userID : UUID)
    (req : CreateDeviceRequest) (pageSize : ℤ) (w w1 : World) (d : Device)
    (hrel : ∀ n, env.dbFault n = none)
    (hnone : ∀ x ∈ w.db.devices, x.UserID ≠ userID)
    (hcreate : s.CreateDevice env userID req w = (.ok d, w1))
    (hsize : 1 ≤ pageSize) :
    (∃ (resp : DeviceListResponse) (x : Device),
        (s.GetDevicesByUserID env userID 1 pageSize w1).1 = .ok resp
          ∧ resp.Devices = [x] ∧ x.ID = d.ID ∧ resp.Total = 1)
      ∧ (s.DeleteDevice env d.ID (s.GetDevicesByUserID env userID 1 pageSize w1).2).1 = none
      ∧ (s.GetDeviceByID env d.ID
          (s.DeleteDevice env d.ID (s.GetDevicesByUserID env userID 1 pageSize w1).2).2).1
          = .error "device not found"
      ∧ ∀ w2, (s.DeleteDevice env d.ID w2).1 = none →
          (s.GetDeviceByID env d.ID (s.DeleteDevice env d.ID w2).2).1
            = .error "device not found" := by
  obtain ⟨row, f, v, hrid, hruid, hf, hdevs, hfind, hv⟩ :=
    DeviceService.CreateDevice_devices_of_ok s env userID req w w1 d hrel hcreate
  have hfilter : w1.db.devices.filter (fun d => d.UserID == userID) = [f row] := by
    rw [hdevs]
    exact filter_owner_map_append _ row f userID hf hruid hnone
  have hlist := DeviceService.GetDevicesByUserID_single s env userID pageSize w1 (f row) v hrel
    hsize hfilter hv
  have hdel : (s.DeleteDevice env d.ID
      (s.GetDevicesByUserID env userID 1 pageSize w1).2).1 = none := by
    rw [hlist]
    exact (DeviceService.DeleteDevice_removes_row s env d.ID w1.tick.tick (f row) v hrel
      hfind hv).1
  refine ⟨⟨_, DeviceRepository.joinVersion w1.db (f row), by rw [hlist], rfl,
      (hf row).1.trans hrid, rfl⟩, hdel, ?_, ?_⟩
  · exact DeviceService.DeleteDevice_then_not_found s env d.ID _ hrel hdel
  · intro w2 h2
    exact DeviceService.DeleteDevice_then_not_found s env d.ID w2 hrel h2

/-- Witness of C19: the workflow on the sample store, whose user u1 owns no
device, with the gateway enabled and the platform answering. -/
theorem create_list_delete_get_witness :
    (∀ x ∈ sampleWorld.db.devices, x.UserID ≠ (⟨"u1"⟩ : UUID))
      ∧ (∃ (resp : DeviceListResponse) (x : Device),
          (DeviceService.GetDevicesByUserID ⟨some sampleGateway⟩ sampleEnv ⟨"u1"⟩ 1 10
              (DeviceService.CreateDevice ⟨some sampleGateway⟩ sampleEnv ⟨"u1"⟩ sampleReq
                sampleWorld).2).1 = .ok resp
            ∧ resp.Devices = [x] ∧ x.ID = ⟨"d1"⟩ ∧ resp.Total = 1) :=
  have hnone : ∀ x ∈ sampleWorld.db.devices, x.UserID ≠ (⟨"u1"⟩ : UUID) :=
    fun x hx => absurd hx (List.not_mem_nil x)
  ⟨hnone,
    (create_list_delete_get ⟨some sampleGateway⟩ sampleEnv ⟨"u1"⟩ sampleReq 10 sampleWorld
      (DeviceService.CreateDevice ⟨some sampleGateway⟩ sampleEnv ⟨"u1"⟩ sampleReq
        sampleWorld).2
      { sampleDevice with CreatedAt := 13, UpdatedAt := 14, Version := some sampleVersion }
      (fun _ => rfl) hnone rfl (by decide)).1⟩

/-! ## The page count: binary64 arithmetic -/

theorem roundHalfEven_intCast (z : ℤ) : roundHalfEven (z : ℚ) = z := by
  simp [roundHalfEven]

theorem roundHalfEven_le (q : ℚ) (b : ℤ) (h : q ≤ b) : roundHalfEven q ≤ b := by
  have hfl : ⌊q⌋ ≤ b := by
    have : ((⌊q⌋ : ℤ) : ℚ) ≤ b := (Int.floor_le q).trans h
    exact_mod_cast this
  by_cases hlt : ⌊q⌋ < b
  · unfold roundHalfEven
    split_ifs <;> omega
  · have hb : ⌊q⌋ = b := by omega
    have hfrac : q - ⌊q⌋ < 1 / 2 := by
      rw [hb]
      linarith
    simp only [roundHalfEven, hfrac, if_true]
    omega

theorem le_roundHalfEven (q : ℚ) (a : ℤ) (h : (a : ℚ) ≤ q) : a ≤ roundHalfEven q := by
  have hfl : a ≤ ⌊q⌋ := Int.le_floor.mpr h
  unfold roundHalfEven
  split_ifs <;> omega

theorem succ_le_roundHalfEven (q : ℚ) (a : ℤ) (h : (a : ℚ) + 1 / 2 < q) :
    a + 1 ≤ roundHalfEven q := by
  have hfl : a ≤ ⌊q⌋ := Int.le_floor.mpr (by linarith)
  by_cases hlt : a < ⌊q⌋
  · unfold roundHalfEven
    split_ifs <;> omega
  · have ha : ⌊q⌋ = a := by omega
    have h1 : ¬ (q - ⌊q⌋ < 1 / 2) := by
      rw [ha]
      linarith
    have h2 : 1 / 2 < q - ⌊q⌋ := by
      rw [ha]
      linarith
    simp only [roundHalfEven, h1, h2, if_true, if_false]
    omega

theorem roundFloat64_of_pos (q : ℚ) (hq : 0 < q) :
    roundFloat64 q
      = (roundHalfEven (q / 2 ^ (Int.log 2 q - 52)) : ℚ) * 2 ^ (Int.log 2 q - 52) := by
  simp [roundFloat64, hq.ne', hq]

theorem div_two_zpow (x : ℚ) (e : ℤ) : x / 2 ^ (e - 52) = x * 2 ^ (52 - e) := by
  rw [div_eq_mul_inv, ← zpow_neg, neg_sub]

theorem two_zpow_mul_cancel (e : ℤ) : (2 : ℚ) ^ (52 - e) * 2 ^ (e - 52) = 1 := by
  rw [← zpow_add₀ (by norm_num : (2 : ℚ) ≠ 0)]
  simp

theorem two_zpow_of_nonneg (n : ℤ) (hn : 0 ≤ n) :
    (2 : ℚ) ^ n = (((2 : ℤ) ^ n.toNat : ℤ) : ℚ) := by
  obtain ⟨m, rfl⟩ := Int.eq_ofNat_of_zero_le hn
  simp

theorem log_two_bounds (q : ℚ) (hq : 0 < q) :
    (2 : ℚ) ^ Int.log 2 q ≤ q ∧ q < 2 ^ (Int.log 2 q + 1) := by
  refine ⟨?_, ?_⟩
  · have := Int.zpow_log_le_self (by norm_num : 1 < 2) hq
    exact_mod_cast this
  · have := Int.lt_zpow_succ_log_self (by norm_num : 1 < 2) q
    exact_mod_cast this

/-- A positive rational rounds to at most any value above it that lies on the
grid of its own exponent. -/
theorem roundFloat64_le (q : ℚ) (hq : 0 < q) (b : ℚ) (z : ℤ)
    (hz : b * 2 ^ (52 - Int.log 2 q) = z) (h : q ≤ b) : roundFloat64 q ≤ b := by
  rw [roundFloat64_of_pos q hq, div_two_zpow]
  have hpos : (0 : ℚ) < 2 ^ (52 - Int.log 2 q) := by positivity
  have hpos2 : (0 : ℚ) < 2 ^ (Int.log 2 q - 52) := by positivity
  have hm : q * 2 ^ (52 - Int.log 2 q) ≤ (z : ℚ) := by
    rw [← hz]
    exact mul_le_mul_of_nonneg_right h hpos.le
  have hr : ((roundHalfEven (q * 2 ^ (52 - Int.log 2 q)) : ℤ) : ℚ) ≤ (z : ℚ) := by
    exact_mod_cast roundHalfEven_le _ z hm
  calc ((roundHalfEven (q * 2 ^ (52 - Int.log 2 q)) : ℤ) : ℚ) * 2 ^ (Int.log 2 q - 52)
      ≤ (z : ℚ) * 2 ^ (Int.log 2 q - 52) := mul_le_mul_of_nonneg_right hr hpos2.le
    _ = b := by rw [← hz, mul_assoc, two_zpow_mul_cancel, mul_one]

/-- A positive rational rounds strictly above any grid value that it exceeds
by more than half a grid step. -/
theorem lt_roundFloat64 (q : ℚ) (hq : 0 < q) (a : ℚ) (z : ℤ)
    (hz : a * 2 ^ (52 - Int.log 2 q) = z)
    (h : 1 / 2 < (q - a) * 2 ^ (52 - Int.log 2 q)) : a < roundFloat64 q := by
  rw [roundFloat64_of_pos q hq, div_two_zpow]
  have hpos2 : (0 : ℚ) < 2 ^ (Int.log 2 q - 52) := by positivity
  have hm : (z : ℚ) + 1 / 2 < q * 2 ^ (52 - Int.log 2 q) := by
    rw [← hz]
    linarith
  have hr : ((z + 1 : ℤ) : ℚ) ≤ ((roundHalfEven (q * 2 ^ (52 - Int.log 2 q)) : ℤ) : ℚ) := by
    exact_mod_cast succ_le_roundHalfEven _ z hm
  calc a = (z : ℚ) * 2 ^ (Int.log 2 q - 52) := by
        rw [← hz, mul_assoc, two_zpow_mul_cancel, mul_one]
    _ < ((z + 1 : ℤ) : ℚ) * 2 ^ (Int.log 2 q - 52) := by
        apply mul_lt_mul_of_pos_right _ hpos2
        push_cast
        linarith
    _ ≤ _ := mul_le_mul_of_nonneg_right hr hpos2.le

/-- A positive rational rounds to a value no smaller than the power of two
below it; in particular to a positive value. -/
theorem two_zpow_le_roundFloat64 (q : ℚ) (hq : 0 < q) :
    (2 : ℚ) ^ Int.log 2 q ≤ roundFloat64 q := by
  rw [roundFloat64_of_pos q hq, div_two_zpow]
  have hpos : (0 : ℚ) < 2 ^ (52 - Int.log 2 q) := by positivity
  have hpos2 : (0 : ℚ) < 2 ^ (Int.log 2 q - 52) := by positivity
  have hm : (((2 : ℤ) ^ 52 : ℤ) : ℚ) ≤ q * 2 ^ (52 - Int.log 2 q) := by
    have h1 : (2 : ℚ) ^ Int.log 2 q * 2 ^ (52 - Int.log 2 q) = 2 ^ (52 : ℤ) := by
      rw [← zpow_add₀ (by norm_num : (2 : ℚ) ≠ 0)]
      congr 1
      ring
    have h2 := mul_le_mul_of_nonneg_right (log_two_bounds q hq).1 hpos.le
    rw [h1] at h2
    push_cast
    exact_mod_cast h2
  have hr : (((2 : ℤ) ^ 52 : ℤ) : ℚ)
      ≤ ((roundHalfEven (q * 2 ^ (52 - Int.log 2 q)) : ℤ) : ℚ) := by
    exact_mod_cast le_roundHalfEven _ _ hm
  have hc : (((2 : ℤ) ^ 52 : ℤ) : ℚ) = (2 : ℚ) ^ (52 : ℤ) := by norm_num
  calc (2 : ℚ) ^ Int.log 2 q = (2 : ℚ) ^ (52 : ℤ) * 2 ^ (Int.log 2 q - 52) := by
        rw [← zpow_add₀ (by norm_num : (2 : ℚ) ≠ 0)]
        congr 1
        ring
    _ = (((2 : ℤ) ^ 52 : ℤ) : ℚ) * 2 ^ (Int.log 2 q - 52) := by rw [hc]
    _ ≤ _ := mul_le_mul_of_nonneg_right hr hpos2.le

/-- A positive rational whose scaled significand is an integer is a binary64
value: rounding leaves it unchanged. -/
theorem roundFloat64_of_grid (q : ℚ) (hq : 0 < q) (z : ℤ)
    (hz : q * 2 ^ (52 - Int.log 2 q) = z) : roundFloat64 q = q := by
  rw [roundFloat64_of_pos q hq, div_two_zpow, hz, roundHalfEven_intCast, ← hz, mul_assoc,
    two_zpow_mul_cancel, mul_one]

theorem log_two_lt (q : ℚ) (hq : 0 < q) (n : ℤ) (h : q < 2 ^ n) : Int.log 2 q < n := by
  have h1 := (log_two_bounds q hq).1
  exact (zpow_lt_zpow_iff_right₀ (by norm_num : (1 : ℚ) < 2)).mp (lt_of_le_of_lt h1 h)

theorem le_log_two (q : ℚ) (hq : 0 < q) (n : ℤ) (h : 2 ^ n ≤ q) : n ≤ Int.log 2 q := by
  have h1 := (log_two_bounds q hq).2
  have := (zpow_lt_zpow_iff_right₀ (by norm_num : (1 : ℚ) < 2)).mp (lt_of_le_of_lt h h1)
  omega

theorem two_zpow_53 : (2 : ℚ) ^ (53 : ℤ) = (((2 : ℤ) ^ 53 : ℤ) : ℚ) := by norm_num

/-- Every integer from 1 to 2^53 - 1 is a binary64 value. -/
theorem roundFloat64_intCast (n : ℤ) (h0 : 0 < n) (h : n < 2 ^ 53) :
    roundFloat64 (n : ℚ) = n := by
  have hq : (0 : ℚ) < n := by exact_mod_cast h0
  have he : Int.log 2 (n : ℚ) < 53 := by
    apply log_two_lt _ hq
    rw [two_zpow_53]
    exact_mod_cast h
  apply roundFloat64_of_grid _ hq (n * 2 ^ (52 - Int.log 2 (n : ℚ)).toNat)
  rw [two_zpow_of_nonneg _ (by omega)]
  push_cast
  rfl

/-- Rounding a positive rational that is at most one gives a value in the
same range, so its ceiling is one. -/
theorem ceil_roundFloat64_of_le_one (q : ℚ) (hq : 0 < q) (h1 : q ≤ 1) :
    ⌈roundFloat64 q⌉ = 1 := by
  have he : Int.log 2 q < 1 := by
    apply log_two_lt _ hq
    have : (1 : ℚ) < 2 ^ (1 : ℤ) := by norm_num
    linarith
  have hup : roundFloat64 q ≤ 1 := by
    apply roundFloat64_le q hq 1 (2 ^ (52 - Int.log 2 q).toNat) _ h1
    rw [two_zpow_of_nonneg _ (by omega)]
    push_cast
    ring
  have hlo : 0 < roundFloat64 q :=
    lt_of_lt_of_le (by positivity) (two_zpow_le_roundFloat64 q hq)
  rw [Int.ceil_eq_iff]
  constructor
  · simpa using hlo
  · simpa using hup

/-- The conversion of a page size that exceeds a total below 2^53 still
exceeds it. -/
theorem lt_roundFloat64_intCast (T P : ℤ) (h0 : 0 < T) (h53 : T < 2 ^ 53) (hTP : T < P) :
    (T : ℚ) < roundFloat64 (P : ℚ) := by
  by_cases hP : P < 2 ^ 53
  · rw [roundFloat64_intCast P (by omega) hP]
    exact_mod_cast hTP
  · have hq : (0 : ℚ) < P := by exact_mod_cast (by omega : (0 : ℤ) < P)
    have hP2 : (2 : ℚ) ^ (53 : ℤ) ≤ P := by
      rw [two_zpow_53]
      exact_mod_cast (by omega : (2 : ℤ) ^ 53 ≤ P)
    have he := le_log_two _ hq 53 hP2
    have h2 : (2 : ℚ) ^ (53 : ℤ) ≤ 2 ^ Int.log 2 (P : ℚ) :=
      zpow_le_zpow_right₀ (by norm_num) he
    have h3 := two_zpow_le_roundFloat64 _ hq
    have h4 : (T : ℚ) < (2 : ℚ) ^ (53 : ℤ) := by
      rw [two_zpow_53]
      exact_mod_cast h53
    linarith

/-- The quotient of a total below 2^53 by a page size it reaches: rounding
the quotient to binary64 does not move it across an integer. -/
theorem ceil_roundFloat64_div (T P : ℤ) (hP : 0 < P) (hPT : P ≤ T) (h53 : T < 2 ^ 53) :
    ⌈roundFloat64 ((T : ℚ) / (P : ℚ))⌉ = ⌈(T : ℚ) / (P : ℚ)⌉ := by
  have hPq : (0 : ℚ) < P := by exact_mod_cast hP
  have hdecomp : P * (T / P) + T % P = T := Int.ediv_add_emod T P
  have hr0 : 0 ≤ T % P := Int.emod_nonneg T (by omega)
  have hrP : T % P < P := Int.emod_lt_of_pos T hP
  have hk1 : 1 ≤ T / P := (Int.le_ediv_iff_mul_le hP).mpr (by omega)
  have hkT : T / P ≤ T := by nlinarith
  have hqeq : (T : ℚ) / (P : ℚ) = ((T / P : ℤ) : ℚ) + ((T % P : ℤ) : ℚ) / (P : ℚ) := by
    have : (T : ℚ) = (P : ℚ) * ((T / P : ℤ) : ℚ) + ((T % P : ℤ) : ℚ) := by
      exact_mod_cast hdecomp.symm
    field_simp
    linarith
  by_cases hr : T % P = 0
  · have hq : (T : ℚ) / (P : ℚ) = ((T / P : ℤ) : ℚ) := by
      rw [hqeq, hr]
      simp
    rw [hq, roundFloat64_intCast _ (by omega) (by omega)]
  · have hrpos : 1 ≤ T % P := by omega
    have hrq : (1 : ℚ) ≤ ((T % P : ℤ) : ℚ) := by exact_mod_cast hrpos
    have hrPq : ((T % P : ℤ) : ℚ) < (P : ℚ) := by exact_mod_cast hrP
    have hfrac0 : 0 < ((T % P : ℤ) : ℚ) / (P : ℚ) := by positivity
    have hfrac1 : ((T % P : ℤ) : ℚ) / (P : ℚ) < 1 := (div_lt_one hPq).mpr hrPq
    have hk1q : (1 : ℚ) ≤ ((T / P : ℤ) : ℚ) := by exact_mod_cast hk1
    have hq : (0 : ℚ) < (T : ℚ) / (P : ℚ) := by
      rw [hqeq]
      linarith
    have hqT : (T : ℚ) / (P : ℚ) ≤ (T : ℚ) := by
      have hT0 : (0 : ℚ) ≤ T := by exact_mod_cast (by omega : (0 : ℤ) ≤ T)
      have hP1 : (1 : ℚ) ≤ P := by exact_mod_cast (by omega : (1 : ℤ) ≤ P)
      exact div_le_self hT0 hP1
    have hT53 : (T : ℚ) < (2 : ℚ) ^ (53 : ℤ) := by
      rw [two_zpow_53]
      exact_mod_cast h53
    have he53 : Int.log 2 ((T : ℚ) / (P : ℚ)) < 53 :=
      log_two_lt _ hq 53 (lt_of_le_of_lt hqT hT53)
    have he0 : 0 ≤ Int.log 2 ((T : ℚ) / (P : ℚ)) := by
      apply le_log_two _ hq 0
      rw [hqeq]
      simp only [zpow_zero]
      linarith
    have hN := two_zpow_of_nonneg (52 - Int.log 2 ((T : ℚ) / (P : ℚ))) (by omega)
    have hNpos : (0 : ℚ) < 2 ^ (52 - Int.log 2 ((T : ℚ) / (P : ℚ))) := by positivity
    have hEpos : (0 : ℚ) < 2 ^ Int.log 2 ((T : ℚ) / (P : ℚ)) := by positivity
    -- the page size is below two grid steps
    have hP2N : (P : ℚ) < 2 * 2 ^ (52 - Int.log 2 ((T : ℚ) / (P : ℚ))) := by
      have h1 : (2 : ℚ) ^ Int.log 2 ((T : ℚ) / (P : ℚ)) * (P : ℚ) ≤ T :=
        (le_div_iff₀ hPq).mp (log_two_bounds _ hq).1
      have h2 : (2 : ℚ) * 2 ^ (52 - Int.log 2 ((T : ℚ) / (P : ℚ)))
          * 2 ^ Int.log 2 ((T : ℚ) / (P : ℚ)) = 2 ^ (53 : ℤ) := by
        rw [mul_assoc, ← zpow_add₀ (by norm_num : (2 : ℚ) ≠ 0)]
        have : (52 - Int.log 2 ((T : ℚ) / (P : ℚ)) + Int.log 2 ((T : ℚ) / (P : ℚ))) = 52 := by
          ring
        rw [this]
        norm_num
      have h3 : (P : ℚ) * 2 ^ Int.log 2 ((T : ℚ) / (P : ℚ))
          < 2 * 2 ^ (52 - Int.log 2 ((T : ℚ) / (P : ℚ)))
            * 2 ^ Int.log 2 ((T : ℚ) / (P : ℚ)) := by
        rw [h2]
        linarith
      exact lt_of_mul_lt_mul_right h3 hEpos.le
    have hup : roundFloat64 ((T : ℚ) / (P : ℚ)) ≤ ((T / P + 1 : ℤ) : ℚ) := by
      apply roundFloat64_le _ hq _
        ((T / P + 1) * 2 ^ (52 - Int.log 2 ((T : ℚ) / (P : ℚ))).toNat)
      · rw [hN]
        push_cast
        rfl
      · rw [hqeq]
        push_cast
        linarith
    have hlo : ((T / P : ℤ) : ℚ) < roundFloat64 ((T : ℚ) / (P : ℚ)) := by
      apply lt_roundFloat64 _ hq _
        ((T / P) * 2 ^ (52 - Int.log 2 ((T : ℚ) / (P : ℚ))).toNat)
      · rw [hN]
        push_cast
        rfl
      · have hsub : (T : ℚ) / (P : ℚ) - ((T / P : ℤ) : ℚ) = ((T % P : ℤ) : ℚ) / (P : ℚ) := by
          rw [hqeq]
          ring
        rw [hsub, div_mul_eq_mul_div, lt_div_iff₀ hPq]
        nlinarith
    have h1 : ⌈roundFloat64 ((T : ℚ) / (P : ℚ))⌉ = T / P + 1 := by
      rw [Int.ceil_eq_iff]
      constructor
      · push_cast
        linarith
      · exact hup
    have h2 : ⌈(T : ℚ) / (P : ℚ)⌉ = T / P + 1 := by
      rw [Int.ceil_eq_iff]
      constructor
      · rw [hqeq]
        push_cast
        linarith
      · rw [hqeq]
        push_cast
        linarith
    rw [h1, h2]

theorem roundFloat64_zero : roundFloat64 0 = 0 := by
  simp [roundFloat64]

theorem intOfFloat_of_range (v : ℤ) (h0 : -2 ^ 63 ≤ v) (h1 : v < 2 ^ 63) : intOfFloat v = v := by
  unfold intOfFloat
  rw [if_pos ⟨h0, h1⟩]

/-- The page count of a total below 2^53 is the exact ceiling of the quotient. -/
theorem totalPages_eq_ceil (T P : ℤ) (h0 : 0 ≤ T) (h53 : T < 2 ^ 53) (hP : 0 < P) :
    totalPages T P = ⌈(T : ℚ) / (P : ℚ)⌉ := by
  have hPq : (0 : ℚ) < P := by exact_mod_cast hP
  have hP0 : P ≠ 0 := by omega
  simp only [totalPages, hP0, if_false]
  by_cases hT : T = 0
  · subst hT
    simp [roundFloat64_zero, intOfFloat]
  · have hTpos : 0 < T := by omega
    have hTq : (0 : ℚ) < T := by exact_mod_cast hTpos
    rw [roundFloat64_intCast T hTpos h53]
    by_cases hTP : T < P
    · have hlt := lt_roundFloat64_intCast T P hTpos h53 hTP
      have hrpos : (0 : ℚ) < roundFloat64 (P : ℚ) := lt_trans hTq hlt
      have hq0 : 0 < (T : ℚ) / roundFloat64 (P : ℚ) := div_pos hTq hrpos
      have hq1 : (T : ℚ) / roundFloat64 (P : ℚ) ≤ 1 := (div_le_one hrpos).mpr hlt.le
      rw [ceil_roundFloat64_of_le_one _ hq0 hq1]
      have h2 : ⌈(T : ℚ) / (P : ℚ)⌉ = 1 := by
        rw [Int.ceil_eq_iff]
        constructor
        · simpa using div_pos hTq hPq
        · have : (T : ℚ) < P := by exact_mod_cast hTP
          simpa using ((div_le_one hPq).mpr this.le)
      rw [h2]
      rfl
    · have hPT : P ≤ T := by omega
      rw [roundFloat64_intCast P hP (by omega), ceil_roundFloat64_div T P hP hPT h53]
      apply intOfFloat_of_range
      · have : (0 : ℤ) ≤ ⌈(T : ℚ) / (P : ℚ)⌉ := Int.ceil_nonneg (div_pos hTq hPq).le
        omega
      · have hle : ⌈(T : ℚ) / (P : ℚ)⌉ ≤ T := by
          rw [Int.ceil_le]
          have hP1 : (1 : ℚ) ≤ P := by exact_mod_cast (by omega : (1 : ℤ) ≤ P)
          exact div_le_self hTq.le hP1
        omega

theorem log_two_eq (q : ℚ) (hq : 0 < q) (n : ℤ) (h1 : 2 ^ n ≤ q) (h2 : q < 2 ^ (n + 1)) :
    Int.log 2 q = n := by
  have := le_log_two q hq n h1
  have := log_two_lt q hq (n + 1) h2
  omega

theorem roundHalfEven_tie_even (z : ℤ) (hz : z % 2 = 0) :
    roundHalfEven ((z : ℚ) + 1 / 2) = z := by
  have hfl : ⌊(z : ℚ) + 1 / 2⌋ = z := by
    rw [Int.floor_eq_iff]
    constructor <;> linarith
  have h1 : ¬ ((z : ℚ) + 1 / 2 - (z : ℚ) < 1 / 2) := by
    intro h
    linarith
  have h2 : ¬ (1 / 2 < (z : ℚ) + 1 / 2 - (z : ℚ)) := by
    intro h
    linarith
  unfold roundHalfEven
  rw [hfl, if_neg h1, if_neg h2, if_pos hz]

/-- The integer 2^53 + 1 is not a binary64 value: it lies halfway between its
two neighbours and goes to the even one, 2^53. -/
theorem roundFloat64_above_2_53 :
    roundFloat64 (9007199254740993 : ℚ) = 9007199254740992 := by
  have hq : (0 : ℚ) < 9007199254740993 := by norm_num
  have he : Int.log 2 (9007199254740993 : ℚ) = 53 :=
    log_two_eq _ hq 53 (by norm_num) (by norm_num)
  rw [roundFloat64_of_pos _ hq, he]
  have hm : (9007199254740993 : ℚ) / 2 ^ ((53 : ℤ) - 52)
      = ((4503599627370496 : ℤ) : ℚ) + 1 / 2 := by norm_num
  rw [hm, roundHalfEven_tie_even _ (by decide)]
  norm_num

theorem roundFloat64_2_53 : roundFloat64 (9007199254740992 : ℚ) = 9007199254740992 := by
  have hq : (0 : ℚ) < 9007199254740992 := by norm_num
  have he : Int.log 2 (9007199254740992 : ℚ) = 53 :=
    log_two_eq _ hq 53 (by norm_num) (by norm_num)
  apply roundFloat64_of_grid _ hq 4503599627370496
  rw [he]
  norm_num

/-- C12 (counterexample): a total of 2^53 + 1 with page size 1.  The
conversion `float64(total)` rounds the total to 2^53, so the page count is
2^53 while the ceiling of the quotient is 2^53 + 1. -/
theorem totalPages_above_2_53 :
    totalPages 9007199254740993 1 = 9007199254740992
      ∧ ⌈((9007199254740993 : ℤ) : ℚ) / ((1 : ℤ) : ℚ)⌉ = 9007199254740993 := by
  constructor
  · have h1 : roundFloat64 ((1 : ℤ) : ℚ) = ((1 : ℤ) : ℚ) :=
      roundFloat64_intCast 1 (by decide) (by decide)
    have h2 : ((9007199254740993 : ℤ) : ℚ) = (9007199254740993 : ℚ) := by norm_num
    have h3 : (9007199254740992 : ℚ) / ((1 : ℤ) : ℚ) = (9007199254740992 : ℚ) := by norm_num
    have h4 : ⌈(9007199254740992 : ℚ)⌉ = 9007199254740992 := by
      have : (9007199254740992 : ℚ) = ((9007199254740992 : ℤ) : ℚ) := by norm_num
      rw [this, Int.ceil_intCast]
    simp only [totalPages, one_ne_zero, if_false]
    rw [h1, h2, roundFloat64_above_2_53, h3, roundFloat64_2_53, h4]
    exact intOfFloat_of_range _ (by decide) (by decide)
  · have : ((9007199254740993 : ℤ) : ℚ) / ((1 : ℤ) : ℚ) = ((9007199254740993 : ℤ) : ℚ) := by
      norm_num
    rw [this, Int.ceil_intCast]

theorem UserService.GetAllUsers_TotalPages (s : UserService) (env : Env) (page pageSize : ℤ)
    (w : World) (resp : UserListResponse)
    (h : (s.GetAllUsers env page pageSize w).1 = .ok resp) :
    resp.TotalPages = totalPages resp.Total resp.PageSize := by
  unfold UserService.GetAllUsers at h
  simp only at h
  rcases hr : UserRepository.GetAllUsers env (if page < 1 then 1 else page)
    (if pageSize < 1 ∨ pageSize > 100 then 10 else pageSize) w with ⟨r, w1⟩
  rw [hr] at h
  cases r with
  | error err => simp at h
  | ok p =>
    obtain ⟨rows, total⟩ := p
    simp only [Except.ok.injEq] at h
    subst h
    rfl

theorem UserService.SearchUsers_TotalPages (s : UserService) (env : Env)
    (req : UserSearchRequest) (w : World) (resp : UserListResponse)
    (h : (s.SearchUsers env req w).1 = .ok resp) :
    resp.TotalPages = totalPages resp.Total resp.PageSize := by
  unfold UserService.SearchUsers at h
  simp only at h
  by_cases hq : req.Query = ""
  · rw [if_pos hq] at h
    exact UserService.GetAllUsers_TotalPages s env _ _ w resp h
  · rw [if_neg hq] at h
    rcases hr : UserRepository.SearchUsers env req.Query (if req.Page < 1 then 1 else req.Page)
      (if req.PageSize < 1 ∨ req.PageSize > 100 then 10 else req.PageSize) w with ⟨r, w1⟩
    rw [hr] at h
    cases r with
    | error err => simp at h
    | ok p =>
      obtain ⟨rows, total⟩ := p
      simp only [Except.ok.injEq] at h
      subst h
      rfl

theorem DeviceService.GetDeviceVersions_TotalPages (s : DeviceService) (env : Env)
    (page pageSize : ℤ) (w : World) (resp : DeviceVersionListResponse)
    (h : (s.GetDeviceVersions env page pageSize w).1 = .ok resp) :
    resp.TotalPages = totalPages resp.Total resp.PageSize := by
  unfold DeviceService.GetDeviceVersions at h
  rcases hr : DeviceRepository.GetDeviceVersions env page pageSize w with ⟨r, w1⟩
  rw [hr] at h
  cases r with
  | error err => simp at h
  | ok p =>
    obtain ⟨rows, total⟩ := p
    simp only [Except.ok.injEq] at h
    subst h
    rfl

theorem DeviceService.GetAllowedDevices_TotalPages (s : DeviceService) (env : Env)
    (page pageSize : ℤ) (w : World) (resp : AllowedDeviceListResponse)
    (h : (s.GetAllowedDevices env page pageSize w).1 = .ok resp) :
    resp.TotalPages = totalPages resp.Total resp.PageSize := by
  unfold DeviceService.GetAllowedDevices at h
  rcases hr : DeviceRepository.GetAllowedDevices env page pageSize w with ⟨r, w1⟩
  rw [hr] at h
  cases r with
  | error err => simp at h
  | ok p =>
    obtain ⟨rows, total⟩ := p
    simp only [Except.ok.injEq] at h
    subst h
    rfl

theorem DeviceService.GetDevicesByUserID_TotalPages (s : DeviceService) (env : Env)
    (userID : UUID) (page pageSize : ℤ) (w : World) (resp : DeviceListResponse)
    (h : (s.GetDevicesByUserID env userID page pageSize w).1 = .ok resp) :
    resp.TotalPages = totalPages resp.Total resp.PageSize := by
  unfold DeviceService.GetDevicesByUserID at h
  rcases hr : DeviceRepository.GetDevicesByUserID env userID page pageSize w with ⟨r, w1⟩
  rw [hr] at h
  cases r with
  | error err => simp at h
  | ok p =>
    obtain ⟨rows, total⟩ := p
    simp only [Except.ok.injEq] at h
    subst h
    rfl

theorem DeviceService.GetAllDevices_TotalPages (s : DeviceService) (env : Env)
    (page pageSize : ℤ) (w : World) (resp : DeviceListResponse)
    (h : (s.GetAllDevices env page pageSize w).1 = .ok resp) :
    resp.TotalPages = totalPages resp.Total resp.PageSize := by
  unfold DeviceService.GetAllDevices at h
  rcases hr : DeviceRepository.GetAllDevices env page pageSize w with ⟨r, w1⟩
  rw [hr] at h
  cases r with
  | error err => simp at h
  | ok p =>
    obtain ⟨rows, total⟩ := p
    simp only [Except.ok.injEq] at h
    subst h
    rfl

/-- C12 (amended): for every total T with 0 <= T < 2^53 and every page size
P > 0, the page count `int(math.Ceil(float64(T) / float64(P)))` equals the
integer ceiling of T / P, and so does the `TotalPages` field of every response
of the six list operations (`UserService.GetAllUsers` and `SearchUsers`,
`DeviceService.GetDeviceVersions`, `GetAllowedDevices`, `GetDevicesByUserID`
and `GetAllDevices`) that reports the total T and the page size P. -/
theorem TotalPages_ceiling_below_2_53 (us : UserService) (ds : DeviceService) (env : Env)
    (w : World) (T P : ℤ) (h0 : 0 ≤ T) (h53 : T < 2 ^ 53) (hP : 0 < P) :
    totalPages T P = ⌈(T : ℚ) / (P : ℚ)⌉
      ∧ (∀ page pageSize resp, (us.GetAllUsers env page pageSize w).1 = .ok resp →
          resp.Total = T → resp.PageSize = P → resp.TotalPages = ⌈(T : ℚ) / (P : ℚ)⌉)
      ∧ (∀ req resp, (us.SearchUsers env req w).1 = .ok resp →
          resp.Total = T → resp.PageSize = P → resp.TotalPages = ⌈(T : ℚ) / (P : ℚ)⌉)
      ∧ (∀ page pageSize resp, (ds.GetDeviceVersions env page pageSize w).1 = .ok resp →
          resp.Total = T → resp.PageSize = P → resp.TotalPages = ⌈(T : ℚ) / (P : ℚ)⌉)
      ∧ (∀ page pageSize resp, (ds.GetAllowedDevices env page pageSize w).1 = .ok resp →
          resp.Total = T → resp.PageSize = P → resp.TotalPages = ⌈(T : ℚ) / (P : ℚ)⌉)
      ∧ (∀ userID page pageSize resp,
          (ds.GetDevicesByUserID env userID page pageSize w).1 = .ok resp →
          resp.Total = T → resp.PageSize = P → resp.TotalPages = ⌈(T : ℚ) / (P : ℚ)⌉)
      ∧ (∀ page pageSize resp, (ds.GetAllDevices env page pageSize w).1 = .ok resp →
          resp.Total = T → resp.PageSize = P → resp.TotalPages = ⌈(T : ℚ) / (P : ℚ)⌉) := by
  have hceil := totalPages_eq_ceil T P h0 h53 hP
  refine ⟨hceil, ?_, ?_, ?_, ?_, ?_, ?_⟩
  · intro page pageSize resp h hT hPs
    rw [UserService.GetAllUsers_TotalPages us env page pageSize w resp h, hT, hPs, hceil]
  · intro req resp h hT hPs
    rw [UserService.SearchUsers_TotalPages us env req w resp h, hT, hPs, hceil]
  · intro page pageSize resp h hT hPs
    rw [DeviceService.GetDeviceVersions_TotalPages ds env page pageSize w resp h, hT, hPs,
      hceil]
  · intro page pageSize resp h hT hPs
    rw [DeviceService.GetAllowedDevices_TotalPages ds env page pageSize w resp h, hT, hPs,
      hceil]
  · intro userID page pageSize resp h hT hPs
    rw [DeviceService.GetDevicesByUserID_TotalPages ds env userID page pageSize w resp h, hT,
      hPs, hceil]
  · intro page pageSize resp h hT hPs
    rw [DeviceService.GetAllDevices_TotalPages ds env page pageSize w resp h, hT, hPs, hceil]

/-- Witness of C12 (amended): the two users of the sample store listed with
page size 10. -/
theorem TotalPages_ceiling_below_2_53_witness :
    (0 : ℤ) ≤ 2 ∧ (2 : ℤ) < 2 ^ 53 ∧ (0 : ℤ) < 10
      ∧ totalPages 2 10 = ⌈((2 : ℤ) : ℚ) / ((10 : ℤ) : ℚ)⌉
      ∧ ∃ resp : UserListResponse,
          (UserService.GetAllUsers ⟨none⟩ sampleEnv 1 10 sampleWorld).1 = .ok resp
            ∧ resp.TotalPages = ⌈((2 : ℤ) : ℚ) / ((10 : ℤ) : ℚ)⌉ :=
  have h := TotalPages_ceiling_below_2_53 ⟨none⟩ ⟨none⟩ sampleEnv sampleWorld 2 10
    (by decide) (by decide) (by decide)
  ⟨by decide, by decide, by decide, h.1,
    { Users := [sampleUser, sampleBareUser], Total := 2, Page := 1, PageSize := 10,
      TotalPages := totalPages 2 10 }, rfl, h.2.1 1 10 _ rfl rfl rfl⟩


/-! ## The requests of the mirroring step -/

theorem DeviceRepository.UpdateDeviceChirpStackStatus_requests (env : Env) (id : UUID)
    (created activated : Bool) (w : World) :
    (DeviceRepository.UpdateDeviceChirpStackStatus env id created activated w).2.requests
      = w.requests := by
  unfold DeviceRepository.UpdateDeviceChirpStackStatus
  cases env.dbFault w.stmts with
  | some err => rfl
  | none =>
    simp only
    split_ifs <;> rfl

/-- The requests the mirroring step hands to the HTTP client: the create
request, when `http.NewRequest` builds it; then, when the create call
succeeded, the activate request addressed to the device's DevEUI, when
`http.NewRequest` builds it; nothing else. -/
theorem DeviceService.createChirpStackDevice_requests (cs : ChirpStackService) (env : Env)
    (device : Device) (user : User) (allowedDevice : AllowedDevice) (w : World) :
    (DeviceService.createChirpStackDevice cs env device user allowedDevice w).2.requests
      = if (env.http w.requests.length (cs.buildRequest "POST" "/devices"
            (.device (DeviceService.createDeviceRequest device user)))).ok = true then
          if (env.http (w.requests.length + 1)
              (cs.buildRequest "POST" ("/devices/" ++ device.DevEUI ++ "/activate")
                (.activation (DeviceService.activateDeviceRequest allowedDevice)))).built
              = true then
            w.requests ++
              [cs.buildRequest "POST" "/devices"
                  (.device (DeviceService.createDeviceRequest device user)),
                cs.buildRequest "POST" ("/devices/" ++ device.DevEUI ++ "/activate")
                  (.activation (DeviceService.activateDeviceRequest allowedDevice))]
          else
            w.requests ++
              [cs.buildRequest "POST" "/devices"
                  (.device (DeviceService.createDeviceRequest device user))]
        else if (env.http w.requests.length (cs.buildRequest "POST" "/devices"
            (.device (DeviceService.createDeviceRequest device user)))).built = true then
          w.requests ++
            [cs.buildRequest "POST" "/devices"
                (.device (DeviceService.createDeviceRequest device user))]
        else w.requests := by
  unfold DeviceService.createChirpStackDevice
  have hw1 := ChirpStackService.makeRequest_snd cs env "POST" "/devices"
    (.device (DeviceService.createDeviceRequest device user)) w
  rcases h1 : cs.makeRequest env "POST" "/devices"
    (.device (DeviceService.createDeviceRequest device user)) w with ⟨r1, w1⟩
  rw [h1] at hw1
  simp only at hw1
  cases r1 with
  | error err =>
    have hnot : (env.http w.requests.length (cs.buildRequest "POST" "/devices"
          (.device (DeviceService.createDeviceRequest device user)))).ok = false := by
      cases hok : (env.http w.requests.length (cs.buildRequest "POST" "/devices"
          (.device (DeviceService.createDeviceRequest device user)))).ok with
      | false => rfl
      | true =>
        obtain ⟨body, hbody⟩ := ChirpStackService.makeRequest_of_ok cs env "POST" "/devices"
          (.device (DeviceService.createDeviceRequest device user)) w hok
        rw [h1] at hbody
        simp at hbody
    simp only [hnot, Bool.false_eq_true, if_false]
    rw [hw1]
    split <;> rfl
  | ok body =>
    obtain ⟨hok, hw1b⟩ := ChirpStackService.makeRequest_of_eq_ok cs env _ _ _ w w1 body h1
    simp only [hok, if_true]
    have hw3 := ChirpStackService.makeRequest_snd cs env "POST"
      ("/devices/" ++ device.DevEUI ++ "/activate")
      (.activation (DeviceService.activateDeviceRequest allowedDevice))
      (w1.print ("ChirpStack device created: " ++ body ++ "\n"))
    have hlen : (w1.print ("ChirpStack device created: " ++ body ++ "\n")).requests.length
        = w.requests.length + 1 := by
      rw [hw1b]; simp [World.print]
    rw [hlen] at hw3
    rcases h2 : cs.makeRequest env "POST" ("/devices/" ++ device.DevEUI ++ "/activate")
      (.activation (DeviceService.activateDeviceRequest allowedDevice))
      (w1.print ("ChirpStack device created: " ++ body ++ "\n")) with ⟨r2, w3⟩
    rw [h2] at hw3
    simp only at hw3
    cases r2 with
    | error err =>
      simp only
      rw [hw3, hw1b]
      split <;> simp [World.print]
    | ok body2 =>
      obtain ⟨hok2, hw3b⟩ := ChirpStackService.makeRequest_of_eq_ok cs env _ _ _ _ w3 body2 h2
      rw [hlen] at hok2
      simp only [HttpOutcome.built_of_ok _ hok2, if_true]
      have hw5 := DeviceRepository.UpdateDeviceChirpStackStatus_requests env device.ID true true
        (w3.print ("ChirpStack device activated: " ++ body2 ++ "\n"))
      rcases h3 : DeviceRepository.UpdateDeviceChirpStackStatus env device.ID true true
        (w3.print ("ChirpStack device activated: " ++ body2 ++ "\n")) with ⟨r3, w5⟩
      rw [h3] at hw5
      simp only at hw5
      cases r3 <;> simp [hw5, hw3b, hw1b, World.print]

theorem DeviceService.createDeviceRequest_eq (device : Device) (user : User) :
    DeviceService.createDeviceRequest device user
      = { Device :=
            { ApplicationID := user.ApplicationID.getD "", Description := device.Name,
              DevEUI := device.DevEUI, DeviceProfileID := user.DeviceProfileID.getD "",
              IsDisabled := false, JoinEUI := "0000000000000000", Name := device.Name,
              SkipFcntCheck := true, Tags := [], Variables := [] } } := rfl

/-- The requests `CreateDevice` hands to the HTTP client of an enabled platform
once the local gates have passed (store working): the create request, built
from the owner's two identifiers and the request's name and DevEUI, and, when
the platform accepted it, the activate request for the request's DevEUI built
from the allow-list row; each of the two only when `http.NewRequest` builds
it. -/
theorem DeviceService.CreateDevice_requests_of_enabled (s : DeviceService)
    (cs : ChirpStackService) (env : Env) (userID : UUID) (req : CreateDeviceRequest)
    (w : World) (user : User) (a : AllowedDevice)
    (hs : s.chirpStackService = some cs) (hen : cs.IsEnabled = true)
    (hrel : ∀ n, env.dbFault n = none)
    (hfresh : ∀ n, ∀ d ∈ w.db.devices, d.ID ≠ env.genID n)
    (hu : (UserRepository.GetUserByID env userID.String w).1 = .ok user)
    (happ : user.ApplicationID ≠ none) (hprof : user.DeviceProfileID ≠ none)
    (ha : w.db.allowed_devices.find? (fun a => a.DevEUI == req.DevEUI) = some a)
    (hver : ∃ v ∈ w.db.device_versions, v.ID = req.VersionID) :
    (s.CreateDevice env userID req w).2.requests
      = if (env.http w.requests.length (cs.buildRequest "POST" "/devices"
            (.device { Device :=
              { ApplicationID := user.ApplicationID.getD "", Description := req.Name,
                DevEUI := req.DevEUI, DeviceProfileID := user.DeviceProfileID.getD "",
                IsDisabled := false, JoinEUI := "0000000000000000", Name := req.Name,
                SkipFcntCheck := true, Tags := [], Variables := [] } }))).ok = true then
          if (env.http (w.requests.length + 1)
              (cs.buildRequest "POST" ("/devices/" ++ req.DevEUI ++ "/activate")
                (.activation (DeviceService.activateDeviceRequest a)))).built = true then
            w.requests ++
              [cs.buildRequest "POST" "/devices"
                  (.device { Device :=
              { ApplicationID := user.ApplicationID.getD "", Description := req.Name,
                DevEUI := req.DevEUI, DeviceProfileID := user.DeviceProfileID.getD "",
                IsDisabled := false, JoinEUI := "0000000000000000", Name := req.Name,
                SkipFcntCheck := true, Tags := [], Variables := [] } }),
                cs.buildRequest "POST" ("/devices/" ++ req.DevEUI ++ "/activate")
                  (.activation (DeviceService.activateDeviceRequest a))]
          else
            w.requests ++
              [cs.buildRequest "POST" "/devices"
                  (.device { Device :=
              { ApplicationID := user.ApplicationID.getD "", Description := req.Name,
                DevEUI := req.DevEUI, DeviceProfileID := user.DeviceProfileID.getD "",
                IsDisabled := false, JoinEUI := "0000000000000000", Name := req.Name,
                SkipFcntCheck := true, Tags := [], Variables := [] } })]
        else if (env.http w.requests.length (cs.buildRequest "POST" "/devices"
            (.device { Device :=
              { ApplicationID := user.ApplicationID.getD "", Description := req.Name,
                DevEUI := req.DevEUI, DeviceProfileID := user.DeviceProfileID.getD "",
                IsDisabled := false, JoinEUI := "0000000000000000", Name := req.Name,
                SkipFcntCheck := true, Tags := [], Variables := [] } }))).built = true then
          w.requests ++
            [cs.buildRequest "POST" "/devices"
                (.device { Device :=
              { ApplicationID := user.ApplicationID.getD "", Description := req.Name,
                DevEUI := req.DevEUI, DeviceProfileID := user.DeviceProfileID.getD "",
                IsDisabled := false, JoinEUI := "0000000000000000", Name := req.Name,
                SkipFcntCheck := true, Tags := [], Variables := [] } })]
        else w.requests := by
  obtain ⟨device1, w4, -, hname, heui, -, -, -, -, hreqs, hrun⟩ :=
    DeviceService.CreateDevice_local_leg s env userID req w user a hrel hfresh hu happ hprof
      ha hver
  have hlog := DeviceService.createChirpStackDevice_requests cs env device1 user a w4
  rw [DeviceService.createDeviceRequest_eq, hname, heui, hreqs] at hlog
  simp only [hs, hen, if_true] at hrun
  rw [hrun, DeviceRepository.GetDeviceByID_snd, World.tick_requests]
  rcases hccd : DeviceService.createChirpStackDevice cs env device1 user a w4 with ⟨r, w5⟩
  rw [hccd] at hlog
  simp only at hlog
  cases r with
  | none => exact hlog
  | some err => simpa [World.print] using hlog

/-- C23 (failing input): the create request of the integration test, whose
description "Device created during integration test" differs from its name,
for the sample user on an enabled platform.  The first request handed to the
platform carries the owner's application id and profile id, the DevEUI, the
name, the join identifier of sixteen zeros and skip-frame-counter-check true,
but its description is the device's name, not the description of the request. -/
theorem CreateDevice_remote_description_is_name :
    (DeviceService.CreateDevice ⟨some sampleGateway⟩ sampleEnv ⟨"u1"⟩ sampleDescribedReq
        sampleWorld).2.requests.head?
        = some (sampleGateway.buildRequest "POST" "/devices"
            (.device { Device :=
              { ApplicationID := "app1", Description := "My Integration Test Device",
                DevEUI := "C5EABC521E8304EE", DeviceProfileID := "prof1",
                IsDisabled := false, JoinEUI := "0000000000000000",
                Name := "My Integration Test Device", SkipFcntCheck := true,
                Tags := [], Variables := [] } }))
      ∧ sampleDescribedReq.Description = some "Device created during integration test"
      ∧ ((DeviceService.CreateDevice ⟨some sampleGateway⟩ sampleEnv ⟨"u1"⟩ sampleDescribedReq
          sampleWorld).2.db.devices.map Device.Description)
          = [some "Device created during integration test"] := by
  exact ⟨rfl, rfl, rfl⟩


/-- C24 (counterexample): in the activation built from the sample allow-list
row, whose three keys differ, the network key is the value of three of the
four key fields, not of two. -/
theorem activation_network_key_in_three_roles :
    ([(DeviceService.activateDeviceRequest sampleAllowed).DeviceActivation.AppSKey,
      (DeviceService.activateDeviceRequest sampleAllowed).DeviceActivation.FNwkSIntKey,
      (DeviceService.activateDeviceRequest sampleAllowed).DeviceActivation.NwkSEncKey,
      (DeviceService.activateDeviceRequest sampleAllowed).DeviceActivation.SNwkSIntKey].filter
        (fun k => k == sampleAllowed.NwkKey)).length = 3
      ∧ sampleAllowed.NwkKey ≠ sampleAllowed.AppKey := by
  decide

/-- C24 (amended): once the local gates of `CreateDevice` have passed on an
enabled platform that accepts the create request (store working), the activate
request device creation builds is a POST addressed to
`/devices/<DevEUI>/activate` for the request's DevEUI, whose keys come from the
allow-list row of that DevEUI; the allow-list network key is the value of
exactly the three fields `FNwkSIntKey`, `NwkSEncKey` and `SNwkSIntKey`, the app
session key is the allow-list app key, the device address is the allow-list
addr key, and the three frame counters are zero.  When `http.NewRequest` builds
it, it is the last of the two requests handed to the HTTP client; when it does
not, only the create request is handed over. -/
theorem activation_request (s : DeviceService) (cs : ChirpStackService) (env : Env)
    (userID : UUID) (req : CreateDeviceRequest) (w : World) (user : User) (a : AllowedDevice)
    (hs : s.chirpStackService = some cs) (hen : cs.IsEnabled = true)
    (hrel : ∀ n, env.dbFault n = none)
    (hfresh : ∀ n, ∀ d ∈ w.db.devices, d.ID ≠ env.genID n)
    (hu : (UserRepository.GetUserByID env userID.String w).1 = .ok user)
    (happ : user.ApplicationID ≠ none) (hprof : user.DeviceProfileID ≠ none)
    (ha : w.db.allowed_devices.find? (fun a => a.DevEUI == req.DevEUI) = some a)
    (hver : ∃ v ∈ w.db.device_versions, v.ID = req.VersionID)
    (hcreate : (env.http w.requests.length (cs.buildRequest "POST" "/devices"
        (.device { Device :=
          { ApplicationID := user.ApplicationID.getD "", Description := req.Name,
            DevEUI := req.DevEUI, DeviceProfileID := user.DeviceProfileID.getD "",
            IsDisabled := false, JoinEUI := "0000000000000000", Name := req.Name,
            SkipFcntCheck := true, Tags := [], Variables := [] } }))).ok = true) :
    a ∈ w.db.allowed_devices ∧ a.DevEUI = req.DevEUI
      ∧ cs.buildRequest "POST" ("/devices/" ++ req.DevEUI ++ "/activate")
            (.activation (DeviceService.activateDeviceRequest a))
          = { method := "POST",
              url := cs.getBaseURL ++ ("/devices/" ++ req.DevEUI ++ "/activate"),
              contentType := "application/json",
              authorization := "Bearer " ++ cs.config.ChirpStackToken,
              body := .activation { DeviceActivation :=
                { AFCntDown := 0, AppSKey := a.AppKey, DevAddr := a.AddrKey, FCntUp := 0,
                  FNwkSIntKey := a.NwkKey, NFCntDown := 0, NwkSEncKey := a.NwkKey,
                  SNwkSIntKey := a.NwkKey } } }
      ∧ ((env.http (w.requests.length + 1)
            (cs.buildRequest "POST" ("/devices/" ++ req.DevEUI ++ "/activate")
              (.activation (DeviceService.activateDeviceRequest a)))).built = true →
          (s.CreateDevice env userID req w).2.requests.getLast?
              = some (cs.buildRequest "POST" ("/devices/" ++ req.DevEUI ++ "/activate")
                  (.activation (DeviceService.activateDeviceRequest a)))
            ∧ (s.CreateDevice env userID req w).2.requests.length = w.requests.length + 2)
      ∧ ((env.http (w.requests.length + 1)
            (cs.buildRequest "POST" ("/devices/" ++ req.DevEUI ++ "/activate")
              (.activation (DeviceService.activateDeviceRequest a)))).built = false →
          (s.CreateDevice env userID req w).2.requests.length = w.requests.length + 1
            ∧ ∀ r ∈ (s.CreateDevice env userID req w).2.requests,
                r ∈ w.requests ∨ r.url = cs.getBaseURL ++ "/devices") := by
  have hlog := DeviceService.CreateDevice_requests_of_enabled s cs env userID req w user a hs
    hen hrel hfresh hu happ hprof ha hver
  rw [if_pos hcreate] at hlog
  refine ⟨List.mem_of_find?_eq_some ha, by simpa using List.find?_some ha, rfl, ?_, ?_⟩
  · intro hb
    rw [if_pos hb] at hlog
    rw [hlog]
    simp
  · intro hb
    rw [if_neg (by simp [hb])] at hlog
    rw [hlog]
    refine ⟨by simp, ?_⟩
    intro r hr
    rcases List.mem_append.mp hr with h | h
    · exact Or.inl h
    · rw [List.mem_singleton.mp h]
      exact Or.inr rfl

/-- Witness of C24 (amended): the sample store, platform answering. -/
theorem activation_request_witness :
    (DeviceService.CreateDevice ⟨some sampleGateway⟩ sampleEnv ⟨"u1"⟩ sampleReq
        sampleWorld).2.requests.getLast?
      = some
          { method := "POST",
            url := "http://h:8090/api/devices/C5EABC521E8304EE/activate",
            contentType := "application/json", authorization := "Bearer tok",
            body := .activation { DeviceActivation :=
              { AFCntDown := 0, AppSKey := sampleAllowed.AppKey,
                DevAddr := sampleAllowed.AddrKey, FCntUp := 0,
                FNwkSIntKey := sampleAllowed.NwkKey, NFCntDown := 0,
                NwkSEncKey := sampleAllowed.NwkKey, SNwkSIntKey := sampleAllowed.NwkKey } } } :=
  ((activation_request ⟨some sampleGateway⟩ sampleGateway sampleEnv ⟨"u1"⟩ sampleReq
    sampleWorld sampleUser sampleAllowed rfl rfl (fun _ => rfl)
    (fun _ d hd => absurd hd (List.not_mem_nil d)) rfl (by decide) (by decide) rfl
    ⟨sampleVersion, by decide, rfl⟩ rfl).2.2.2.1 rfl).1


/-! ## A device whose activation failed -/

/-- The outcome of `CreateDevice` when the platform fails the create call or
the activate call: the persisted row, both progress booleans false. -/
theorem DeviceService.CreateDevice_of_remote_failure (s : DeviceService) (cs : ChirpStackService) (env : Env)
    (userID : UUID) (req : CreateDeviceRequest) (w : World) (user : User) (a : AllowedDevice)
    (hs : s.chirpStackService = some cs) (hen : cs.IsEnabled = true)
    (hrel : ∀ n, env.dbFault n = none)
    (hfresh : ∀ n, ∀ d ∈ w.db.devices, d.ID ≠ env.genID n)
    (hu : (UserRepository.GetUserByID env userID.String w).1 = .ok user)
    (happ : user.ApplicationID ≠ none) (hprof : user.DeviceProfileID ≠ none)
    (ha : w.db.allowed_devices.find? (fun a => a.DevEUI == req.DevEUI) = some a)
    (hver : ∃ v ∈ w.db.device_versions, v.ID = req.VersionID)
    (hfail :
      (∀ dev : Device, dev.Name = req.Name → dev.DevEUI = req.DevEUI →
        (env.http w.requests.length (cs.buildRequest "POST" "/devices"
          (.device (DeviceService.createDeviceRequest dev user)))).ok = false)
      ∨ (env.http (w.requests.length + 1)
          (cs.buildRequest "POST" ("/devices/" ++ req.DevEUI ++ "/activate")
            (.activation (DeviceService.activateDeviceRequest a)))).ok = false) :
    ∃ row : Device,
      (s.CreateDevice env userID req w).2.db.devices = w.db.devices ++ [row]
      ∧ row.Name = req.Name ∧ row.DevEUI = req.DevEUI ∧ row.UserID = userID
      ∧ row.ChirpStackDeviceCreated = false ∧ row.ChirpStackDeviceActivated = false
      ∧ (s.CreateDevice env userID req w).1
          = .ok { row with
                    Version := w.db.device_versions.find? (fun v => v.ID == req.VersionID) }
      ∧ row.ID = env.genID (w.stmts + 3) ∧ row.VersionID = req.VersionID
      ∧ (s.CreateDevice env userID req w).2.db.device_versions = w.db.device_versions := by
  obtain ⟨device1, w4, hid, hname, heui, hdev, -, hvers, -, hreqs, hrun⟩ :=
    DeviceService.CreateDevice_local_leg s env userID req w user a hrel hfresh hu happ hprof
      ha hver
  have hfail4 :
      (env.http w4.requests.length (cs.buildRequest "POST" "/devices"
          (.device (DeviceService.createDeviceRequest device1 user)))).ok = false
      ∨ (env.http (w4.requests.length + 1)
          (cs.buildRequest "POST" ("/devices/" ++ device1.DevEUI ++ "/activate")
            (.activation (DeviceService.activateDeviceRequest a)))).ok = false := by
    rw [hreqs, heui]
    exact hfail.imp (fun h => h device1 hname heui) id
  obtain ⟨err, herr, hdb, hstmts⟩ :=
    DeviceService.createChirpStackDevice_of_failure cs env device1 user a w4 hfail4
  simp only [hs, hen, if_true] at hrun
  rcases hccd : DeviceService.createChirpStackDevice cs env device1 user a w4 with ⟨r, w5⟩
  rw [hccd] at hrun herr hdb hstmts
  simp only at herr hdb hstmts
  subst herr
  simp only at hrun
  refine ⟨{ ID := env.genID (w.stmts + 3), UserID := userID, VersionID := req.VersionID,
            Name := req.Name, DevEUI := req.DevEUI, Description := req.Description,
            ChirpStackDeviceCreated := false, ChirpStackDeviceActivated := false,
            IsActive := env.isActiveDefault, CreatedAt := env.now (w.stmts + 3),
            UpdatedAt := env.now (w.stmts + 3), Version := none, User := none },
          ?_, rfl, rfl, rfl, rfl, rfl, ?_, rfl, rfl, ?_⟩
  · rw [hrun, DeviceRepository.GetDeviceByID_snd, World.tick_db, World.print_db, hdb, hdev]
  rotate_left
  · rw [hrun, DeviceRepository.GetDeviceByID_snd, World.tick_db, World.print_db, hdb, hvers]
  · obtain ⟨v, hv, -⟩ := find?_some_of_mem (fun v : DeviceVersion => v.ID == req.VersionID) _
      (by obtain ⟨v, hv, h⟩ := hver; exact ⟨v, hv, by simp [h]⟩)
    rw [hrun, DeviceRepository.GetDeviceByID_fst_of_find env _ _ _ v (hrel _)
      (by rw [World.print_db, hdb, hdev]; exact find?_append_fresh _ _ _ rfl (hfresh _))
      (by rw [World.print_db, hdb, hvers]; exact hv), hv]

/-- Deleting a device whose stored `ChirpStackDeviceCreated` flag is false
(store working): the local rows with the id are removed and no request is
handed to the platform, whatever the gateway configuration. -/
theorem DeviceService.DeleteDevice_of_unflagged (s : DeviceService) (env : Env) (id : UUID)
    (w : World) (d : Device) (v : DeviceVersion) (hrel : ∀ n, env.dbFault n = none)
    (hfind : w.db.devices.find? (fun d => d.ID == id) = some d)
    (hv : w.db.device_versions.find? (fun v => v.ID == d.VersionID) = some v)
    (hflag : d.ChirpStackDeviceCreated = false) :
    (s.DeleteDevice env id w).1 = none
      ∧ (s.DeleteDevice env id w).2.db
          = { w.db with devices := w.db.devices.filter (fun d => !(d.ID == id)) }
      ∧ (s.DeleteDevice env id w).2.requests = w.requests := by
  have hget : DeviceRepository.GetDeviceByID env id w
      = (.ok { d with Version := some v }, w.tick) :=
    Prod.ext (DeviceRepository.GetDeviceByID_fst_of_find env id w d v (hrel _) hfind hv)
      (DeviceRepository.GetDeviceByID_snd env id w)
  obtain ⟨hdb, -, hrq⟩ := DeviceService.DeleteDevice_remote_block s.chirpStackService env
    { d with Version := some v } w.tick
  have hrq2 := hrq.trans (show _ = w.requests from by
    cases s.chirpStackService <;> simp [hflag, World.tick])
  have hmem : ∃ x ∈ w.db.devices, x.ID = id :=
    ⟨d, List.mem_of_find?_eq_some hfind, by simpa using List.find?_some hfind⟩
  simp only [DeviceService.DeleteDevice, hget]
  obtain ⟨h1, h2, h3⟩ := DeviceRepository.DeleteDevice_of_mem env id _ (hrel _)
    (by rw [hdb]; exact hmem)
  rw [hdb] at h2
  exact ⟨h1, h2, h3.trans hrq2⟩

theorem filter_out_appended (l : List Device) (row : Device)
    (hfresh : ∀ d ∈ l, d.ID ≠ row.ID) :
    (l ++ [row]).filter (fun d => !(d.ID == row.ID)) = l := by
  have hl : l.filter (fun d => !(d.ID == row.ID)) = l := by
    rw [List.filter_eq_self]
    intro d hd
    simpa using hfresh d hd
  rw [List.filter_append, hl]
  simp

/-- C30: with the platform integration enabled and the local gates passed
(store working), if the platform accepts the create-device request and the
activate-device call fails, the stored row keeps both progress booleans false
although the create request was sent (and the activate request too, unless
`http.NewRequest` could not build it); a subsequent `DeleteDevice` of that
device succeeds, removes the row and hands no request to the platform. -/
theorem activate_failure_then_delete (s : DeviceService) (cs : ChirpStackService) (env : Env)
    (userID : UUID) (req : CreateDeviceRequest) (w : World) (user : User) (a : AllowedDevice)
    (hs : s.chirpStackService = some cs) (hen : cs.IsEnabled = true)
    (hrel : ∀ n, env.dbFault n = none)
    (hfresh : ∀ n, ∀ d ∈ w.db.devices, d.ID ≠ env.genID n)
    (hu : (UserRepository.GetUserByID env userID.String w).1 = .ok user)
    (happ : user.ApplicationID ≠ none) (hprof : user.DeviceProfileID ≠ none)
    (ha : w.db.allowed_devices.find? (fun a => a.DevEUI == req.DevEUI) = some a)
    (hver : ∃ v ∈ w.db.device_versions, v.ID = req.VersionID)
    (hcreate : (env.http w.requests.length (cs.buildRequest "POST" "/devices"
        (.device { Device :=
          { ApplicationID := user.ApplicationID.getD "", Description := req.Name,
            DevEUI := req.DevEUI, DeviceProfileID := user.DeviceProfileID.getD "",
            IsDisabled := false, JoinEUI := "0000000000000000", Name := req.Name,
            SkipFcntCheck := true, Tags := [], Variables := [] } }))).ok = true)
    (hact : (env.http (w.requests.length + 1)
        (cs.buildRequest "POST" ("/devices/" ++ req.DevEUI ++ "/activate")
          (.activation (DeviceService.activateDeviceRequest a)))).ok = false) :
    ∃ row : Device,
      (s.CreateDevice env userID req w).2.db.devices = w.db.devices ++ [row]
      ∧ row.DevEUI = req.DevEUI
      ∧ row.ChirpStackDeviceCreated = false ∧ row.ChirpStackDeviceActivated = false
      ∧ (s.CreateDevice env userID req w).2.requests.length
          = w.requests.length +
              (if (env.http (w.requests.length + 1)
                    (cs.buildRequest "POST" ("/devices/" ++ req.DevEUI ++ "/activate")
                      (.activation (DeviceService.activateDeviceRequest a)))).built = true
               then 2 else 1)
      ∧ (s.DeleteDevice env row.ID (s.CreateDevice env userID req w).2).1 = none
      ∧ (s.DeleteDevice env row.ID (s.CreateDevice env userID req w).2).2.db.devices
          = w.db.devices
      ∧ (s.DeleteDevice env row.ID (s.CreateDevice env userID req w).2).2.requests
          = (s.CreateDevice env userID req w).2.requests := by
  obtain ⟨row, hdevs, -, heui, -, hc, hact2, -, hid, hrv, hvers⟩ :=
    DeviceService.CreateDevice_of_remote_failure s cs env userID req w user a hs hen hrel
      hfresh hu happ hprof ha hver (Or.inr hact)
  obtain ⟨v, hv, -⟩ := find?_some_of_mem (fun v : DeviceVersion => v.ID == req.VersionID) _
    (by obtain ⟨v, hv, h⟩ := hver; exact ⟨v, hv, by simp [h]⟩)
  have hlog := DeviceService.CreateDevice_requests_of_enabled s cs env userID req w user a hs
    hen hrel hfresh hu happ hprof ha hver
  rw [if_pos hcreate] at hlog
  have hfr : ∀ d ∈ w.db.devices, d.ID ≠ row.ID := by
    intro d hd
    rw [hid]
    exact hfresh _ d hd
  have hfind : (s.CreateDevice env userID req w).2.db.devices.find?
      (fun d => d.ID == row.ID) = some row := by
    rw [hdevs]
    exact find?_append_fresh _ row row.ID rfl hfr
  obtain ⟨h1, h2, h3⟩ := DeviceService.DeleteDevice_of_unflagged s env row.ID
    (s.CreateDevice env userID req w).2 row v hrel hfind (by rw [hvers, hrv]; exact hv) hc
  refine ⟨row, hdevs, heui, hc, hact2, ?_, h1, ?_, h3⟩
  · rw [hlog]
    split <;> simp
  · rw [h2]
    simp only
    rw [hdevs]
    exact filter_out_appended _ row hfr

/-- Witness of C30: the sample store with a platform that accepts the create
request and refuses the activation. -/
theorem activate_failure_then_delete_witness :
    sampleGateway.IsEnabled = true
      ∧ ∃ row : Device,
        (DeviceService.CreateDevice ⟨some sampleGateway⟩ sampleEnvNoActivate ⟨"u1"⟩ sampleReq
            sampleWorld).2.db.devices = sampleWorld.db.devices ++ [row]
        ∧ row.ChirpStackDeviceCreated = false
        ∧ (DeviceService.DeleteDevice ⟨some sampleGateway⟩ sampleEnvNoActivate row.ID
            (DeviceService.CreateDevice ⟨some sampleGateway⟩ sampleEnvNoActivate ⟨"u1"⟩
              sampleReq sampleWorld).2).2.requests
            = (DeviceService.CreateDevice ⟨some sampleGateway⟩ sampleEnvNoActivate ⟨"u1"⟩
                sampleReq sampleWorld).2.requests :=
  have h := activate_failure_then_delete ⟨some sampleGateway⟩ sampleGateway
    sampleEnvNoActivate ⟨"u1"⟩ sampleReq sampleWorld sampleUser sampleAllowed rfl rfl
    (fun _ => rfl) (fun _ d hd => absurd hd (List.not_mem_nil d)) rfl (by decide) (by decide)
    rfl ⟨sampleVersion, by decide, rfl⟩ rfl rfl
  ⟨rfl, h.elim fun row hrow => ⟨row, hrow.1, hrow.2.2.1, hrow.2.2.2.2.2.2.2⟩⟩


/-! ## The UPDATE statements -/

theorem specUpdateStatement_args (table keyColumn : String)
    (fields : List (String × Option SqlArg)) (key : SqlArg) :
    (specUpdateStatement table keyColumn fields key).2.length
        = (fields.filter (fun f => f.2.isSome)).length + 1
      ∧ (specUpdateStatement table keyColumn fields key).2.getLast? = some key
      ∧ (specUpdateStatement table keyColumn fields key).2.dropLast
          = fields.filterMap (fun f => f.2) := by
  have hlen : ∀ l : List (String × Option SqlArg),
      (l.filterMap (fun f => f.2.map (fun v => (f.1, v)))).length
        = (l.filter (fun f => f.2.isSome)).length := by
    intro l
    induction l with
    | nil => rfl
    | cons x t ih =>
      rcases x with ⟨c, v⟩
      cases v <;> simp [List.filterMap_cons, List.filter_cons, ih]
  have hmap : ∀ l : List (String × Option SqlArg),
      (l.filterMap (fun f => f.2.map (fun v => (f.1, v)))).map Prod.snd
        = l.filterMap (fun f => f.2) := by
    intro l
    induction l with
    | nil => rfl
    | cons x t ih =>
      rcases x with ⟨c, v⟩
      cases v <;> simp [List.filterMap_cons, ih]
  refine ⟨?_, ?_, ?_⟩
  · simp [specUpdateStatement, hlen]
  · simp [specUpdateStatement]
  · simp [specUpdateStatement, hmap]

theorem append_where_clause (X a b c t lit : String) (h : a ++ b ++ c = lit) :
    X ++ lit ++ t = X ++ a ++ b ++ c ++ t := by
  subst h
  simp only [String.append_assoc]

theorem updateStatement_eq_spec :
    (∀ (id : UUID) (req : UpdateDeviceRequest),
        DeviceRepository.updateDeviceStatement id req
          = specUpdateStatement "devices" "id"
              [("name", req.Name.map SqlArg.text), ("version_id", req.VersionID.map SqlArg.uuid),
               ("description", req.Description.map SqlArg.text),
               ("is_active", req.IsActive.map SqlArg.bool)] (.uuid id))
      ∧ (∀ (id : UUID) (req : UpdateDeviceVersionRequest),
        DeviceRepository.updateDeviceVersionStatement id req
          = specUpdateStatement "device_versions" "id"
              [("name", req.Name.map SqlArg.text), ("version", req.Version.map SqlArg.text),
               ("description", req.Description.map SqlArg.text)] (.uuid id))
      ∧ (∀ (devEUI : String) (req : UpdateAllowedDeviceRequest),
        DeviceRepository.updateAllowedDeviceStatement devEUI req
          = specUpdateStatement "allowed_devices" "dev_eui"
              [("nwk_key", req.NwkKey.map SqlArg.text), ("app_key", req.AppKey.map SqlArg.text),
               ("addr_key", req.AddrKey.map SqlArg.text),
               ("description", req.Description.map SqlArg.text)] (.text devEUI)) := by
  refine ⟨?_, ?_, ?_⟩
  · intro id req
    rcases req with ⟨n, v, d, a⟩
    cases n <;> cases v <;> cases d <;> cases a <;>
      simp [DeviceRepository.updateDeviceStatement, DeviceRepository.updateDeviceParts,
        addSetPart, specUpdateStatement, List.enum, List.enumFrom] <;>
      exact append_where_clause _ _ _ _ _ _ (by decide)
  · intro id req
    rcases req with ⟨n, v, d⟩
    cases n <;> cases v <;> cases d <;>
      simp [DeviceRepository.updateDeviceVersionStatement,
        DeviceRepository.updateDeviceVersionParts, addSetPart, specUpdateStatement, List.enum,
        List.enumFrom] <;>
      exact append_where_clause _ _ _ _ _ _ (by decide)
  · intro devEUI req
    rcases req with ⟨n, v, d, a⟩
    cases n <;> cases v <;> cases d <;> cases a <;>
      simp [DeviceRepository.updateAllowedDeviceStatement,
        DeviceRepository.updateAllowedDeviceParts, addSetPart, specUpdateStatement, List.enum,
        List.enumFrom] <;>
      exact append_where_clause _ _ _ _ _ _ (by decide)

/-- C29: for every update request the statement text and the argument list
built by `UpdateDevice`, `UpdateDeviceVersion` and `UpdateAllowedDevice` are
the ones the specification describes: the k supplied columns, in
field-declaration order, assigned to $1..$k, then `updated_at`, the row key
bound to $(k+1) in the `WHERE` clause, and k+1 arguments, the supplied values
in the same order with the key last. -/
theorem update_statement_placeholders :
    (∀ (id : UUID) (req : UpdateDeviceRequest),
        DeviceRepository.updateDeviceStatement id req
          = specUpdateStatement "devices" "id"
              [("name", req.Name.map SqlArg.text), ("version_id", req.VersionID.map SqlArg.uuid),
               ("description", req.Description.map SqlArg.text),
               ("is_active", req.IsActive.map SqlArg.bool)] (.uuid id))
      ∧ (∀ (id : UUID) (req : UpdateDeviceVersionRequest),
        DeviceRepository.updateDeviceVersionStatement id req
          = specUpdateStatement "device_versions" "id"
              [("name", req.Name.map SqlArg.text), ("version", req.Version.map SqlArg.text),
               ("description", req.Description.map SqlArg.text)] (.uuid id))
      ∧ (∀ (devEUI : String) (req : UpdateAllowedDeviceRequest),
        DeviceRepository.updateAllowedDeviceStatement devEUI req
          = specUpdateStatement "allowed_devices" "dev_eui"
              [("nwk_key", req.NwkKey.map SqlArg.text), ("app_key", req.AppKey.map SqlArg.text),
               ("addr_key", req.AddrKey.map SqlArg.text),
               ("description", req.Description.map SqlArg.text)] (.text devEUI))
      ∧ (∀ (id : UUID) (req : UpdateDeviceRequest),
          (DeviceRepository.updateDeviceStatement id req).2.length
              = ([req.Name.isSome, req.VersionID.isSome, req.Description.isSome,
                  req.IsActive.isSome].filter (fun b => b)).length + 1
            ∧ (DeviceRepository.updateDeviceStatement id req).2.getLast? = some (.uuid id))
      ∧ (∀ (id : UUID) (req : UpdateDeviceVersionRequest),
          (DeviceRepository.updateDeviceVersionStatement id req).2.length
              = ([req.Name.isSome, req.Version.isSome, req.Description.isSome].filter
                  (fun b => b)).length + 1
            ∧ (DeviceRepository.updateDeviceVersionStatement id req).2.getLast?
                = some (.uuid id))
      ∧ (∀ (devEUI : String) (req : UpdateAllowedDeviceRequest),
          (DeviceRepository.updateAllowedDeviceStatement devEUI req).2.length
              = ([req.NwkKey.isSome, req.AppKey.isSome, req.AddrKey.isSome,
                  req.Description.isSome].filter (fun b => b)).length + 1
            ∧ (DeviceRepository.updateAllowedDeviceStatement devEUI req).2.getLast?
                = some (.text devEUI)) := by
  obtain ⟨h1, h2, h3⟩ := updateStatement_eq_spec
  refine ⟨h1, h2, h3, ?_, ?_, ?_⟩
  · intro id req
    rw [h1]
    refine ⟨?_, (specUpdateStatement_args _ _ _ _).2.1⟩
    rw [(specUpdateStatement_args _ _ _ _).1]
    rcases req with ⟨n, v, d, a⟩
    cases n <;> cases v <;> cases d <;> cases a <;> rfl
  · intro id req
    rw [h2]
    refine ⟨?_, (specUpdateStatement_args _ _ _ _).2.1⟩
    rw [(specUpdateStatement_args _ _ _ _).1]
    rcases req with ⟨n, v, d⟩
    cases n <;> cases v <;> cases d <;> rfl
  · intro devEUI req
    rw [h3]
    refine ⟨?_, (specUpdateStatement_args _ _ _ _).2.1⟩
    rw [(specUpdateStatement_args _ _ _ _).1]
    rcases req with ⟨n, v, d, a⟩
    cases n <;> cases v <;> cases d <;> cases a <;> rfl


/-! ## Partial updates: what changes and what does not -/

theorem DeviceRepository.UpdateDevice_store_of_ok (env : Env) (id : UUID) (req : UpdateDeviceRequest)
    (w : World) (h : (DeviceRepository.UpdateDevice env id req w).1 = none) :
    (DeviceRepository.UpdateDevice env id req w).2.db
        = { w.db with devices := w.db.devices.map (fun d =>
              if d.ID == id then
                { d with Name := req.Name.getD d.Name,
                         VersionID := req.VersionID.getD d.VersionID,
                         Description := (match req.Description with
                           | some x => some x
                           | none => d.Description),
                         IsActive := req.IsActive.getD d.IsActive,
                         UpdatedAt := env.now w.stmts }
              else d) }
      ∧ (∃ d ∈ w.db.devices, d.ID = id)
      ∧ (DeviceRepository.updateDeviceParts req).1.length ≠ 0 := by
  unfold DeviceRepository.UpdateDevice at h ⊢
  by_cases hp : (DeviceRepository.updateDeviceParts req).1.length = 0
  · rw [if_pos hp] at h
    simp at h
  · rw [if_neg hp] at h ⊢
    cases hf : env.dbFault w.stmts with
    | some err => simp [hf] at h
    | none =>
      simp only [hf] at h ⊢
      by_cases hz : (w.db.devices.filter (fun d => d.ID == id)).length = 0
      · rw [if_pos hz] at h
        simp at h
      · rw [if_neg hz]
        refine ⟨rfl, ?_, hp⟩
        obtain ⟨d, hd⟩ := List.exists_mem_of_length_pos (Nat.pos_of_ne_zero hz)
        rw [List.mem_filter] at hd
        exact ⟨d, hd.1, by simpa using hd.2⟩

theorem DeviceRepository.UpdateDeviceVersion_store_of_ok (env : Env) (id : UUID)
    (req : UpdateDeviceVersionRequest) (w : World)
    (h : (DeviceRepository.UpdateDeviceVersion env id req w).1 = none) :
    (DeviceRepository.UpdateDeviceVersion env id req w).2.db
        = { w.db with device_versions := w.db.device_versions.map (fun v =>
              if v.ID == id then
                { v with Name := req.Name.getD v.Name, Version := req.Version.getD v.Version,
                         Description := (match req.Description with
                           | some x => some x
                           | none => v.Description),
                         UpdatedAt := env.now w.stmts }
              else v) }
      ∧ (∃ v ∈ w.db.device_versions, v.ID = id)
      ∧ (DeviceRepository.updateDeviceVersionParts req).1.length ≠ 0 := by
  unfold DeviceRepository.UpdateDeviceVersion at h ⊢
  by_cases hp : (DeviceRepository.updateDeviceVersionParts req).1.length = 0
  · rw [if_pos hp] at h
    simp at h
  · rw [if_neg hp] at h ⊢
    cases hf : env.dbFault w.stmts with
    | some err => simp [hf] at h
    | none =>
      simp only [hf] at h ⊢
      by_cases hz : (w.db.device_versions.filter (fun v => v.ID == id)).length = 0
      · rw [if_pos hz] at h
        simp at h
      · rw [if_neg hz]
        refine ⟨rfl, ?_, hp⟩
        obtain ⟨d, hd⟩ := List.exists_mem_of_length_pos (Nat.pos_of_ne_zero hz)
        rw [List.mem_filter] at hd
        exact ⟨d, hd.1, by simpa using hd.2⟩

theorem DeviceRepository.UpdateAllowedDevice_store_of_ok (env : Env) (devEUI : String)
    (req : UpdateAllowedDeviceRequest) (w : World)
    (h : (DeviceRepository.UpdateAllowedDevice env devEUI req w).1 = none) :
    (DeviceRepository.UpdateAllowedDevice env devEUI req w).2.db
        = { w.db with allowed_devices := w.db.allowed_devices.map (fun a =>
              if a.DevEUI == devEUI then
                { a with NwkKey := req.NwkKey.getD a.NwkKey, AppKey := req.AppKey.getD a.AppKey,
                         AddrKey := req.AddrKey.getD a.AddrKey,
                         Description := (match req.Description with
                           | some x => some x
                           | none => a.Description),
                         UpdatedAt := env.now w.stmts }
              else a) }
      ∧ (∃ a ∈ w.db.allowed_devices, a.DevEUI = devEUI)
      ∧ (DeviceRepository.updateAllowedDeviceParts req).1.length ≠ 0 := by
  unfold DeviceRepository.UpdateAllowedDevice at h ⊢
  by_cases hp : (DeviceRepository.updateAllowedDeviceParts req).1.length = 0
  · rw [if_pos hp] at h
    simp at h
  · rw [if_neg hp] at h ⊢
    cases hf : env.dbFault w.stmts with
    | some err => simp [hf] at h
    | none =>
      simp only [hf] at h ⊢
      by_cases hz : (w.db.allowed_devices.filter (fun a => a.DevEUI == devEUI)).length = 0
      · rw [if_pos hz] at h
        simp at h
      · rw [if_neg hz]
        refine ⟨rfl, ?_, hp⟩
        obtain ⟨d, hd⟩ := List.exists_mem_of_length_pos (Nat.pos_of_ne_zero hz)
        rw [List.mem_filter] at hd
        exact ⟨d, hd.1, by simpa using hd.2⟩

/-- The service-level `UpdateDevice` that succeeded: the version lookup, when
there was one, left the store as it was, and the repository update ran; the
update timestamp is the store clock at the UPDATE statement. -/
theorem DeviceService.UpdateDevice_of_ok (s : DeviceService) (env : Env) (id : UUID)
    (req : UpdateDeviceRequest) (w : World) (h : (s.UpdateDevice env id req w).1 = none) :
    (s.UpdateDevice env id req w).2.db
        = { w.db with devices := w.db.devices.map (fun d =>
              if d.ID == id then
                { d with Name := req.Name.getD d.Name,
                         VersionID := req.VersionID.getD d.VersionID,
                         Description := (match req.Description with
                           | some x => some x
                           | none => d.Description),
                         IsActive := req.IsActive.getD d.IsActive,
                         UpdatedAt := env.now (w.stmts + (if req.VersionID.isSome then 1 else 0)) }
              else d) }
      ∧ (∃ d ∈ w.db.devices, d.ID = id)
      ∧ (req.VersionID = none ∨ ∃ v ∈ w.db.device_versions, some v.ID = req.VersionID) := by
  unfold DeviceService.UpdateDevice at h ⊢
  cases hv : req.VersionID with
  | none =>
    simp only [hv] at h ⊢
    obtain ⟨h1, h2, -⟩ := DeviceRepository.UpdateDevice_store_of_ok env id req w h
    refine ⟨?_, h2, Or.inl trivial⟩
    rw [h1, hv]
    rfl
  | some versionID =>
    simp only [hv] at h ⊢
    have hs := DeviceRepository.GetDeviceVersionByID_snd env versionID w
    rcases hg : DeviceRepository.GetDeviceVersionByID env versionID w with ⟨r, w1⟩
    rw [hg] at h hs
    simp only at hs
    subst hs
    cases r with
    | error err => simp at h
    | ok ver =>
      simp only at h ⊢
      obtain ⟨h1, h2, -⟩ := DeviceRepository.UpdateDevice_store_of_ok env id req w.tick h
      refine ⟨?_, h2, Or.inr ?_⟩
      · rw [h1, hv]
        rfl
      · unfold DeviceRepository.GetDeviceVersionByID at hg
        cases hf : env.dbFault w.stmts with
        | some e => simp [hf] at hg
        | none =>
          cases hfind : w.db.device_versions.find? (fun v => v.ID == versionID) with
          | none => simp [hf, hfind] at hg
          | some v0 =>
            refine ⟨v0, List.mem_of_find?_eq_some hfind, ?_⟩
            have := List.find?_some hfind
            simp only [beq_iff_eq] at this
            rw [this]

theorem filter_length_ne_zero_of_mem {α : Type} (p : α → Bool) (l : List α)
    (h : ∃ a ∈ l, p a = true) : (l.filter p).length ≠ 0 := by
  obtain ⟨a, ha, hpa⟩ := h
  have hmem : a ∈ l.filter p := List.mem_filter.mpr ⟨ha, hpa⟩
  intro h0
  rw [List.length_eq_zero] at h0
  rw [h0] at hmem
  exact absurd hmem (List.not_mem_nil a)

/-- The repository `UpdateDevice` succeeds when the statement is not faulted,
some field is supplied and the target row exists. -/
theorem DeviceRepository.UpdateDevice_store_succeeds (env : Env) (id : UUID)
    (req : UpdateDeviceRequest) (w : World) (hf : env.dbFault w.stmts = none)
    (hk : req.Name ≠ none ∨ req.VersionID ≠ none ∨ req.Description ≠ none
      ∨ req.IsActive ≠ none)
    (hex : ∃ d ∈ w.db.devices, d.ID = id) :
    (DeviceRepository.UpdateDevice env id req w).1 = none := by
  have hp : (DeviceRepository.updateDeviceParts req).1.length ≠ 0 := by
    obtain ⟨n, v, d, a⟩ := req
    cases n <;> cases v <;> cases d <;> cases a <;>
      simp [DeviceRepository.updateDeviceParts, addSetPart] at hk ⊢
  have hz := filter_length_ne_zero_of_mem (fun d : Device => d.ID == id) w.db.devices
    (by obtain ⟨d, hd, h⟩ := hex; exact ⟨d, hd, by simp [h]⟩)
  unfold DeviceRepository.UpdateDevice
  rw [if_neg hp]
  simp only [hf]
  rw [if_neg hz]

/-- The repository `UpdateDeviceVersion` succeeds when the statement is not
faulted, some field is supplied and the target row exists. -/
theorem DeviceRepository.UpdateDeviceVersion_store_succeeds (env : Env) (id : UUID)
    (req : UpdateDeviceVersionRequest) (w : World) (hf : env.dbFault w.stmts = none)
    (hk : req.Name ≠ none ∨ req.Version ≠ none ∨ req.Description ≠ none)
    (hex : ∃ v ∈ w.db.device_versions, v.ID = id) :
    (DeviceRepository.UpdateDeviceVersion env id req w).1 = none := by
  have hp : (DeviceRepository.updateDeviceVersionParts req).1.length ≠ 0 := by
    obtain ⟨n, v, d⟩ := req
    cases n <;> cases v <;> cases d <;>
      simp [DeviceRepository.updateDeviceVersionParts, addSetPart] at hk ⊢
  have hz := filter_length_ne_zero_of_mem (fun v : DeviceVersion => v.ID == id)
    w.db.device_versions (by obtain ⟨d, hd, h⟩ := hex; exact ⟨d, hd, by simp [h]⟩)
  unfold DeviceRepository.UpdateDeviceVersion
  rw [if_neg hp]
  simp only [hf]
  rw [if_neg hz]

/-- The repository `UpdateAllowedDevice` succeeds when the statement is not
faulted, some field is supplied and the target row exists. -/
theorem DeviceRepository.UpdateAllowedDevice_store_succeeds (env : Env) (devEUI : String)
    (req : UpdateAllowedDeviceRequest) (w : World) (hf : env.dbFault w.stmts = none)
    (hk : req.NwkKey ≠ none ∨ req.AppKey ≠ none ∨ req.AddrKey ≠ none
      ∨ req.Description ≠ none)
    (hex : ∃ a ∈ w.db.allowed_devices, a.DevEUI = devEUI) :
    (DeviceRepository.UpdateAllowedDevice env devEUI req w).1 = none := by
  have hp : (DeviceRepository.updateAllowedDeviceParts req).1.length ≠ 0 := by
    obtain ⟨n, v, d, a⟩ := req
    cases n <;> cases v <;> cases d <;> cases a <;>
      simp [DeviceRepository.updateAllowedDeviceParts, addSetPart] at hk ⊢
  have hz := filter_length_ne_zero_of_mem (fun a : AllowedDevice => a.DevEUI == devEUI)
    w.db.allowed_devices (by obtain ⟨d, hd, h⟩ := hex; exact ⟨d, hd, by simp [h]⟩)
  unfold DeviceRepository.UpdateAllowedDevice
  rw [if_neg hp]
  simp only [hf]
  rw [if_neg hz]

/-- The service-level `UpdateDevice` succeeds when the store works, some field
is supplied, the target row exists and a supplied version id names a version
row. -/
theorem DeviceService.UpdateDevice_succeeds (s : DeviceService) (env : Env) (id : UUID)
    (req : UpdateDeviceRequest) (w : World) (hrel : ∀ n, env.dbFault n = none)
    (hk : req.Name ≠ none ∨ req.VersionID ≠ none ∨ req.Description ≠ none
      ∨ req.IsActive ≠ none)
    (hex : ∃ d ∈ w.db.devices, d.ID = id)
    (hver : ∀ vid, req.VersionID = some vid → ∃ v ∈ w.db.device_versions, v.ID = vid) :
    (s.UpdateDevice env id req w).1 = none := by
  unfold DeviceService.UpdateDevice
  cases hv : req.VersionID with
  | none => exact DeviceRepository.UpdateDevice_store_succeeds env id req w (hrel _) hk hex
  | some vid =>
    simp only
    obtain ⟨v, hv1, -⟩ := find?_some_of_mem (fun v : DeviceVersion => v.ID == vid) _
      (by obtain ⟨v, hv1, h⟩ := hver vid hv; exact ⟨v, hv1, by simp [h]⟩)
    rw [DeviceRepository.GetDeviceVersionByID_of_find env vid w v (hrel _) hv1]
    exact DeviceRepository.UpdateDevice_store_succeeds env id req w.tick (hrel _) hk hex

/-- C28: `UpdateDevice` with at least one supplied field succeeds when the
store works, the target row exists and a supplied version id names a version
row; and whenever it succeeds it maps the device table row by row: a row with
another id is unchanged; on a row with the target id each of name, version id,
description and is_active takes the supplied value when one is supplied and
keeps its value otherwise, the update timestamp becomes the store clock at the
UPDATE statement, and id, owner, DevEUI, both progress booleans and the
creation time are unchanged; the other tables are unchanged.  The same holds
for `UpdateDeviceVersion` (name, version, description) and
`UpdateAllowedDevice` (the three keys and the description, keyed by DevEUI). -/
theorem partial_update_frame (s : DeviceService) (env : Env) (w : World) :
    (∀ (id : UUID) (req : UpdateDeviceRequest), (∀ n, env.dbFault n = none) →
        (req.Name ≠ none ∨ req.VersionID ≠ none ∨ req.Description ≠ none
          ∨ req.IsActive ≠ none) →
        (∃ d ∈ w.db.devices, d.ID = id) →
        (∀ vid, req.VersionID = some vid → ∃ v ∈ w.db.device_versions, v.ID = vid) →
        (s.UpdateDevice env id req w).1 = none)
      ∧ (∀ (id : UUID) (req : UpdateDeviceRequest), (s.UpdateDevice env id req w).1 = none →
        (∃ d ∈ w.db.devices, d.ID = id)
          ∧ (s.UpdateDevice env id req w).2.db.users = w.db.users
          ∧ (s.UpdateDevice env id req w).2.db.device_versions = w.db.device_versions
          ∧ (s.UpdateDevice env id req w).2.db.allowed_devices = w.db.allowed_devices
          ∧ List.Forall₂
              (fun d d1 : Device =>
                (d.ID ≠ id → d1 = d)
                  ∧ (d.ID = id →
                      d1.Name = req.Name.getD d.Name
                        ∧ d1.VersionID = req.VersionID.getD d.VersionID
                        ∧ d1.Description = (match req.Description with
                            | some x => some x
                            | none => d.Description)
                        ∧ d1.IsActive = req.IsActive.getD d.IsActive
                        ∧ d1.UpdatedAt
                            = env.now (w.stmts + (if req.VersionID.isSome then 1 else 0))
                        ∧ d1.ID = d.ID ∧ d1.UserID = d.UserID ∧ d1.DevEUI = d.DevEUI
                        ∧ d1.ChirpStackDeviceCreated = d.ChirpStackDeviceCreated
                        ∧ d1.ChirpStackDeviceActivated = d.ChirpStackDeviceActivated
                        ∧ d1.CreatedAt = d.CreatedAt))
              w.db.devices (s.UpdateDevice env id req w).2.db.devices)
      ∧ (∀ (id : UUID) (req : UpdateDeviceVersionRequest), env.dbFault w.stmts = none →
          (req.Name ≠ none ∨ req.Version ≠ none ∨ req.Description ≠ none) →
          (∃ v ∈ w.db.device_versions, v.ID = id) →
          (s.UpdateDeviceVersion env id req w).1 = none)
      ∧ (∀ (id : UUID) (req : UpdateDeviceVersionRequest),
          (s.UpdateDeviceVersion env id req w).1 = none →
          (∃ v ∈ w.db.device_versions, v.ID = id)
            ∧ (s.UpdateDeviceVersion env id req w).2.db.users = w.db.users
            ∧ (s.UpdateDeviceVersion env id req w).2.db.devices = w.db.devices
            ∧ (s.UpdateDeviceVersion env id req w).2.db.allowed_devices = w.db.allowed_devices
            ∧ List.Forall₂
                (fun v v1 : DeviceVersion =>
                  (v.ID ≠ id → v1 = v)
                    ∧ (v.ID = id →
                        v1.Name = req.Name.getD v.Name
                          ∧ v1.Version = req.Version.getD v.Version
                          ∧ v1.Description = (match req.Description with
                              | some x => some x
                              | none => v.Description)
                          ∧ v1.UpdatedAt = env.now w.stmts
                          ∧ v1.ID = v.ID ∧ v1.CreatedAt = v.CreatedAt))
                w.db.device_versions (s.UpdateDeviceVersion env id req w).2.db.device_versions)
      ∧ (∀ (devEUI : String) (req : UpdateAllowedDeviceRequest), env.dbFault w.stmts = none →
          (req.NwkKey ≠ none ∨ req.AppKey ≠ none ∨ req.AddrKey ≠ none
            ∨ req.Description ≠ none) →
          (∃ a ∈ w.db.allowed_devices, a.DevEUI = devEUI) →
          (s.UpdateAllowedDevice env devEUI req w).1 = none)
      ∧ (∀ (devEUI : String) (req : UpdateAllowedDeviceRequest),
          (s.UpdateAllowedDevice env devEUI req w).1 = none →
          (∃ a ∈ w.db.allowed_devices, a.DevEUI = devEUI)
            ∧ (s.UpdateAllowedDevice env devEUI req w).2.db.users = w.db.users
            ∧ (s.UpdateAllowedDevice env devEUI req w).2.db.devices = w.db.devices
            ∧ (s.UpdateAllowedDevice env devEUI req w).2.db.device_versions
                = w.db.device_versions
            ∧ List.Forall₂
                (fun a a1 : AllowedDevice =>
                  (a.DevEUI ≠ devEUI → a1 = a)
                    ∧ (a.DevEUI = devEUI →
                        a1.NwkKey = req.NwkKey.getD a.NwkKey
                          ∧ a1.AppKey = req.AppKey.getD a.AppKey
                          ∧ a1.AddrKey = req.AddrKey.getD a.AddrKey
                          ∧ a1.Description = (match req.Description with
                              | some x => some x
                              | none => a.Description)
                          ∧ a1.UpdatedAt = env.now w.stmts
                          ∧ a1.ID = a.ID ∧ a1.DevEUI = a.DevEUI ∧ a1.CreatedAt = a.CreatedAt))
                w.db.allowed_devices
                (s.UpdateAllowedDevice env devEUI req w).2.db.allowed_devices) := by
  refine ⟨?_, ?_, ?_, ?_, ?_, ?_⟩
  · intro id req hrel hk hex hver
    exact DeviceService.UpdateDevice_succeeds s env id req w hrel hk hex hver
  · intro id req h
    obtain ⟨hdb, hex, -⟩ := DeviceService.UpdateDevice_of_ok s env id req w h
    rw [hdb]
    refine ⟨hex, rfl, rfl, rfl, ?_⟩
    simp only
    rw [List.forall₂_map_right_iff, List.forall₂_same]
    intro d _
    constructor
    · intro hne
      simp [hne]
    · intro heq
      simp [heq]
  · intro id req hf hk hex
    exact DeviceRepository.UpdateDeviceVersion_store_succeeds env id req w hf hk hex
  · intro id req h
    obtain ⟨hdb, hex, -⟩ := DeviceRepository.UpdateDeviceVersion_store_of_ok env id req w h
    unfold DeviceService.UpdateDeviceVersion
    rw [hdb]
    refine ⟨hex, rfl, rfl, rfl, ?_⟩
    simp only
    rw [List.forall₂_map_right_iff, List.forall₂_same]
    intro v _
    constructor
    · intro hne
      simp [hne]
    · intro heq
      simp [heq]
  · intro devEUI req hf hk hex
    exact DeviceRepository.UpdateAllowedDevice_store_succeeds env devEUI req w hf hk hex
  · intro devEUI req h
    obtain ⟨hdb, hex, -⟩ := DeviceRepository.UpdateAllowedDevice_store_of_ok env devEUI req w h
    unfold DeviceService.UpdateAllowedDevice
    rw [hdb]
    refine ⟨hex, rfl, rfl, rfl, ?_⟩
    simp only
    rw [List.forall₂_map_right_iff, List.forall₂_same]
    intro a _
    constructor
    · intro hne
      simp [hne]
    · intro heq
      simp [heq]

/-- Witness of C28 on the sample store: renaming the device, relabelling the
version and replacing the app key of the allow-list row.  Each update succeeds
and changes the supplied field and the update timestamp of its row, nothing
else. -/
theorem partial_update_frame_witness :
    ((DeviceService.UpdateDevice ⟨none⟩ sampleEnv ⟨"d1"⟩
        { Name := some "Renamed", VersionID := none, Description := none, IsActive := none }
        sampleWorldWithDevice).1 = none
      ∧ (DeviceService.UpdateDevice ⟨none⟩ sampleEnv ⟨"d1"⟩
          { Name := some "Renamed", VersionID := none, Description := none, IsActive := none }
          sampleWorldWithDevice).2.db.devices
          = [{ sampleDevice with Name := "Renamed", UpdatedAt := 10 }])
      ∧ ((DeviceService.UpdateDeviceVersion ⟨none⟩ sampleEnv ⟨"v1"⟩
          { Name := none, Version := some "v2.0", Description := none }
          sampleWorldWithDevice).1 = none
        ∧ (DeviceService.UpdateDeviceVersion ⟨none⟩ sampleEnv ⟨"v1"⟩
            { Name := none, Version := some "v2.0", Description := none }
            sampleWorldWithDevice).2.db.device_versions
            = [{ sampleVersion with Version := "v2.0", UpdatedAt := 10 }])
      ∧ ((DeviceService.UpdateAllowedDevice ⟨none⟩ sampleEnv "C5EABC521E8304EE"
          { NwkKey := none, AppKey := some "00000000000000000000000000000000",
            AddrKey := none, Description := none }
          sampleWorldWithDevice).1 = none
        ∧ (DeviceService.UpdateAllowedDevice ⟨none⟩ sampleEnv "C5EABC521E8304EE"
            { NwkKey := none, AppKey := some "00000000000000000000000000000000",
              AddrKey := none, Description := none }
            sampleWorldWithDevice).2.db.allowed_devices
            = [{ sampleAllowed with AppKey := "00000000000000000000000000000000",
                                    UpdatedAt := 10 }]) :=
  have h := partial_update_frame ⟨none⟩ sampleEnv sampleWorldWithDevice
  ⟨⟨h.1 ⟨"d1"⟩
      { Name := some "Renamed", VersionID := none, Description := none, IsActive := none }
      (fun _ => rfl) (Or.inl (by decide)) ⟨sampleDevice, List.mem_singleton.mpr rfl, rfl⟩
      (fun _ hv => Option.noConfusion hv), rfl⟩,
    ⟨h.2.2.1 ⟨"v1"⟩ { Name := none, Version := some "v2.0", Description := none } rfl
      (Or.inr (Or.inl (by decide))) ⟨sampleVersion, List.mem_singleton.mpr rfl, rfl⟩, rfl⟩,
    ⟨h.2.2.2.2.1 "C5EABC521E8304EE"
      { NwkKey := none, AppKey := some "00000000000000000000000000000000",
        AddrKey := none, Description := none } rfl
      (Or.inr (Or.inl (by decide))) ⟨sampleAllowed, List.mem_singleton.mpr rfl, rfl⟩, rfl⟩⟩


/-! ## Registration: a store that cannot persist the user -/

/-- C21 (counterexample): registration on the sample store when the driver
fails the insert.  The handler answers 400, not 500. -/
theorem Register_insert_failure_status :
    (UserHandler.Register ⟨⟨none⟩⟩ sampleEnvInsertFails (.ok sampleRegister) sampleWorld).1
        = { status := 400,
            body := .error "failed to create user: failed to create user: connection lost" }
      ∧ (UserHandler.Register ⟨⟨none⟩⟩ sampleEnvInsertFails (.ok sampleRegister)
          sampleWorld).1.status ≠ 500 := by
  refine ⟨rfl, ?_⟩
  decide

/-- C21 (amended): when the email is not yet taken, the password hashes and
the store fails to persist the new user, the response to the registration
request has status 400 with the error "failed to create user: ..." as body; no
token is issued, the store is unchanged and nothing is handed to the platform,
whatever the gateway configuration. -/
theorem Register_insert_failure (s : UserService) (env : Env) (req : RegisterRequest)
    (w : World) (hash err : String)
    (hnew : ∃ e0, (UserRepository.GetUserByEmail env req.Email w).1 = .error e0)
    (hhash : env.HashPassword req.Password = .ok hash)
    (hins : (UserRepository.CreateUser env
        { ID := UUID.Nil, Email := req.Email, PasswordHash := hash, FullName := req.FullName,
          TenantID := none, ApplicationID := none, DeviceProfileID := none,
          CreatedAt := 0, UpdatedAt := 0 } w.tick).1 = .error err) :
    (UserHandler.Register ⟨s⟩ env (.ok req) w).1
        = { status := 400, body := .error ("failed to create user: " ++ err) }
      ∧ (s.Register env req w).1 = .error ("failed to create user: " ++ err)
      ∧ (UserHandler.Register ⟨s⟩ env (.ok req) w).2.db = w.db
      ∧ (UserHandler.Register ⟨s⟩ env (.ok req) w).2.requests = w.requests := by
  obtain ⟨e0, he0⟩ := hnew
  have h1 : UserRepository.GetUserByEmail env req.Email w = (.error e0, w.tick) :=
    Prod.ext he0 (UserRepository.GetUserByEmail_snd env req.Email w)
  have hrq := UserRepository.CreateUser_requests env
    { ID := UUID.Nil, Email := req.Email, PasswordHash := hash, FullName := req.FullName,
      TenantID := none, ApplicationID := none, DeviceProfileID := none,
      CreatedAt := 0, UpdatedAt := 0 } w.tick
  have hdb : (UserRepository.CreateUser env
      { ID := UUID.Nil, Email := req.Email, PasswordHash := hash, FullName := req.FullName,
        TenantID := none, ApplicationID := none, DeviceProfileID := none,
        CreatedAt := 0, UpdatedAt := 0 } w.tick).2.db = w.db := by
    unfold UserRepository.CreateUser at hins ⊢
    cases hf : env.dbFault w.tick.stmts with
    | some e => rfl
    | none =>
      simp only [hf] at hins ⊢
      split_ifs at hins ⊢ with hany
      · rfl
  rcases h2 : UserRepository.CreateUser env
    { ID := UUID.Nil, Email := req.Email, PasswordHash := hash, FullName := req.FullName,
      TenantID := none, ApplicationID := none, DeviceProfileID := none,
      CreatedAt := 0, UpdatedAt := 0 } w.tick with ⟨r, w2⟩
  rw [h2] at hins hrq hdb
  simp only at hins hrq hdb
  subst hins
  have hreg : s.Register env req w = (.error ("failed to create user: " ++ err), w2) := by
    simp only [UserService.Register, h1, hhash, h2]
  simp only [UserHandler.Register, hreg]
  exact ⟨trivial, trivial, hdb, hrq⟩

/-- Witness of C21 (amended): the driver fails the insert on the sample store,
with the platform integration enabled. -/
theorem Register_insert_failure_witness :
    (UserHandler.Register ⟨⟨some sampleGateway⟩⟩ sampleEnvInsertFails (.ok sampleRegister)
        sampleWorld).1
        = { status := 400,
            body := .error "failed to create user: failed to create user: connection lost" }
      ∧ (UserHandler.Register ⟨⟨some sampleGateway⟩⟩ sampleEnvInsertFails (.ok sampleRegister)
          sampleWorld).2.requests = [] :=
  have h := Register_insert_failure ⟨some sampleGateway⟩ sampleEnvInsertFails sampleRegister
    sampleWorld "hash:password123" "failed to create user: connection lost"
    ⟨"user not found", rfl⟩ rfl rfl
  ⟨h.1, h.2.2.2⟩


/-! ## The credential hash never leaves the server -/

/-- C22: the document written for a `User` (alone or inside the
`AuthResponse` of register and login) and the `PublicUser` document of the
GET and PUT `/users/:id` handlers do not depend on the credential hash:
replacing the hash of the user by any other value leaves the document
unchanged, and no member is named after the hash.  The handlers write exactly
these documents. -/
theorem credential_hash_not_serialised :
    (∀ (u : User) (hash : String), ({ u with PasswordHash := hash } : User).toJson = u.toJson)
      ∧ (∀ (r : AuthResponse) (hash : String),
          ResponseBody.toJson (.auth { r with User := { r.User with PasswordHash := hash } })
            = ResponseBody.toJson (.auth r))
      ∧ (∀ (u : User) (hash : String),
          (publicUser { u with PasswordHash := hash }).toJson = (publicUser u).toJson)
      ∧ (∀ u : User, ∀ k ∈ u.toJson.keys,
          k ∈ ["id", "email", "full_name", "tenant_id", "application_id",
               "device_profile_id", "created_at", "updated_at"])
      ∧ (∀ u : User, (publicUser u).toJson.keys
          = ["id", "email", "full_name", "created_at", "updated_at"])
      ∧ (∀ (h : UserHandler) (env : Env) (id : String) (w : World) (user : User),
          (h.userService.GetUserByID env id w).1 = .ok user →
          (h.GetUserByID env id w).1.status = 200
            ∧ (h.GetUserByID env id w).1.body = (publicUser user).toJson)
      ∧ (∀ (h : UserHandler) (env : Env) (id : String) (req : UpdateUserRequest) (w : World)
          (user : User), (h.userService.UpdateUser env id req w).1 = .ok user →
          (h.UpdateUser env id (.ok req) w).1.status = 200
            ∧ (h.UpdateUser env id (.ok req) w).1.body = (publicUser user).toJson) := by
  refine ⟨fun _ _ => rfl, fun _ _ => rfl, fun _ _ => rfl, ?_, fun _ => rfl, ?_, ?_⟩
  · intro u k hk
    rcases u with ⟨id, email, hash, name, t, a, p, c, m⟩
    cases t <;> cases a <;> cases p <;>
      simp [User.toJson, Json.keys, omitEmpty] at hk ⊢ <;> tauto
  · intro h env id w user hu
    unfold UserHandler.GetUserByID
    rcases hr : h.userService.GetUserByID env id w with ⟨r, w1⟩
    rw [hr] at hu
    simp only at hu
    subst hu
    exact ⟨rfl, rfl⟩
  · intro h env id req w user hu
    rcases hr : h.userService.UpdateUser env id req w with ⟨r, w1⟩
    rw [hr] at hu
    simp only at hu
    subst hu
    simp only [UserHandler.UpdateUser, hr, and_self]

/-- Witness of C22: the sample user read through the handler. -/
theorem credential_hash_not_serialised_witness :
    (UserHandler.GetUserByID ⟨⟨none⟩⟩ sampleEnv "u1" sampleWorld).1.body
      = .obj [("id", .str "u1"), ("email", .str "a@example.com"), ("full_name", .str "A"),
              ("created_at", .time 1), ("updated_at", .time 1)] :=
  ((credential_hash_not_serialised.2.2.2.2.2.1 ⟨⟨none⟩⟩ sampleEnv "u1" sampleWorld sampleUser
    rfl).2).trans rfl


/-! ## The progress booleans in every reachable state -/

theorem UserRepository.GetAllUsers_db (env : Env) (page pageSize : ℤ) (w : World) :
    (UserRepository.GetAllUsers env page pageSize w).2.db = w.db := by
  simp only [UserRepository.GetAllUsers]
  repeat' split
  all_goals rfl

theorem UserRepository.SearchUsers_db (env : Env) (q : String) (page pageSize : ℤ) (w : World) :
    (UserRepository.SearchUsers env q page pageSize w).2.db = w.db := by
  simp only [UserRepository.SearchUsers]
  repeat' split
  all_goals rfl

theorem DeviceRepository.GetDeviceVersions_db (env : Env) (page pageSize : ℤ) (w : World) :
    (DeviceRepository.GetDeviceVersions env page pageSize w).2.db = w.db := by
  simp only [DeviceRepository.GetDeviceVersions]
  repeat' split
  all_goals rfl

theorem DeviceRepository.GetAllowedDevices_db (env : Env) (page pageSize : ℤ) (w : World) :
    (DeviceRepository.GetAllowedDevices env page pageSize w).2.db = w.db := by
  simp only [DeviceRepository.GetAllowedDevices]
  repeat' split
  all_goals rfl

theorem DeviceRepository.GetDevicesByUserID_db (env : Env) (userID : UUID)
    (page pageSize : ℤ) (w : World) :
    (DeviceRepository.GetDevicesByUserID env userID page pageSize w).2.db = w.db := by
  simp only [DeviceRepository.GetDevicesByUserID]
  repeat' split
  all_goals rfl

theorem DeviceRepository.GetAllDevices_db (env : Env) (page pageSize : ℤ) (w : World) :
    (DeviceRepository.GetAllDevices env page pageSize w).2.db = w.db := by
  simp only [DeviceRepository.GetAllDevices]
  repeat' split
  all_goals rfl

theorem UserRepository.UpdateUser_keeps_devices (env : Env) (id : String)
    (updates : UserRepository.Updates) (w : World) :
    (UserRepository.UpdateUser env id updates w).2.db.devices = w.db.devices := by
  simp only [UserRepository.UpdateUser]
  repeat' split
  all_goals rfl

theorem UserRepository.DeleteUser_keeps_devices (env : Env) (id : String) (w : World) :
    (UserRepository.DeleteUser env id w).2.db.devices = w.db.devices := by
  simp only [UserRepository.DeleteUser]
  repeat' split
  all_goals rfl

theorem UserRepository.CreateUser_keeps_devices (env : Env) (user : User) (w : World) :
    (UserRepository.CreateUser env user w).2.db.devices = w.db.devices := by
  simp only [UserRepository.CreateUser]
  repeat' split
  all_goals rfl

theorem UserRepository.UpdateUserChirpStackData_keeps_devices (env : Env) (id t a p : String)
    (w : World) :
    (UserRepository.UpdateUserChirpStackData env id t a p w).2.db.devices = w.db.devices := by
  simp only [UserRepository.UpdateUserChirpStackData]
  repeat' split
  all_goals rfl

theorem DeviceRepository.CreateDeviceVersion_keeps_devices (env : Env) (v : DeviceVersion)
    (w : World) :
    (DeviceRepository.CreateDeviceVersion env v w).2.db.devices = w.db.devices := by
  simp only [DeviceRepository.CreateDeviceVersion]
  repeat' split
  all_goals rfl

theorem DeviceRepository.DeleteDeviceVersion_keeps_devices (env : Env) (id : UUID) (w : World) :
    (DeviceRepository.DeleteDeviceVersion env id w).2.db.devices = w.db.devices := by
  simp only [DeviceRepository.DeleteDeviceVersion]
  repeat' split
  all_goals rfl

theorem DeviceRepository.UpdateDeviceVersion_keeps_devices (env : Env) (id : UUID)
    (req : UpdateDeviceVersionRequest) (w : World) :
    (DeviceRepository.UpdateDeviceVersion env id req w).2.db.devices = w.db.devices := by
  simp only [DeviceRepository.UpdateDeviceVersion]
  repeat' split
  all_goals rfl

theorem DeviceRepository.CreateAllowedDevice_keeps_devices (env : Env) (a : AllowedDevice)
    (w : World) :
    (DeviceRepository.CreateAllowedDevice env a w).2.db.devices = w.db.devices := by
  simp only [DeviceRepository.CreateAllowedDevice]
  repeat' split
  all_goals rfl

theorem DeviceRepository.DeleteAllowedDevice_keeps_devices (env : Env) (devEUI : String)
    (w : World) :
    (DeviceRepository.DeleteAllowedDevice env devEUI w).2.db.devices = w.db.devices := by
  simp only [DeviceRepository.DeleteAllowedDevice]
  repeat' split
  all_goals rfl

theorem DeviceRepository.UpdateAllowedDevice_keeps_devices (env : Env) (devEUI : String)
    (req : UpdateAllowedDeviceRequest) (w : World) :
    (DeviceRepository.UpdateAllowedDevice env devEUI req w).2.db.devices = w.db.devices := by
  simp only [DeviceRepository.UpdateAllowedDevice]
  repeat' split
  all_goals rfl

theorem FlagsAgree.of_devices_eq {w w1 : World} (h : w1.db.devices = w.db.devices)
    (hw : FlagsAgree w) : FlagsAgree w1 := by
  unfold FlagsAgree
  rw [h]
  exact hw

theorem FlagsAgree.tick {w : World} (hw : FlagsAgree w) : FlagsAgree w.tick := hw

theorem FlagsAgree.print {w : World} (hw : FlagsAgree w) (l : String) : FlagsAgree (w.print l) :=
  hw

theorem DeviceRepository.UpdateDeviceChirpStackStatus_keeps_flags (env : Env) (id : UUID) (b : Bool)
    (w : World) (hw : FlagsAgree w) :
    FlagsAgree (DeviceRepository.UpdateDeviceChirpStackStatus env id b b w).2 := by
  have key : ∀ d ∈ w.db.devices.map (fun d =>
      if d.ID == id then
        { d with ChirpStackDeviceCreated := b, ChirpStackDeviceActivated := b,
                 UpdatedAt := env.now w.stmts }
      else d), d.ChirpStackDeviceCreated = d.ChirpStackDeviceActivated := by
    intro d hd
    obtain ⟨x, hx, rfl⟩ := List.mem_map.mp hd
    split_ifs
    · rfl
    · exact hw x hx
  unfold DeviceRepository.UpdateDeviceChirpStackStatus
  cases env.dbFault w.stmts with
  | some err => exact hw
  | none =>
    simp only
    split_ifs <;> exact key

theorem DeviceRepository.UpdateDevice_keeps_flags (env : Env) (id : UUID) (req : UpdateDeviceRequest)
    (w : World) (hw : FlagsAgree w) :
    FlagsAgree (DeviceRepository.UpdateDevice env id req w).2 := by
  have key : ∀ d ∈ w.db.devices.map (fun d =>
      if d.ID == id then
        { d with Name := req.Name.getD d.Name, VersionID := req.VersionID.getD d.VersionID,
                 Description := (match req.Description with
                   | some x => some x
                   | none => d.Description),
                 IsActive := req.IsActive.getD d.IsActive,
                 UpdatedAt := env.now w.stmts }
      else d), d.ChirpStackDeviceCreated = d.ChirpStackDeviceActivated := by
    intro d hd
    obtain ⟨x, hx, rfl⟩ := List.mem_map.mp hd
    split_ifs
    · exact hw x hx
    · exact hw x hx
  unfold DeviceRepository.UpdateDevice
  by_cases hp : (DeviceRepository.updateDeviceParts req).1.length = 0
  · rw [if_pos hp]
    exact hw
  · rw [if_neg hp]
    cases env.dbFault w.stmts with
    | some err => exact hw
    | none =>
      simp only
      split_ifs <;> exact key

theorem DeviceRepository.DeleteDevice_keeps_flags (env : Env) (id : UUID) (w : World)
    (hw : FlagsAgree w) : FlagsAgree (DeviceRepository.DeleteDevice env id w).2 := by
  have key : ∀ d ∈ w.db.devices.filter (fun d => !(d.ID == id)),
      d.ChirpStackDeviceCreated = d.ChirpStackDeviceActivated :=
    fun d hd => hw d (List.mem_filter.mp hd).1
  unfold DeviceRepository.DeleteDevice
  cases env.dbFault w.stmts with
  | some err => exact hw
  | none =>
    simp only
    split_ifs <;> exact key

theorem DeviceRepository.CreateDevice_keeps_flags (env : Env) (device : Device) (w : World)
    (hw : FlagsAgree w) : FlagsAgree (DeviceRepository.CreateDevice env device w).2 := by
  unfold DeviceRepository.CreateDevice
  cases env.dbFault w.stmts with
  | some err => exact hw
  | none =>
    simp only
    split_ifs
    · exact hw
    · intro d hd
      rcases List.mem_append.mp hd with h | h
      · exact hw d h
      · rw [List.mem_singleton] at h
        subst h
        rfl

theorem DeviceService.createChirpStackDevice_flags (cs : ChirpStackService) (env : Env)
    (device : Device) (user : User) (allowedDevice : AllowedDevice) (w : World)
    (hw : FlagsAgree w) :
    FlagsAgree (DeviceService.createChirpStackDevice cs env device user allowedDevice w).2 := by
  unfold DeviceService.createChirpStackDevice
  have hw1 := ChirpStackService.makeRequest_db cs env "POST" "/devices"
    (.device (DeviceService.createDeviceRequest device user)) w
  rcases h1 : cs.makeRequest env "POST" "/devices"
    (.device (DeviceService.createDeviceRequest device user)) w with ⟨r1, w1⟩
  rw [h1] at hw1
  simp only at hw1
  have hf1 : FlagsAgree w1 := FlagsAgree.of_devices_eq (by rw [hw1]) hw
  cases r1 with
  | error err => exact hf1
  | ok body =>
    simp only
    have hw3 := ChirpStackService.makeRequest_db cs env "POST"
      ("/devices/" ++ device.DevEUI ++ "/activate")
      (.activation (DeviceService.activateDeviceRequest allowedDevice))
      (w1.print ("ChirpStack device created: " ++ body ++ "\n"))
    rcases h2 : cs.makeRequest env "POST" ("/devices/" ++ device.DevEUI ++ "/activate")
      (.activation (DeviceService.activateDeviceRequest allowedDevice))
      (w1.print ("ChirpStack device created: " ++ body ++ "\n")) with ⟨r2, w3⟩
    rw [h2] at hw3
    simp only at hw3
    have hf3 : FlagsAgree w3 :=
      FlagsAgree.of_devices_eq (by rw [hw3]; rfl) hf1
    cases r2 with
    | error err => exact hf3
    | ok body2 =>
      simp only
      have hf5 := DeviceRepository.UpdateDeviceChirpStackStatus_keeps_flags env device.ID true
        (w3.print ("ChirpStack device activated: " ++ body2 ++ "\n")) hf3
      rcases h3 : DeviceRepository.UpdateDeviceChirpStackStatus env device.ID true true
        (w3.print ("ChirpStack device activated: " ++ body2 ++ "\n")) with ⟨r3, w5⟩
      rw [h3] at hf5
      cases r3 with
      | none => exact hf5
      | some err => exact hf5

theorem DeviceService.CreateDevice_flags (s : DeviceService) (env : Env) (userID : UUID)
    (req : CreateDeviceRequest) (w : World) (hw : FlagsAgree w) :
    FlagsAgree (s.CreateDevice env userID req w).2 := by
  unfold DeviceService.CreateDevice
  have hs1 := UserRepository.GetUserByID_snd env userID.String w
  rcases h1 : UserRepository.GetUserByID env userID.String w with ⟨r1, wa⟩
  rw [h1] at hs1
  simp only at hs1
  subst hs1
  cases r1 with
  | error err => exact hw
  | ok user =>
    simp only
    split_ifs
    · exact hw
    · have hs2 := DeviceRepository.GetAllowedDeviceByDevEUI_snd env req.DevEUI w.tick
      rcases h2 : DeviceRepository.GetAllowedDeviceByDevEUI env req.DevEUI w.tick with ⟨r2, wb⟩
      rw [h2] at hs2
      simp only at hs2
      subst hs2
      cases r2 with
      | error err => exact hw
      | ok allowedDevice =>
        simp only
        have hs3 := DeviceRepository.GetDeviceVersionByID_snd env req.VersionID w.tick.tick
        rcases h3 : DeviceRepository.GetDeviceVersionByID env req.VersionID w.tick.tick
          with ⟨r3, wc⟩
        rw [h3] at hs3
        simp only at hs3
        subst hs3
        cases r3 with
        | error err => exact hw
        | ok ver =>
          simp only
          have hf4 := DeviceRepository.CreateDevice_keeps_flags env
            { ID := UUID.Nil, UserID := userID, VersionID := req.VersionID, Name := req.Name,
              DevEUI := req.DevEUI, Description := req.Description,
              ChirpStackDeviceCreated := false, ChirpStackDeviceActivated := false,
              IsActive := false, CreatedAt := 0, UpdatedAt := 0, Version := none,
              User := none } w.tick.tick.tick hw
          rcases h4 : DeviceRepository.CreateDevice env
            { ID := UUID.Nil, UserID := userID, VersionID := req.VersionID, Name := req.Name,
              DevEUI := req.DevEUI, Description := req.Description,
              ChirpStackDeviceCreated := false, ChirpStackDeviceActivated := false,
              IsActive := false, CreatedAt := 0, UpdatedAt := 0, Version := none,
              User := none } w.tick.tick.tick with ⟨r4, wd⟩
          rw [h4] at hf4
          simp only at hf4
          cases r4 with
          | error err => exact hf4
          | ok device1 =>
            simp only
            rw [DeviceRepository.GetDeviceByID_snd]
            apply FlagsAgree.tick
            cases s.chirpStackService with
            | none => exact hf4
            | some cs =>
              simp only
              split_ifs
              · have hf5 := DeviceService.createChirpStackDevice_flags cs env device1 user
                  allowedDevice wd hf4
                rcases h5 : DeviceService.createChirpStackDevice cs env device1 user
                  allowedDevice wd with ⟨r5, we⟩
                rw [h5] at hf5
                cases r5 with
                | none => exact hf5
                | some err => exact hf5
              · exact hf4

theorem DeviceService.UpdateDevice_flags (s : DeviceService) (env : Env) (id : UUID)
    (req : UpdateDeviceRequest) (w : World) (hw : FlagsAgree w) :
    FlagsAgree (s.UpdateDevice env id req w).2 := by
  unfold DeviceService.UpdateDevice
  cases req.VersionID with
  | none => exact DeviceRepository.UpdateDevice_keeps_flags env id req w hw
  | some versionID =>
    simp only
    have hs := DeviceRepository.GetDeviceVersionByID_snd env versionID w
    rcases hg : DeviceRepository.GetDeviceVersionByID env versionID w with ⟨r, w1⟩
    rw [hg] at hs
    simp only at hs
    subst hs
    cases r with
    | error err => exact hw
    | ok ver => exact DeviceRepository.UpdateDevice_keeps_flags env id req w.tick hw

theorem DeviceService.DeleteDevice_flags (s : DeviceService) (env : Env) (id : UUID)
    (w : World) (hw : FlagsAgree w) : FlagsAgree (s.DeleteDevice env id w).2 := by
  unfold DeviceService.DeleteDevice
  have hs := DeviceRepository.GetDeviceByID_snd env id w
  rcases hg : DeviceRepository.GetDeviceByID env id w with ⟨r, w1⟩
  rw [hg] at hs
  simp only at hs
  subst hs
  cases r with
  | error err => exact hw
  | ok device =>
    simp only
    apply DeviceRepository.DeleteDevice_keeps_flags
    obtain ⟨hdb, -, -⟩ := DeviceService.DeleteDevice_remote_block s.chirpStackService env
      device w.tick
    exact FlagsAgree.of_devices_eq (by rw [hdb]; rfl) hw

theorem ChirpStackService.CreateUserResources_devices (cs : ChirpStackService) (env : Env)
    (userID username : String) (w : World) :
    (cs.CreateUserResources env userID username w).2.db.devices = w.db.devices := by
  unfold ChirpStackService.CreateUserResources
  by_cases hoff : (!cs.IsEnabled) = true
  · rw [if_pos hoff]
  · rw [if_neg hoff]
    have e1 := ChirpStackService.CreateTenant_db cs env username w
    rcases h1 : cs.CreateTenant env username w with ⟨r1, w1⟩
    rw [h1] at e1
    simp only at e1
    cases r1 with
    | error err => simp only [e1]
    | ok tenantID =>
      simp only
      have e2 := ChirpStackService.CreateApplication_db cs env tenantID "Lnode" w1
      rcases h2 : cs.CreateApplication env tenantID "Lnode" w1 with ⟨r2, w2⟩
      rw [h2] at e2
      simp only at e2
      cases r2 with
      | error err => simp only [e2, e1]
      | ok applicationID =>
        simp only
        have e3 := ChirpStackService.CreateDeviceProfile_db cs env tenantID w2
        rcases h3 : cs.CreateDeviceProfile env tenantID w2 with ⟨r3, w3⟩
        rw [h3] at e3
        simp only at e3
        cases r3 with
        | error err => simp only [e3, e2, e1]
        | ok deviceProfileID =>
          simp only
          by_cases hrepo : cs.userRepo = true
          · rw [if_pos hrepo]
            have e4 := UserRepository.UpdateUserChirpStackData_keeps_devices env userID tenantID
              applicationID deviceProfileID w3
            rcases h4 : UserRepository.UpdateUserChirpStackData env userID tenantID
              applicationID deviceProfileID w3 with ⟨r4, w4⟩
            rw [h4] at e4
            simp only at e4
            cases r4 with
            | none => simp only [e4, e3, e2, e1]
            | some err => simp only [World.print_db, e4, e3, e2, e1]
          · rw [if_neg hrepo]
            simp only [e3, e2, e1]

theorem UserService.Register_devices (s : UserService) (env : Env) (req : RegisterRequest)
    (w : World) : (s.Register env req w).2.db.devices = w.db.devices := by
  unfold UserService.Register
  have e1 := UserRepository.GetUserByEmail_snd env req.Email w
  rcases h1 : UserRepository.GetUserByEmail env req.Email w with ⟨r1, w1⟩
  rw [h1] at e1
  simp only at e1
  subst e1
  cases r1 with
  | ok u => rfl
  | error err =>
    simp only
    cases hh : env.HashPassword req.Password with
    | error e => rfl
    | ok hashedPassword =>
      simp only
      have e2 := UserRepository.CreateUser_keeps_devices env
        { ID := UUID.Nil, Email := req.Email, PasswordHash := hashedPassword,
          FullName := req.FullName, TenantID := none, ApplicationID := none,
          DeviceProfileID := none, CreatedAt := 0, UpdatedAt := 0 } w.tick
      rcases h2 : UserRepository.CreateUser env
        { ID := UUID.Nil, Email := req.Email, PasswordHash := hashedPassword,
          FullName := req.FullName, TenantID := none, ApplicationID := none,
          DeviceProfileID := none, CreatedAt := 0, UpdatedAt := 0 } w.tick with ⟨r2, w2⟩
      rw [h2] at e2
      simp only [World.tick_db] at e2
      cases r2 with
      | error e => exact e2
      | ok user1 =>
        simp only
        cases ht : env.GenerateToken user1.ID user1.Email with
        | error e => exact e2
        | ok token =>
          simp only
          cases hs : s.chirpStackService with
          | none => exact e2
          | some cs =>
            simp only
            split_ifs
            · have e3 := ChirpStackService.CreateUserResources_devices cs env user1.ID.String
                user1.Email w2
              rcases h3 : cs.CreateUserResources env user1.ID.String user1.Email w2
                with ⟨r3, w3⟩
              rw [h3] at e3
              simp only at e3
              cases r3 with
              | error e => simp only [World.print_db, e3, e2]
              | ok data => simp only [World.print_db, e3, e2]
            · exact e2

theorem UserService.Login_devices (s : UserService) (env : Env) (req : LoginRequest)
    (w : World) : (s.Login env req w).2.db.devices = w.db.devices := by
  unfold UserService.Login
  have e1 := UserRepository.GetUserByEmail_snd env req.Email w
  rcases h1 : UserRepository.GetUserByEmail env req.Email w with ⟨r1, w1⟩
  rw [h1] at e1
  simp only at e1
  subst e1
  cases r1 with
  | error err => rfl
  | ok user =>
    simp only
    split_ifs
    · rfl
    · cases env.GenerateToken user.ID user.Email <;> rfl

theorem UserService.GetUserByID_devices (s : UserService) (env : Env) (id : String)
    (w : World) : (s.GetUserByID env id w).2.db.devices = w.db.devices := by
  unfold UserService.GetUserByID
  have e1 := UserRepository.GetUserByID_snd env id w
  rcases h1 : UserRepository.GetUserByID env id w with ⟨r1, w1⟩
  rw [h1] at e1
  simp only at e1
  subst e1
  cases r1 <;> rfl

theorem UserService.GetAllUsers_devices (s : UserService) (env : Env) (page pageSize : ℤ)
    (w : World) : (s.GetAllUsers env page pageSize w).2.db.devices = w.db.devices := by
  have h : ∀ p ps, (match UserRepository.GetAllUsers env p ps w with
      | (.error err, w1) => ((.error ("failed to get users: " ++ err), w1) :
          Except String UserListResponse × World)
      | (.ok (users, total), w1) =>
        (.ok { Users := users, Total := total, Page := p, PageSize := ps,
               TotalPages := totalPages total ps }, w1)).2
        = (UserRepository.GetAllUsers env p ps w).2 := by
    intro p ps
    rcases UserRepository.GetAllUsers env p ps w with ⟨(e | ⟨a, b⟩), w1⟩ <;> rfl
  simp only [UserService.GetAllUsers, h, UserRepository.GetAllUsers_db]

theorem UserService.SearchUsers_devices (s : UserService) (env : Env)
    (req : UserSearchRequest) (w : World) :
    (s.SearchUsers env req w).2.db.devices = w.db.devices := by
  have h : ∀ q p ps, (match UserRepository.SearchUsers env q p ps w with
      | (.error err, w1) => ((.error ("failed to search users: " ++ err), w1) :
          Except String UserListResponse × World)
      | (.ok (users, total), w1) =>
        (.ok { Users := users, Total := total, Page := p, PageSize := ps,
               TotalPages := totalPages total ps }, w1)).2
        = (UserRepository.SearchUsers env q p ps w).2 := by
    intro q p ps
    rcases UserRepository.SearchUsers env q p ps w with ⟨(e | ⟨a, b⟩), w1⟩ <;> rfl
  unfold UserService.SearchUsers
  simp only
  by_cases hq : req.Query = ""
  · rw [if_pos hq]
    exact UserService.GetAllUsers_devices s env _ _ w
  · rw [if_neg hq, h, UserRepository.SearchUsers_db]

theorem UserService.DeleteUser_devices (s : UserService) (env : Env) (id : String)
    (w : World) : (s.DeleteUser env id w).2.db.devices = w.db.devices := by
  unfold UserService.DeleteUser
  have e1 := UserRepository.GetUserByID_snd env id w
  rcases h1 : UserRepository.GetUserByID env id w with ⟨r1, w1⟩
  rw [h1] at e1
  simp only at e1
  subst e1
  cases r1 with
  | error err => rfl
  | ok u =>
    simp only
    have e2 := UserRepository.DeleteUser_keeps_devices env id w.tick
    rcases h2 : UserRepository.DeleteUser env id w.tick with ⟨r2, w2⟩
    rw [h2] at e2
    cases r2 <;> exact e2

theorem UserService.UpdateUser_devices (s : UserService) (env : Env) (id : String)
    (req : UpdateUserRequest) (w : World) :
    (s.UpdateUser env id req w).2.db.devices = w.db.devices := by
  unfold UserService.UpdateUser
  have e1 := UserRepository.GetUserByID_snd env id w
  rcases h1 : UserRepository.GetUserByID env id w with ⟨r1, w1⟩
  rw [h1] at e1
  simp only at e1
  subst e1
  cases r1 with
  | error err => rfl
  | ok existingUser =>
    simp only
    generalize hE : (ite (req.Email ≠ "" ∧ req.Email ≠ existingUser.Email) _ _ :
      Except String (Option String) × World) = E
    have e2 : E.2.db.devices = w.db.devices := by
      rw [← hE]
      split_ifs with hc
      · have e2 := UserRepository.GetUserByEmail_snd env req.Email w.tick
        rcases h2 : UserRepository.GetUserByEmail env req.Email w.tick with ⟨r2, w3⟩
        rw [h2] at e2
        simp only at e2
        subst e2
        cases r2 with
        | error e => rfl
        | ok emailUser =>
          simp only
          split_ifs <;> rfl
      · rfl
    rcases E with ⟨res, w2⟩
    simp only at e2
    cases res with
    | error err => exact e2
    | ok email =>
      simp only
      generalize hP : (ite (req.Password ≠ "") _ _ : Except String (Option String)) = P
      cases P with
      | error err => exact e2
      | ok passwordHash =>
        simp only
        generalize (ite (req.FullName ≠ "") _ _ : Option String) = fullName
        split_ifs
        · exact e2
        · have e3 := UserRepository.UpdateUser_keeps_devices env id
            { email := email, full_name := fullName, password_hash := passwordHash } w2
          rcases h3 : UserRepository.UpdateUser env id
            { email := email, full_name := fullName, password_hash := passwordHash } w2
            with ⟨r3, w3⟩
          rw [h3] at e3
          simp only at e3
          cases r3 with
          | some err => exact e3.trans e2
          | none =>
            simp only
            have e4 := UserRepository.GetUserByID_snd env id w3
            rcases h4 : UserRepository.GetUserByID env id w3 with ⟨r4, w4⟩
            rw [h4] at e4
            simp only at e4
            subst e4
            cases r4 <;> exact e3.trans e2

theorem DeviceService.CreateDeviceVersion_devices (s : DeviceService) (env : Env)
    (req : CreateDeviceVersionRequest) (w : World) :
    (s.CreateDeviceVersion env req w).2.db.devices = w.db.devices := by
  unfold DeviceService.CreateDeviceVersion
  have e := DeviceRepository.CreateDeviceVersion_keeps_devices env
    { ID := UUID.Nil, Name := req.Name, Version := req.Version,
      Description := req.Description, CreatedAt := 0, UpdatedAt := 0 } w
  rcases h : DeviceRepository.CreateDeviceVersion env
    { ID := UUID.Nil, Name := req.Name, Version := req.Version,
      Description := req.Description, CreatedAt := 0, UpdatedAt := 0 } w with ⟨r, w1⟩
  rw [h] at e
  cases r <;> exact e

theorem DeviceService.CreateAllowedDevice_devices (s : DeviceService) (env : Env)
    (req : CreateAllowedDeviceRequest) (w : World) :
    (s.CreateAllowedDevice env req w).2.db.devices = w.db.devices := by
  unfold DeviceService.CreateAllowedDevice
  have e := DeviceRepository.CreateAllowedDevice_keeps_devices env
    { ID := UUID.Nil, DevEUI := req.DevEUI, NwkKey := req.NwkKey, AppKey := req.AppKey,
      AddrKey := req.AddrKey, Description := req.Description, CreatedAt := 0,
      UpdatedAt := 0 } w
  rcases h : DeviceRepository.CreateAllowedDevice env
    { ID := UUID.Nil, DevEUI := req.DevEUI, NwkKey := req.NwkKey, AppKey := req.AppKey,
      AddrKey := req.AddrKey, Description := req.Description, CreatedAt := 0,
      UpdatedAt := 0 } w with ⟨r, w1⟩
  rw [h] at e
  cases r <;> exact e

theorem DeviceService.GetDeviceVersions_devices (s : DeviceService) (env : Env)
    (page pageSize : ℤ) (w : World) :
    (s.GetDeviceVersions env page pageSize w).2.db.devices = w.db.devices := by
  have h : (s.GetDeviceVersions env page pageSize w).2
      = (DeviceRepository.GetDeviceVersions env page pageSize w).2 := by
    unfold DeviceService.GetDeviceVersions
    rcases DeviceRepository.GetDeviceVersions env page pageSize w with ⟨(e | ⟨a, b⟩), w1⟩ <;> rfl
  rw [h, DeviceRepository.GetDeviceVersions_db]

theorem DeviceService.GetAllowedDevices_devices (s : DeviceService) (env : Env)
    (page pageSize : ℤ) (w : World) :
    (s.GetAllowedDevices env page pageSize w).2.db.devices = w.db.devices := by
  have h : (s.GetAllowedDevices env page pageSize w).2
      = (DeviceRepository.GetAllowedDevices env page pageSize w).2 := by
    unfold DeviceService.GetAllowedDevices
    rcases DeviceRepository.GetAllowedDevices env page pageSize w with ⟨(e | ⟨a, b⟩), w1⟩ <;> rfl
  rw [h, DeviceRepository.GetAllowedDevices_db]

theorem DeviceService.GetDevicesByUserID_devices (s : DeviceService) (env : Env)
    (userID : UUID) (page pageSize : ℤ) (w : World) :
    (s.GetDevicesByUserID env userID page pageSize w).2.db.devices = w.db.devices := by
  have h : (s.GetDevicesByUserID env userID page pageSize w).2
      = (DeviceRepository.GetDevicesByUserID env userID page pageSize w).2 := by
    unfold DeviceService.GetDevicesByUserID
    rcases DeviceRepository.GetDevicesByUserID env userID page pageSize w
      with ⟨(e | ⟨a, b⟩), w1⟩ <;> rfl
  rw [h, DeviceRepository.GetDevicesByUserID_db]

theorem DeviceService.GetAllDevices_devices (s : DeviceService) (env : Env)
    (page pageSize : ℤ) (w : World) :
    (s.GetAllDevices env page pageSize w).2.db.devices = w.db.devices := by
  have h : (s.GetAllDevices env page pageSize w).2
      = (DeviceRepository.GetAllDevices env page pageSize w).2 := by
    unfold DeviceService.GetAllDevices
    rcases DeviceRepository.GetAllDevices env page pageSize w with ⟨(e | ⟨a, b⟩), w1⟩ <;> rfl
  rw [h, DeviceRepository.GetAllDevices_db]

/-- Every call of the two service interfaces keeps the progress booleans of
every device row equal, whatever the collaborators do. -/
theorem ServiceCall.run_flags (us : UserService) (ds : DeviceService) (env : Env)
    (call : ServiceCall) (w : World) (hw : FlagsAgree w) :
    FlagsAgree (call.run us ds env w) := by
  cases call with
  | Register req => exact FlagsAgree.of_devices_eq (UserService.Register_devices us env req w) hw
  | Login req => exact FlagsAgree.of_devices_eq (UserService.Login_devices us env req w) hw
  | GetUserByID id =>
    exact FlagsAgree.of_devices_eq (UserService.GetUserByID_devices us env id w) hw
  | GetAllUsers page pageSize =>
    exact FlagsAgree.of_devices_eq (UserService.GetAllUsers_devices us env page pageSize w) hw
  | UpdateUser id req =>
    exact FlagsAgree.of_devices_eq (UserService.UpdateUser_devices us env id req w) hw
  | DeleteUser id =>
    exact FlagsAgree.of_devices_eq (UserService.DeleteUser_devices us env id w) hw
  | SearchUsers req =>
    exact FlagsAgree.of_devices_eq (UserService.SearchUsers_devices us env req w) hw
  | CreateDeviceVersion req =>
    exact FlagsAgree.of_devices_eq (DeviceService.CreateDeviceVersion_devices ds env req w) hw
  | GetDeviceVersionByID id =>
    exact FlagsAgree.of_devices_eq
      (by rw [ServiceCall.run, DeviceService.GetDeviceVersionByID,
        DeviceRepository.GetDeviceVersionByID_snd]; rfl) hw
  | GetDeviceVersions page pageSize =>
    exact FlagsAgree.of_devices_eq
      (DeviceService.GetDeviceVersions_devices ds env page pageSize w) hw
  | UpdateDeviceVersion id req =>
    exact FlagsAgree.of_devices_eq
      (DeviceRepository.UpdateDeviceVersion_keeps_devices env id req w) hw
  | DeleteDeviceVersion id =>
    exact FlagsAgree.of_devices_eq (DeviceRepository.DeleteDeviceVersion_keeps_devices env id w) hw
  | CreateAllowedDevice req =>
    exact FlagsAgree.of_devices_eq (DeviceService.CreateAllowedDevice_devices ds env req w) hw
  | GetAllowedDeviceByDevEUI devEUI =>
    exact FlagsAgree.of_devices_eq
      (by rw [ServiceCall.run, DeviceService.GetAllowedDeviceByDevEUI,
        DeviceRepository.GetAllowedDeviceByDevEUI_snd]; rfl) hw
  | GetAllowedDevices page pageSize =>
    exact FlagsAgree.of_devices_eq
      (DeviceService.GetAllowedDevices_devices ds env page pageSize w) hw
  | UpdateAllowedDevice devEUI req =>
    exact FlagsAgree.of_devices_eq
      (DeviceRepository.UpdateAllowedDevice_keeps_devices env devEUI req w) hw
  | DeleteAllowedDevice devEUI =>
    exact FlagsAgree.of_devices_eq
      (DeviceRepository.DeleteAllowedDevice_keeps_devices env devEUI w) hw
  | CreateDevice userID req => exact DeviceService.CreateDevice_flags ds env userID req w hw
  | GetDeviceByID id =>
    exact FlagsAgree.of_devices_eq
      (by rw [ServiceCall.run, DeviceService.GetDeviceByID,
        DeviceRepository.GetDeviceByID_snd]; rfl) hw
  | GetDevicesByUserID userID page pageSize =>
    exact FlagsAgree.of_devices_eq
      (DeviceService.GetDevicesByUserID_devices ds env userID page pageSize w) hw
  | GetAllDevices page pageSize =>
    exact FlagsAgree.of_devices_eq (DeviceService.GetAllDevices_devices ds env page pageSize w) hw
  | UpdateDevice id req => exact DeviceService.UpdateDevice_flags ds env id req w hw
  | DeleteDevice id => exact DeviceService.DeleteDevice_flags ds env id w hw

theorem DeviceRepository.UpdateDevice_keeps_progress (env : Env) (id : UUID)
    (req : UpdateDeviceRequest) (w : World) :
    (DeviceRepository.UpdateDevice env id req w).2.db.devices.map
        (fun d => (d.ID, d.ChirpStackDeviceCreated, d.ChirpStackDeviceActivated))
      = w.db.devices.map
        (fun d => (d.ID, d.ChirpStackDeviceCreated, d.ChirpStackDeviceActivated)) := by
  have key : (w.db.devices.map (fun d =>
      if d.ID == id then
        { d with Name := req.Name.getD d.Name, VersionID := req.VersionID.getD d.VersionID,
                 Description := (match req.Description with
                   | some x => some x
                   | none => d.Description),
                 IsActive := req.IsActive.getD d.IsActive,
                 UpdatedAt := env.now w.stmts }
      else d)).map (fun d => (d.ID, d.ChirpStackDeviceCreated, d.ChirpStackDeviceActivated))
      = w.db.devices.map
        (fun d => (d.ID, d.ChirpStackDeviceCreated, d.ChirpStackDeviceActivated)) := by
    rw [List.map_map]
    apply List.map_congr_left
    intro d _
    simp only [Function.comp]
    split_ifs <;> rfl
  unfold DeviceRepository.UpdateDevice
  by_cases hp : (DeviceRepository.updateDeviceParts req).1.length = 0
  · rw [if_pos hp]
  · rw [if_neg hp]
    cases env.dbFault w.stmts with
    | some err => rfl
    | none =>
      simp only
      split_ifs <;> exact key

theorem DeviceService.UpdateDevice_progress (s : DeviceService) (env : Env) (id : UUID)
    (req : UpdateDeviceRequest) (w : World) :
    (s.UpdateDevice env id req w).2.db.devices.map
        (fun d => (d.ID, d.ChirpStackDeviceCreated, d.ChirpStackDeviceActivated))
      = w.db.devices.map
        (fun d => (d.ID, d.ChirpStackDeviceCreated, d.ChirpStackDeviceActivated)) := by
  unfold DeviceService.UpdateDevice
  cases req.VersionID with
  | none => exact DeviceRepository.UpdateDevice_keeps_progress env id req w
  | some versionID =>
    simp only
    have hs := DeviceRepository.GetDeviceVersionByID_snd env versionID w
    rcases hg : DeviceRepository.GetDeviceVersionByID env versionID w with ⟨r, w1⟩
    rw [hg] at hs
    simp only at hs
    subst hs
    cases r with
    | error err => rfl
    | ok ver => exact DeviceRepository.UpdateDevice_keeps_progress env id req w.tick

/-- C27: in every state the service operations can reach from a state whose
device rows have equal progress booleans (an empty device table in
particular), every device row has `ChirpStackDeviceCreated` equal to
`ChirpStackDeviceActivated`, whatever the store and the platform do; and a
successful `UpdateDevice` leaves both booleans of every row as they were. -/
theorem progress_booleans_agree (us : UserService) (ds : DeviceService) (w0 w : World)
    (h0 : ∀ d ∈ w0.db.devices, d.ChirpStackDeviceCreated = d.ChirpStackDeviceActivated)
    (hreach : Reachable us ds w0 w) :
    (∀ d ∈ w.db.devices, d.ChirpStackDeviceCreated = d.ChirpStackDeviceActivated)
      ∧ ∀ (env : Env) (id : UUID) (req : UpdateDeviceRequest),
          (ds.UpdateDevice env id req w).2.db.devices.map
              (fun d => (d.ID, d.ChirpStackDeviceCreated, d.ChirpStackDeviceActivated))
            = w.db.devices.map
              (fun d => (d.ID, d.ChirpStackDeviceCreated, d.ChirpStackDeviceActivated)) := by
  constructor
  · induction hreach with
    | start => exact h0
    | step env call _ ih => exact ServiceCall.run_flags us ds env call _ ih
  · intro env id req
    exact DeviceService.UpdateDevice_progress ds env id req w

/-- Witness of C27: the state after a device was created and mirrored on the
platform, reached from the sample store, whose device table is empty. -/
theorem progress_booleans_agree_witness :
    sampleWorld.db.devices = []
      ∧ (DeviceService.CreateDevice ⟨some sampleGateway⟩ sampleEnv ⟨"u1"⟩ sampleReq
          sampleWorld).2.db.devices.all
            (fun d => d.ChirpStackDeviceCreated == d.ChirpStackDeviceActivated) = true :=
  ⟨rfl, List.all_eq_true.mpr fun d hd => beq_iff_eq.mpr
    ((progress_booleans_agree ⟨none⟩ ⟨some sampleGateway⟩ sampleWorld _
      (fun d hd => absurd hd (List.not_mem_nil d))
      (Reachable.step sampleEnv (.CreateDevice ⟨"u1"⟩ sampleReq) Reachable.start)).1 d hd)⟩

/-! ## Tokens -/

theorem encodeSegment_no_dot (l : List Char) : '.' ∉ encodeSegment l := by
  induction l with
  | nil => simp [encodeSegment]
  | cons c cs ih =>
    unfold encodeSegment
    by_cases h1 : c = '.'
    · rw [if_pos h1]
      simp only [List.mem_cons, not_or]
      exact ⟨by decide, by decide, ih⟩
    · rw [if_neg h1]
      by_cases h2 : c = '~'
      · rw [if_pos h2]
        simp only [List.mem_cons, not_or]
        exact ⟨by decide, by decide, ih⟩
      · rw [if_neg h2]
        simp only [List.mem_cons, not_or]
        exact ⟨fun h => h1 h.symm, ih⟩

theorem decodeSegment_cons_of_ne (c : Char) (cs : List Char) (h : c ≠ '~') :
    decodeSegment (c :: cs) = (decodeSegment cs).map (fun l => c :: l) := by
  rw [decodeSegment.eq_def]
  simp only [if_neg h]

theorem decodeSegment_encodeSegment (l : List Char) :
    decodeSegment (encodeSegment l) = some l := by
  induction l with
  | nil => rfl
  | cons c cs ih =>
    unfold encodeSegment
    by_cases h1 : c = '.'
    · rw [if_pos h1]
      simp [decodeSegment, ih, h1]
    · rw [if_neg h1]
      by_cases h2 : c = '~'
      · rw [if_pos h2]
        simp [decodeSegment, ih, h2]
      · rw [if_neg h2, decodeSegment_cons_of_ne _ _ h2, ih]
        rfl

theorem splitOn_three (a b c : List Char) (ha : '.' ∉ a) (hb : '.' ∉ b) (hc : '.' ∉ c) :
    (a ++ '.' :: b ++ '.' :: c).splitOn '.' = [a, b, c] := by
  have h := List.splitOn_intercalate [a, b, c] '.'
    (by
      intro l hl
      simp only [List.mem_cons, List.mem_singleton, List.not_mem_nil, or_false] at hl
      rcases hl with rfl | rfl | rfl <;> assumption)
    (by simp)
  simpa [List.intercalate, List.intersperse] using h

/-- C26: for every issuer, user id and email, `GenerateToken` mints a non-empty
token and `ValidateToken` on it succeeds with claims carrying exactly that user
id and email; `ValidateToken` fails with an error on "invalid-token" and on
every string that is not three dot-separated segments. -/
theorem token_round_trip (j : JWTService) (u : UUID) (e : String) :
    (∃ token, j.GenerateToken u e = .ok token ∧ token ≠ ""
        ∧ j.ValidateToken token = .ok { UserID := u, Email := e })
      ∧ (∃ err, j.ValidateToken "invalid-token" = .error err)
      ∧ ∀ t : String, (t.toList.splitOn '.').length ≠ 3 →
          ∃ err, j.ValidateToken t = .error err := by
  refine ⟨⟨_, rfl, ?_, ?_⟩, ⟨"token is malformed", rfl⟩, ?_⟩
  · intro h
    have := congrArg String.toList h
    simp [String.toList] at this
  · have hsplit := splitOn_three (encodeSegment u.String.toList) (encodeSegment e.toList)
      (encodeSegment (j.sign j.secretKey
        (encodeSegment u.String.toList ++ '.' :: encodeSegment e.toList)))
      (encodeSegment_no_dot _) (encodeSegment_no_dot _) (encodeSegment_no_dot _)
    unfold JWTService.ValidateToken
    simp only [String.toList, List.append_assoc, List.cons_append] at hsplit ⊢
    rw [hsplit]
    simp only [decodeSegment_encodeSegment, if_true]
    rfl
  · intro t ht
    unfold JWTService.ValidateToken
    generalize t.toList.splitOn '.' = l at ht
    match l, ht with
    | [], _ => exact ⟨_, rfl⟩
    | [_], _ => exact ⟨_, rfl⟩
    | [_, _], _ => exact ⟨_, rfl⟩
    | [_, _, _], ht => exact absurd rfl ht
    | _ :: _ :: _ :: _ :: _, _ => exact ⟨_, rfl⟩

/-- C26 at the issuer `sampleJWTService`, the user id "u1" and the email
"test@example.com". -/
theorem token_round_trip_witness :
    (∃ token, sampleJWTService.GenerateToken ⟨"u1"⟩ "test@example.com" = .ok token
        ∧ token ≠ ""
        ∧ sampleJWTService.ValidateToken token
            = .ok { UserID := ⟨"u1"⟩, Email := "test@example.com" })
      ∧ (∃ err, sampleJWTService.ValidateToken "invalid-token" = .error err)
      ∧ ∀ t : String, (t.toList.splitOn '.').length ≠ 3 →
          ∃ err, sampleJWTService.ValidateToken t = .error err :=
  token_round_trip sampleJWTService ⟨"u1"⟩ "test@example.com"

end Chirpstack
